import Mathlib

set_option linter.unusedVariables false

/-!
Verification of the sysml-rs tree-sitter grammars.

The repository ships two generated parsers
(`src/sysml-lsp-zed-extension/grammars/tree-sitter-sysml/src/parser.c` and
`src/sysml-ts/tree-sitter/src/parser.c`), each consisting of a main lexer
automaton `ts_lex`, a reserved-word automaton `ts_lex_keywords`, and the
shift-reduce parse tables (`ts_parse_table`, `ts_small_parse_table`,
`ts_parse_actions`) together with symbol metadata, lex modes and field maps.

The automata and tables below are transcribed from those two files; the
transition lists keep the order of the `if` chains of the source, and the
interpreter `runLex` mirrors the `START_LEXER`/`ADVANCE`/`SKIP`/`ACCEPT_TOKEN`
loop of the generated code.  The run-time engine that consumes the tables
(shift-reduce loop, keyword replacement, tree building and error recovery) is
not part of the repository sources; it is modelled from the specification and
marked as such on each definition.
-/

/-- A character condition of a generated-lexer `if`: either a disjunction of
inclusive ranges (`lookahead == c` is the range `(c, c)`), or a conjunction of
inequalities (`lookahead != 0 && lookahead != c …`). -/
inductive Cond where
  | anyOf (rs : List (Char × Char))
  | noneOf (cs : List Char)

/-- Evaluation of a character condition, as in the C source. -/
def condHolds (c : Char) : Cond → Bool
  | .anyOf rs => rs.any (fun r => decide (r.1 ≤ c) && decide (c ≤ r.2))
  | .noneOf cs => cs.all (fun x => c != x)

/-- One state of a generated lexer: the symbol accepted on entry (the
`ACCEPT_TOKEN` at the top of the `case`, if any), the target of an
`if (eof) ADVANCE(_)` transition, and the ordered character transitions,
each with its target state and whether it is a `SKIP`. -/
structure LexState where
  accept : Option Nat
  eofTo : Option Nat
  trans : List (Cond × Nat × Bool)

def noLexState : LexState := ⟨none, none, []⟩

/-- The first transition of state `s` whose condition matches `c`
(the `if` chains of the source are evaluated top to bottom). -/
def lexStep (sts : List LexState) (s : Nat) (c : Char) : Option (Nat × Bool) :=
  match (sts.getD s noLexState).trans.find? (fun t => condHolds c t.1) with
  | some (_, tgt, sk) => some (tgt, sk)
  | none => none

/-- Result of one lexer scan: the last accepted symbol (none when the scan
fails without reaching an accepting state), the marked token end, and the
token start (both counted in characters from the start of the scan). -/
structure LexOut where
  sym : Option Nat
  endPos : Nat
  tokStart : Nat
deriving Repr, DecidableEq

/-- The result symbol after entering state `s`: its `ACCEPT_TOKEN`, if any,
overwrites the previous result. -/
def accSym (sts : List LexState) (s : Nat) (res : Option Nat) : Option Nat :=
  match (sts.getD s noLexState).accept with
  | some sym => some sym
  | none => res

/-- The marked token end after entering state `s`: its `ACCEPT_TOKEN`, if any,
marks the end at the current position. -/
def accEnd (sts : List LexState) (s pos resEnd : Nat) : Nat :=
  match (sts.getD s noLexState).accept with
  | some _ => pos
  | none => resEnd

/-- The `START_LEXER`/`ADVANCE`/`SKIP`/`ACCEPT_TOKEN` loop of the generated
lexers.  `pos` counts consumed characters; entering a state whose `case`
starts with `ACCEPT_TOKEN` overwrites the result symbol and marks the token
end at the current position; `SKIP` moves the token start past the consumed
character.  An `if (eof)` transition fires only with the input exhausted; in
both generated lexers every such target state accepts and has no transitions
of its own (checked during transcription), so the embedding applies that
accept and returns. -/
def runLex (sts : List LexState) : List Char → Nat → Nat → Nat → Option Nat → Nat → LexOut
  | [], s, pos, tokStart, res, resEnd =>
    (match (sts.getD s noLexState).eofTo with
     | some t =>
       match (sts.getD t noLexState).accept with
       | some sym => ⟨some sym, pos, tokStart⟩
       | none => ⟨accSym sts s res, accEnd sts s pos resEnd, tokStart⟩
     | none => ⟨accSym sts s res, accEnd sts s pos resEnd, tokStart⟩)
  | c :: rest, s, pos, tokStart, res, resEnd =>
    (match lexStep sts s c with
     | some (t, sk) =>
       runLex sts rest t (pos + 1) (if sk then pos + 1 else tokStart)
         (accSym sts s res) (accEnd sts s pos resEnd)
     | none => ⟨accSym sts s res, accEnd sts s pos resEnd, tokStart⟩)

/-- One scan of a generated lexer from start state `s`. -/
def lexFrom (sts : List LexState) (s : Nat) (cs : List Char) : LexOut :=
  runLex sts cs s 0 0 none 0

/-- One parse action of `ts_parse_actions`: `SHIFT`/`SHIFT_REPEAT` (both push
the lookahead), `SHIFT_EXTRA`, `REDUCE(symbol, child count, production id)`,
`ACCEPT_INPUT` and `RECOVER`. -/
inductive PAct where
  | shift (s : Nat)
  | shiftExtra
  | reduce (sym count prodId : Nat)
  | accept
  | recover

/-- One parser state's rows: terminal symbol to action entry
(`ACTIONS(..)` in the tables), and nonterminal symbol to goto state
(`STATE(..)` in the tables). -/
structure PState where
  acts : List (Nat × List PAct)
  gotos : List (Nat × Nat)
namespace Zed

/-- Transcription of the ts_lex automaton of /root/workspace/src/sysml-lsp-zed-extension/grammars/tree-sitter-sysml/src/parser.c (states in case order; transition lists keep the if-chain order of the source). -/
def lexSt0 : LexState := ⟨none, some 11, [(Cond.anyOf [('\x22', '\x22')], 1, false), (Cond.anyOf [('/', '/')], 2, false), (Cond.anyOf [(':', ':')], 22, false), (Cond.anyOf [(';', ';')], 14, false), (Cond.anyOf [('\x7b', '\x7b')], 12, false), (Cond.anyOf [('\x7d', '\x7d')], 13, false), (Cond.anyOf [('\t', '\r'), (' ', ' ')], 0, true), (Cond.anyOf [('0', '9')], 26, false), (Cond.anyOf [('A', 'Z'), ('_', '_'), ('a', 'z')], 24, false)]⟩
def lexSt1 : LexState := ⟨none, none, [(Cond.anyOf [('\x22', '\x22')], 25, false), (Cond.anyOf [('\\', '\\')], 8, false), (Cond.noneOf ['\x00'], 1, false)]⟩
def lexSt2 : LexState := ⟨none, none, [(Cond.anyOf [('*', '*')], 4, false), (Cond.anyOf [('/', '/')], 29, false)]⟩
def lexSt3 : LexState := ⟨none, none, [(Cond.anyOf [('*', '*')], 3, false), (Cond.anyOf [('/', '/')], 28, false), (Cond.noneOf ['\x00'], 4, false)]⟩
def lexSt4 : LexState := ⟨none, none, [(Cond.anyOf [('*', '*')], 3, false), (Cond.noneOf ['\x00'], 4, false)]⟩
def lexSt5 : LexState := ⟨none, none, [(Cond.anyOf [('/', '/')], 16, false), (Cond.anyOf [('\t', '\r'), (' ', ' ')], 19, false), (Cond.noneOf ['\x00', ';'], 20, false)]⟩
def lexSt6 : LexState := ⟨none, none, [(Cond.anyOf [(':', ':')], 23, false)]⟩
def lexSt7 : LexState := ⟨none, none, [(Cond.anyOf [('0', '9')], 27, false)]⟩
def lexSt8 : LexState := ⟨none, none, [(Cond.noneOf ['\x00', '\n'], 1, false)]⟩
def lexSt9 : LexState := ⟨none, some 11, [(Cond.anyOf [('/', '/')], 2, false), (Cond.anyOf [(':', ':')], 21, false), (Cond.anyOf [(';', ';')], 14, false), (Cond.anyOf [('\x7b', '\x7b')], 12, false), (Cond.anyOf [('\x7d', '\x7d')], 13, false), (Cond.anyOf [('\t', '\r'), (' ', ' ')], 9, true), (Cond.anyOf [('A', 'Z'), ('_', '_'), ('a', 'z')], 24, false)]⟩
def lexSt10 : LexState := ⟨none, some 11, [(Cond.anyOf [('/', '/')], 2, false), (Cond.anyOf [(':', ':')], 6, false), (Cond.anyOf [(';', ';')], 14, false), (Cond.anyOf [('\x7b', '\x7b')], 12, false), (Cond.anyOf [('\x7d', '\x7d')], 13, false), (Cond.anyOf [('\t', '\r'), (' ', ' ')], 10, true), (Cond.anyOf [('A', 'Z'), ('_', '_'), ('a', 'z')], 24, false)]⟩
def lexSt11 : LexState := ⟨some 0, none, []⟩
def lexSt12 : LexState := ⟨some 2, none, []⟩
def lexSt13 : LexState := ⟨some 3, none, []⟩
def lexSt14 : LexState := ⟨some 7, none, []⟩
def lexSt15 : LexState := ⟨some 10, none, [(Cond.anyOf [('\n', '\n')], 20, false), (Cond.anyOf [(';', ';')], 29, false), (Cond.noneOf ['\x00'], 15, false)]⟩
def lexSt16 : LexState := ⟨some 10, none, [(Cond.anyOf [('*', '*')], 18, false), (Cond.anyOf [('/', '/')], 15, false), (Cond.noneOf ['\x00', ';'], 20, false)]⟩
def lexSt17 : LexState := ⟨some 10, none, [(Cond.anyOf [('*', '*')], 17, false), (Cond.anyOf [('/', '/')], 20, false), (Cond.anyOf [(';', ';')], 4, false), (Cond.noneOf ['\x00'], 18, false)]⟩
def lexSt18 : LexState := ⟨some 10, none, [(Cond.anyOf [('*', '*')], 17, false), (Cond.anyOf [(';', ';')], 4, false), (Cond.noneOf ['\x00'], 18, false)]⟩
def lexSt19 : LexState := ⟨some 10, none, [(Cond.anyOf [('/', '/')], 16, false), (Cond.anyOf [('\t', '\r'), (' ', ' ')], 19, false), (Cond.noneOf ['\x00', ';'], 20, false)]⟩
def lexSt20 : LexState := ⟨some 10, none, [(Cond.noneOf ['\x00', ';'], 20, false)]⟩
def lexSt21 : LexState := ⟨some 19, none, []⟩
def lexSt22 : LexState := ⟨some 19, none, [(Cond.anyOf [(':', ':')], 23, false)]⟩
def lexSt23 : LexState := ⟨some 20, none, []⟩
def lexSt24 : LexState := ⟨some 1, none, [(Cond.anyOf [('0', '9'), ('A', 'Z'), ('_', '_'), ('a', 'z')], 24, false)]⟩
def lexSt25 : LexState := ⟨some 21, none, []⟩
def lexSt26 : LexState := ⟨some 22, none, [(Cond.anyOf [('.', '.')], 7, false), (Cond.anyOf [('0', '9')], 26, false)]⟩
def lexSt27 : LexState := ⟨some 22, none, [(Cond.anyOf [('0', '9')], 27, false)]⟩
def lexSt28 : LexState := ⟨some 23, none, []⟩
def lexSt29 : LexState := ⟨some 23, none, [(Cond.noneOf ['\x00', '\n'], 29, false)]⟩

def lexStates : List LexState := [lexSt0, lexSt1, lexSt2, lexSt3, lexSt4, lexSt5, lexSt6, lexSt7, lexSt8, lexSt9, lexSt10, lexSt11, lexSt12, lexSt13, lexSt14, lexSt15, lexSt16, lexSt17, lexSt18, lexSt19, lexSt20, lexSt21, lexSt22, lexSt23, lexSt24, lexSt25, lexSt26, lexSt27, lexSt28, lexSt29]

/-- Transcription of the ts_lex_keywords reserved-word automaton of the same file. -/
def kwSt0 : LexState := ⟨none, none, [(Cond.anyOf [('a', 'a')], 1, false), (Cond.anyOf [('c', 'c')], 2, false), (Cond.anyOf [('d', 'd')], 3, false), (Cond.anyOf [('e', 'e')], 4, false), (Cond.anyOf [('i', 'i')], 5, false), (Cond.anyOf [('p', 'p')], 6, false), (Cond.anyOf [('r', 'r')], 7, false), (Cond.anyOf [('s', 's')], 8, false), (Cond.anyOf [('t', 't')], 9, false), (Cond.anyOf [('\t', '\r'), (' ', ' ')], 0, true)]⟩
def kwSt1 : LexState := ⟨none, none, [(Cond.anyOf [('c', 'c')], 10, false), (Cond.anyOf [('t', 't')], 11, false)]⟩
def kwSt2 : LexState := ⟨none, none, [(Cond.anyOf [('o', 'o')], 12, false)]⟩
def kwSt3 : LexState := ⟨none, none, [(Cond.anyOf [('e', 'e')], 13, false)]⟩
def kwSt4 : LexState := ⟨none, none, [(Cond.anyOf [('n', 'n')], 14, false)]⟩
def kwSt5 : LexState := ⟨none, none, [(Cond.anyOf [('m', 'm')], 15, false), (Cond.anyOf [('n', 'n')], 16, false)]⟩
def kwSt6 : LexState := ⟨none, none, [(Cond.anyOf [('a', 'a')], 17, false), (Cond.anyOf [('o', 'o')], 18, false)]⟩
def kwSt7 : LexState := ⟨none, none, [(Cond.anyOf [('e', 'e')], 19, false)]⟩
def kwSt8 : LexState := ⟨none, none, [(Cond.anyOf [('t', 't')], 20, false)]⟩
def kwSt9 : LexState := ⟨none, none, [(Cond.anyOf [('y', 'y')], 21, false)]⟩
def kwSt10 : LexState := ⟨none, none, [(Cond.anyOf [('t', 't')], 22, false)]⟩
def kwSt11 : LexState := ⟨none, none, [(Cond.anyOf [('t', 't')], 23, false)]⟩
def kwSt12 : LexState := ⟨none, none, [(Cond.anyOf [('n', 'n')], 24, false)]⟩
def kwSt13 : LexState := ⟨none, none, [(Cond.anyOf [('f', 'f')], 25, false)]⟩
def kwSt14 : LexState := ⟨none, none, [(Cond.anyOf [('u', 'u')], 26, false)]⟩
def kwSt15 : LexState := ⟨none, none, [(Cond.anyOf [('p', 'p')], 27, false)]⟩
def kwSt16 : LexState := ⟨none, none, [(Cond.anyOf [('t', 't')], 28, false)]⟩
def kwSt17 : LexState := ⟨none, none, [(Cond.anyOf [('c', 'c')], 29, false), (Cond.anyOf [('r', 'r')], 30, false)]⟩
def kwSt18 : LexState := ⟨none, none, [(Cond.anyOf [('r', 'r')], 31, false)]⟩
def kwSt19 : LexState := ⟨none, none, [(Cond.anyOf [('q', 'q')], 32, false)]⟩
def kwSt20 : LexState := ⟨none, none, [(Cond.anyOf [('a', 'a')], 33, false)]⟩
def kwSt21 : LexState := ⟨none, none, [(Cond.anyOf [('p', 'p')], 34, false)]⟩
def kwSt22 : LexState := ⟨none, none, [(Cond.anyOf [('i', 'i')], 35, false)]⟩
def kwSt23 : LexState := ⟨none, none, [(Cond.anyOf [('r', 'r')], 36, false)]⟩
def kwSt24 : LexState := ⟨none, none, [(Cond.anyOf [('s', 's')], 37, false)]⟩
def kwSt25 : LexState := ⟨some 6, none, []⟩
def kwSt26 : LexState := ⟨none, none, [(Cond.anyOf [('m', 'm')], 38, false)]⟩
def kwSt27 : LexState := ⟨none, none, [(Cond.anyOf [('o', 'o')], 39, false)]⟩
def kwSt28 : LexState := ⟨none, none, [(Cond.anyOf [('e', 'e')], 40, false)]⟩
def kwSt29 : LexState := ⟨none, none, [(Cond.anyOf [('k', 'k')], 41, false)]⟩
def kwSt30 : LexState := ⟨none, none, [(Cond.anyOf [('t', 't')], 42, false)]⟩
def kwSt31 : LexState := ⟨none, none, [(Cond.anyOf [('t', 't')], 43, false)]⟩
def kwSt32 : LexState := ⟨none, none, [(Cond.anyOf [('u', 'u')], 44, false)]⟩
def kwSt33 : LexState := ⟨none, none, [(Cond.anyOf [('t', 't')], 45, false)]⟩
def kwSt34 : LexState := ⟨none, none, [(Cond.anyOf [('e', 'e')], 46, false)]⟩
def kwSt35 : LexState := ⟨none, none, [(Cond.anyOf [('o', 'o')], 47, false)]⟩
def kwSt36 : LexState := ⟨none, none, [(Cond.anyOf [('i', 'i')], 48, false)]⟩
def kwSt37 : LexState := ⟨none, none, [(Cond.anyOf [('t', 't')], 49, false)]⟩
def kwSt38 : LexState := ⟨some 17, none, []⟩
def kwSt39 : LexState := ⟨none, none, [(Cond.anyOf [('r', 'r')], 50, false)]⟩
def kwSt40 : LexState := ⟨none, none, [(Cond.anyOf [('r', 'r')], 51, false)]⟩
def kwSt41 : LexState := ⟨none, none, [(Cond.anyOf [('a', 'a')], 52, false)]⟩
def kwSt42 : LexState := ⟨some 5, none, []⟩
def kwSt43 : LexState := ⟨some 14, none, []⟩
def kwSt44 : LexState := ⟨none, none, [(Cond.anyOf [('i', 'i')], 53, false)]⟩
def kwSt45 : LexState := ⟨none, none, [(Cond.anyOf [('e', 'e')], 54, false)]⟩
def kwSt46 : LexState := ⟨some 18, none, []⟩
def kwSt47 : LexState := ⟨none, none, [(Cond.anyOf [('n', 'n')], 55, false)]⟩
def kwSt48 : LexState := ⟨none, none, [(Cond.anyOf [('b', 'b')], 56, false)]⟩
def kwSt49 : LexState := ⟨none, none, [(Cond.anyOf [('r', 'r')], 57, false)]⟩
def kwSt50 : LexState := ⟨none, none, [(Cond.anyOf [('t', 't')], 58, false)]⟩
def kwSt51 : LexState := ⟨none, none, [(Cond.anyOf [('f', 'f')], 59, false)]⟩
def kwSt52 : LexState := ⟨none, none, [(Cond.anyOf [('g', 'g')], 60, false)]⟩
def kwSt53 : LexState := ⟨none, none, [(Cond.anyOf [('r', 'r')], 61, false)]⟩
def kwSt54 : LexState := ⟨some 12, none, []⟩
def kwSt55 : LexState := ⟨some 11, none, []⟩
def kwSt56 : LexState := ⟨none, none, [(Cond.anyOf [('u', 'u')], 62, false)]⟩
def kwSt57 : LexState := ⟨none, none, [(Cond.anyOf [('a', 'a')], 63, false)]⟩
def kwSt58 : LexState := ⟨some 9, none, []⟩
def kwSt59 : LexState := ⟨none, none, [(Cond.anyOf [('a', 'a')], 64, false)]⟩
def kwSt60 : LexState := ⟨none, none, [(Cond.anyOf [('e', 'e')], 65, false)]⟩
def kwSt61 : LexState := ⟨none, none, [(Cond.anyOf [('e', 'e')], 66, false)]⟩
def kwSt62 : LexState := ⟨none, none, [(Cond.anyOf [('t', 't')], 67, false)]⟩
def kwSt63 : LexState := ⟨none, none, [(Cond.anyOf [('i', 'i')], 68, false)]⟩
def kwSt64 : LexState := ⟨none, none, [(Cond.anyOf [('c', 'c')], 69, false)]⟩
def kwSt65 : LexState := ⟨some 4, none, []⟩
def kwSt66 : LexState := ⟨none, none, [(Cond.anyOf [('m', 'm')], 70, false)]⟩
def kwSt67 : LexState := ⟨none, none, [(Cond.anyOf [('e', 'e')], 71, false)]⟩
def kwSt68 : LexState := ⟨none, none, [(Cond.anyOf [('n', 'n')], 72, false)]⟩
def kwSt69 : LexState := ⟨none, none, [(Cond.anyOf [('e', 'e')], 73, false)]⟩
def kwSt70 : LexState := ⟨none, none, [(Cond.anyOf [('e', 'e')], 74, false)]⟩
def kwSt71 : LexState := ⟨some 8, none, []⟩
def kwSt72 : LexState := ⟨none, none, [(Cond.anyOf [('t', 't')], 75, false)]⟩
def kwSt73 : LexState := ⟨some 13, none, []⟩
def kwSt74 : LexState := ⟨none, none, [(Cond.anyOf [('n', 'n')], 76, false)]⟩
def kwSt75 : LexState := ⟨some 16, none, []⟩
def kwSt76 : LexState := ⟨none, none, [(Cond.anyOf [('t', 't')], 77, false)]⟩
def kwSt77 : LexState := ⟨some 15, none, []⟩

def kwStates : List LexState := [kwSt0, kwSt1, kwSt2, kwSt3, kwSt4, kwSt5, kwSt6, kwSt7, kwSt8, kwSt9, kwSt10, kwSt11, kwSt12, kwSt13, kwSt14, kwSt15, kwSt16, kwSt17, kwSt18, kwSt19, kwSt20, kwSt21, kwSt22, kwSt23, kwSt24, kwSt25, kwSt26, kwSt27, kwSt28, kwSt29, kwSt30, kwSt31, kwSt32, kwSt33, kwSt34, kwSt35, kwSt36, kwSt37, kwSt38, kwSt39, kwSt40, kwSt41, kwSt42, kwSt43, kwSt44, kwSt45, kwSt46, kwSt47, kwSt48, kwSt49, kwSt50, kwSt51, kwSt52, kwSt53, kwSt54, kwSt55, kwSt56, kwSt57, kwSt58, kwSt59, kwSt60, kwSt61, kwSt62, kwSt63, kwSt64, kwSt65, kwSt66, kwSt67, kwSt68, kwSt69, kwSt70, kwSt71, kwSt72, kwSt73, kwSt74, kwSt75, kwSt76, kwSt77]

/-- Transcription of ts_parse_table, ts_small_parse_table and ts_parse_actions: per parser state, the (terminal, action-entry) list and the (nonterminal, goto-state) list. -/
def pSt0 : PState := ⟨[(0, [PAct.recover]), (1, [PAct.recover]), (2, [PAct.recover]), (3, [PAct.recover]), (4, [PAct.recover]), (5, [PAct.recover]), (6, [PAct.recover]), (7, [PAct.recover]), (8, [PAct.recover]), (9, [PAct.recover]), (11, [PAct.recover]), (12, [PAct.recover]), (13, [PAct.recover]), (14, [PAct.recover]), (15, [PAct.recover]), (16, [PAct.recover]), (17, [PAct.recover]), (18, [PAct.recover]), (19, [PAct.recover]), (20, [PAct.recover]), (21, [PAct.recover]), (22, [PAct.recover]), (23, [PAct.shiftExtra])], []⟩
def pSt1 : PState := ⟨[(0, [PAct.reduce 24 0 0]), (4, [PAct.shift 51]), (5, [PAct.shift 45]), (8, [PAct.shift 52]), (9, [PAct.shift 48]), (11, [PAct.shift 44]), (12, [PAct.shift 44]), (13, [PAct.shift 44]), (14, [PAct.shift 44]), (15, [PAct.shift 44]), (16, [PAct.shift 44]), (17, [PAct.shift 44]), (18, [PAct.shift 44]), (23, [PAct.shiftExtra])], [(24, 46), (25, 3), (27, 3), (28, 3), (29, 3), (30, 3), (31, 3), (35, 3)]⟩
def pSt2 : PState := ⟨[(0, [PAct.reduce 35 2 0]), (3, [PAct.reduce 35 2 0]), (4, [PAct.reduce 35 2 0, PAct.shift 51]), (5, [PAct.reduce 35 2 0, PAct.shift 45]), (8, [PAct.reduce 35 2 0, PAct.shift 52]), (9, [PAct.reduce 35 2 0, PAct.shift 48]), (11, [PAct.reduce 35 2 0, PAct.shift 44]), (12, [PAct.reduce 35 2 0, PAct.shift 44]), (13, [PAct.reduce 35 2 0, PAct.shift 44]), (14, [PAct.reduce 35 2 0, PAct.shift 44]), (15, [PAct.reduce 35 2 0, PAct.shift 44]), (16, [PAct.reduce 35 2 0, PAct.shift 44]), (17, [PAct.reduce 35 2 0, PAct.shift 44]), (18, [PAct.reduce 35 2 0, PAct.shift 44]), (23, [PAct.shiftExtra])], [(25, 2), (27, 2), (28, 2), (29, 2), (30, 2), (31, 2), (35, 2)]⟩
def pSt3 : PState := ⟨[(0, [PAct.reduce 24 1 0]), (4, [PAct.shift 51]), (5, [PAct.shift 45]), (8, [PAct.shift 52]), (9, [PAct.shift 48]), (11, [PAct.shift 44]), (12, [PAct.shift 44]), (13, [PAct.shift 44]), (14, [PAct.shift 44]), (15, [PAct.shift 44]), (16, [PAct.shift 44]), (17, [PAct.shift 44]), (18, [PAct.shift 44]), (23, [PAct.shiftExtra])], [(25, 2), (27, 2), (28, 2), (29, 2), (30, 2), (31, 2), (35, 2)]⟩
def pSt4 : PState := ⟨[(3, [PAct.shift 24]), (4, [PAct.shift 51]), (5, [PAct.shift 45]), (8, [PAct.shift 52]), (9, [PAct.shift 48]), (11, [PAct.shift 44]), (12, [PAct.shift 44]), (13, [PAct.shift 44]), (14, [PAct.shift 44]), (15, [PAct.shift 44]), (16, [PAct.shift 44]), (17, [PAct.shift 44]), (18, [PAct.shift 44]), (23, [PAct.shiftExtra])], [(25, 5), (27, 5), (28, 5), (29, 5), (30, 5), (31, 5), (35, 5)]⟩
def pSt5 : PState := ⟨[(3, [PAct.shift 27]), (4, [PAct.shift 51]), (5, [PAct.shift 45]), (8, [PAct.shift 52]), (9, [PAct.shift 48]), (11, [PAct.shift 44]), (12, [PAct.shift 44]), (13, [PAct.shift 44]), (14, [PAct.shift 44]), (15, [PAct.shift 44]), (16, [PAct.shift 44]), (17, [PAct.shift 44]), (18, [PAct.shift 44]), (23, [PAct.shiftExtra])], [(25, 2), (27, 2), (28, 2), (29, 2), (30, 2), (31, 2), (35, 2)]⟩
def pSt6 : PState := ⟨[(0, [PAct.reduce 28 3 2]), (2, [PAct.shift 4]), (3, [PAct.reduce 28 3 2]), (4, [PAct.reduce 28 3 2]), (5, [PAct.reduce 28 3 2]), (7, [PAct.shift 31]), (8, [PAct.reduce 28 3 2]), (9, [PAct.reduce 28 3 2]), (11, [PAct.reduce 28 3 2]), (12, [PAct.reduce 28 3 2]), (13, [PAct.reduce 28 3 2]), (14, [PAct.reduce 28 3 2]), (15, [PAct.reduce 28 3 2]), (16, [PAct.reduce 28 3 2]), (17, [PAct.reduce 28 3 2]), (18, [PAct.reduce 28 3 2]), (19, [PAct.shift 43]), (23, [PAct.shiftExtra])], [(26, 22), (32, 14)]⟩
def pSt7 : PState := ⟨[(0, [PAct.reduce 28 2 1]), (2, [PAct.shift 4]), (3, [PAct.reduce 28 2 1]), (4, [PAct.reduce 28 2 1]), (5, [PAct.reduce 28 2 1]), (7, [PAct.shift 42]), (8, [PAct.reduce 28 2 1]), (9, [PAct.reduce 28 2 1]), (11, [PAct.reduce 28 2 1]), (12, [PAct.reduce 28 2 1]), (13, [PAct.reduce 28 2 1]), (14, [PAct.reduce 28 2 1]), (15, [PAct.reduce 28 2 1]), (16, [PAct.reduce 28 2 1]), (17, [PAct.reduce 28 2 1]), (18, [PAct.reduce 28 2 1]), (19, [PAct.shift 43]), (23, [PAct.shiftExtra])], [(26, 21), (32, 13)]⟩
def pSt8 : PState := ⟨[(0, [PAct.reduce 33 1 0]), (2, [PAct.reduce 33 1 0]), (3, [PAct.reduce 33 1 0]), (4, [PAct.reduce 33 1 0]), (5, [PAct.reduce 33 1 0]), (7, [PAct.reduce 33 1 0]), (8, [PAct.reduce 33 1 0]), (9, [PAct.reduce 33 1 0]), (11, [PAct.reduce 33 1 0]), (12, [PAct.reduce 33 1 0]), (13, [PAct.reduce 33 1 0]), (14, [PAct.reduce 33 1 0]), (15, [PAct.reduce 33 1 0]), (16, [PAct.reduce 33 1 0]), (17, [PAct.reduce 33 1 0]), (18, [PAct.reduce 33 1 0]), (20, [PAct.shift 47]), (23, [PAct.shiftExtra])], [(36, 9)]⟩
def pSt9 : PState := ⟨[(0, [PAct.reduce 34 2 0]), (2, [PAct.reduce 34 2 0]), (3, [PAct.reduce 34 2 0]), (4, [PAct.reduce 34 2 0]), (5, [PAct.reduce 34 2 0]), (7, [PAct.reduce 34 2 0]), (8, [PAct.reduce 34 2 0]), (9, [PAct.reduce 34 2 0]), (11, [PAct.reduce 34 2 0]), (12, [PAct.reduce 34 2 0]), (13, [PAct.reduce 34 2 0]), (14, [PAct.reduce 34 2 0]), (15, [PAct.reduce 34 2 0]), (16, [PAct.reduce 34 2 0]), (17, [PAct.reduce 34 2 0]), (18, [PAct.reduce 34 2 0]), (20, [PAct.shift 47]), (23, [PAct.shiftExtra])], [(36, 10)]⟩
def pSt10 : PState := ⟨[(0, [PAct.reduce 36 2 0]), (2, [PAct.reduce 36 2 0]), (3, [PAct.reduce 36 2 0]), (4, [PAct.reduce 36 2 0]), (5, [PAct.reduce 36 2 0]), (7, [PAct.reduce 36 2 0]), (8, [PAct.reduce 36 2 0]), (9, [PAct.reduce 36 2 0]), (11, [PAct.reduce 36 2 0]), (12, [PAct.reduce 36 2 0]), (13, [PAct.reduce 36 2 0]), (14, [PAct.reduce 36 2 0]), (15, [PAct.reduce 36 2 0]), (16, [PAct.reduce 36 2 0]), (17, [PAct.reduce 36 2 0]), (18, [PAct.reduce 36 2 0]), (20, [PAct.reduce 36 2 0, PAct.shift 47]), (23, [PAct.shiftExtra])], [(36, 10)]⟩
def pSt11 : PState := ⟨[(23, [PAct.shiftExtra]), (19, [PAct.shift 43]), (7, [PAct.shift 29]), (0, [PAct.reduce 29 2 1]), (3, [PAct.reduce 29 2 1]), (4, [PAct.reduce 29 2 1]), (5, [PAct.reduce 29 2 1]), (8, [PAct.reduce 29 2 1]), (9, [PAct.reduce 29 2 1]), (11, [PAct.reduce 29 2 1]), (12, [PAct.reduce 29 2 1]), (13, [PAct.reduce 29 2 1]), (14, [PAct.reduce 29 2 1]), (15, [PAct.reduce 29 2 1]), (16, [PAct.reduce 29 2 1]), (17, [PAct.reduce 29 2 1]), (18, [PAct.reduce 29 2 1])], [(32, 23)]⟩
def pSt12 : PState := ⟨[(23, [PAct.shiftExtra]), (2, [PAct.shift 4]), (7, [PAct.shift 32]), (0, [PAct.reduce 31 2 1]), (3, [PAct.reduce 31 2 1]), (4, [PAct.reduce 31 2 1]), (5, [PAct.reduce 31 2 1]), (8, [PAct.reduce 31 2 1]), (9, [PAct.reduce 31 2 1]), (11, [PAct.reduce 31 2 1]), (12, [PAct.reduce 31 2 1]), (13, [PAct.reduce 31 2 1]), (14, [PAct.reduce 31 2 1]), (15, [PAct.reduce 31 2 1]), (16, [PAct.reduce 31 2 1]), (17, [PAct.reduce 31 2 1]), (18, [PAct.reduce 31 2 1])], [(26, 25)]⟩
def pSt13 : PState := ⟨[(23, [PAct.shiftExtra]), (2, [PAct.shift 4]), (7, [PAct.shift 33]), (0, [PAct.reduce 28 3 1]), (3, [PAct.reduce 28 3 1]), (4, [PAct.reduce 28 3 1]), (5, [PAct.reduce 28 3 1]), (8, [PAct.reduce 28 3 1]), (9, [PAct.reduce 28 3 1]), (11, [PAct.reduce 28 3 1]), (12, [PAct.reduce 28 3 1]), (13, [PAct.reduce 28 3 1]), (14, [PAct.reduce 28 3 1]), (15, [PAct.reduce 28 3 1]), (16, [PAct.reduce 28 3 1]), (17, [PAct.reduce 28 3 1]), (18, [PAct.reduce 28 3 1])], [(26, 26)]⟩
def pSt14 : PState := ⟨[(23, [PAct.shiftExtra]), (2, [PAct.shift 4]), (7, [PAct.shift 36]), (0, [PAct.reduce 28 4 2]), (3, [PAct.reduce 28 4 2]), (4, [PAct.reduce 28 4 2]), (5, [PAct.reduce 28 4 2]), (8, [PAct.reduce 28 4 2]), (9, [PAct.reduce 28 4 2]), (11, [PAct.reduce 28 4 2]), (12, [PAct.reduce 28 4 2]), (13, [PAct.reduce 28 4 2]), (14, [PAct.reduce 28 4 2]), (15, [PAct.reduce 28 4 2]), (16, [PAct.reduce 28 4 2]), (17, [PAct.reduce 28 4 2]), (18, [PAct.reduce 28 4 2])], [(26, 28)]⟩
def pSt15 : PState := ⟨[(23, [PAct.shiftExtra]), (2, [PAct.shift 4]), (7, [PAct.shift 34]), (0, [PAct.reduce 31 3 2]), (3, [PAct.reduce 31 3 2]), (4, [PAct.reduce 31 3 2]), (5, [PAct.reduce 31 3 2]), (8, [PAct.reduce 31 3 2]), (9, [PAct.reduce 31 3 2]), (11, [PAct.reduce 31 3 2]), (12, [PAct.reduce 31 3 2]), (13, [PAct.reduce 31 3 2]), (14, [PAct.reduce 31 3 2]), (15, [PAct.reduce 31 3 2]), (16, [PAct.reduce 31 3 2]), (17, [PAct.reduce 31 3 2]), (18, [PAct.reduce 31 3 2])], [(26, 20)]⟩
def pSt16 : PState := ⟨[(23, [PAct.shiftExtra]), (0, [PAct.reduce 36 2 0]), (2, [PAct.reduce 36 2 0]), (3, [PAct.reduce 36 2 0]), (4, [PAct.reduce 36 2 0]), (5, [PAct.reduce 36 2 0]), (7, [PAct.reduce 36 2 0]), (8, [PAct.reduce 36 2 0]), (9, [PAct.reduce 36 2 0]), (11, [PAct.reduce 36 2 0]), (12, [PAct.reduce 36 2 0]), (13, [PAct.reduce 36 2 0]), (14, [PAct.reduce 36 2 0]), (15, [PAct.reduce 36 2 0]), (16, [PAct.reduce 36 2 0]), (17, [PAct.reduce 36 2 0]), (18, [PAct.reduce 36 2 0]), (20, [PAct.reduce 36 2 0])], []⟩
def pSt17 : PState := ⟨[(23, [PAct.shiftExtra]), (2, [PAct.shift 4]), (0, [PAct.reduce 27 2 1]), (3, [PAct.reduce 27 2 1]), (4, [PAct.reduce 27 2 1]), (5, [PAct.reduce 27 2 1]), (8, [PAct.reduce 27 2 1]), (9, [PAct.reduce 27 2 1]), (11, [PAct.reduce 27 2 1]), (12, [PAct.reduce 27 2 1]), (13, [PAct.reduce 27 2 1]), (14, [PAct.reduce 27 2 1]), (15, [PAct.reduce 27 2 1]), (16, [PAct.reduce 27 2 1]), (17, [PAct.reduce 27 2 1]), (18, [PAct.reduce 27 2 1])], [(26, 38)]⟩
def pSt18 : PState := ⟨[(23, [PAct.shiftExtra]), (0, [PAct.reduce 33 1 0]), (2, [PAct.reduce 33 1 0]), (3, [PAct.reduce 33 1 0]), (4, [PAct.reduce 33 1 0]), (5, [PAct.reduce 33 1 0]), (7, [PAct.reduce 33 1 0]), (8, [PAct.reduce 33 1 0]), (9, [PAct.reduce 33 1 0]), (11, [PAct.reduce 33 1 0]), (12, [PAct.reduce 33 1 0]), (13, [PAct.reduce 33 1 0]), (14, [PAct.reduce 33 1 0]), (15, [PAct.reduce 33 1 0]), (16, [PAct.reduce 33 1 0]), (17, [PAct.reduce 33 1 0]), (18, [PAct.reduce 33 1 0])], []⟩
def pSt19 : PState := ⟨[(23, [PAct.shiftExtra]), (0, [PAct.reduce 32 2 3]), (2, [PAct.reduce 32 2 3]), (3, [PAct.reduce 32 2 3]), (4, [PAct.reduce 32 2 3]), (5, [PAct.reduce 32 2 3]), (7, [PAct.reduce 32 2 3]), (8, [PAct.reduce 32 2 3]), (9, [PAct.reduce 32 2 3]), (11, [PAct.reduce 32 2 3]), (12, [PAct.reduce 32 2 3]), (13, [PAct.reduce 32 2 3]), (14, [PAct.reduce 32 2 3]), (15, [PAct.reduce 32 2 3]), (16, [PAct.reduce 32 2 3]), (17, [PAct.reduce 32 2 3]), (18, [PAct.reduce 32 2 3])], []⟩
def pSt20 : PState := ⟨[(23, [PAct.shiftExtra]), (7, [PAct.shift 40]), (0, [PAct.reduce 31 4 2]), (3, [PAct.reduce 31 4 2]), (4, [PAct.reduce 31 4 2]), (5, [PAct.reduce 31 4 2]), (8, [PAct.reduce 31 4 2]), (9, [PAct.reduce 31 4 2]), (11, [PAct.reduce 31 4 2]), (12, [PAct.reduce 31 4 2]), (13, [PAct.reduce 31 4 2]), (14, [PAct.reduce 31 4 2]), (15, [PAct.reduce 31 4 2]), (16, [PAct.reduce 31 4 2]), (17, [PAct.reduce 31 4 2]), (18, [PAct.reduce 31 4 2])], []⟩
def pSt21 : PState := ⟨[(23, [PAct.shiftExtra]), (7, [PAct.shift 33]), (0, [PAct.reduce 28 3 1]), (3, [PAct.reduce 28 3 1]), (4, [PAct.reduce 28 3 1]), (5, [PAct.reduce 28 3 1]), (8, [PAct.reduce 28 3 1]), (9, [PAct.reduce 28 3 1]), (11, [PAct.reduce 28 3 1]), (12, [PAct.reduce 28 3 1]), (13, [PAct.reduce 28 3 1]), (14, [PAct.reduce 28 3 1]), (15, [PAct.reduce 28 3 1]), (16, [PAct.reduce 28 3 1]), (17, [PAct.reduce 28 3 1]), (18, [PAct.reduce 28 3 1])], []⟩
def pSt22 : PState := ⟨[(23, [PAct.shiftExtra]), (7, [PAct.shift 36]), (0, [PAct.reduce 28 4 2]), (3, [PAct.reduce 28 4 2]), (4, [PAct.reduce 28 4 2]), (5, [PAct.reduce 28 4 2]), (8, [PAct.reduce 28 4 2]), (9, [PAct.reduce 28 4 2]), (11, [PAct.reduce 28 4 2]), (12, [PAct.reduce 28 4 2]), (13, [PAct.reduce 28 4 2]), (14, [PAct.reduce 28 4 2]), (15, [PAct.reduce 28 4 2]), (16, [PAct.reduce 28 4 2]), (17, [PAct.reduce 28 4 2]), (18, [PAct.reduce 28 4 2])], []⟩
def pSt23 : PState := ⟨[(23, [PAct.shiftExtra]), (7, [PAct.shift 35]), (0, [PAct.reduce 29 3 1]), (3, [PAct.reduce 29 3 1]), (4, [PAct.reduce 29 3 1]), (5, [PAct.reduce 29 3 1]), (8, [PAct.reduce 29 3 1]), (9, [PAct.reduce 29 3 1]), (11, [PAct.reduce 29 3 1]), (12, [PAct.reduce 29 3 1]), (13, [PAct.reduce 29 3 1]), (14, [PAct.reduce 29 3 1]), (15, [PAct.reduce 29 3 1]), (16, [PAct.reduce 29 3 1]), (17, [PAct.reduce 29 3 1]), (18, [PAct.reduce 29 3 1])], []⟩
def pSt24 : PState := ⟨[(23, [PAct.shiftExtra]), (0, [PAct.reduce 26 2 0]), (3, [PAct.reduce 26 2 0]), (4, [PAct.reduce 26 2 0]), (5, [PAct.reduce 26 2 0]), (7, [PAct.reduce 26 2 0]), (8, [PAct.reduce 26 2 0]), (9, [PAct.reduce 26 2 0]), (11, [PAct.reduce 26 2 0]), (12, [PAct.reduce 26 2 0]), (13, [PAct.reduce 26 2 0]), (14, [PAct.reduce 26 2 0]), (15, [PAct.reduce 26 2 0]), (16, [PAct.reduce 26 2 0]), (17, [PAct.reduce 26 2 0]), (18, [PAct.reduce 26 2 0])], []⟩
def pSt25 : PState := ⟨[(23, [PAct.shiftExtra]), (7, [PAct.shift 37]), (0, [PAct.reduce 31 3 1]), (3, [PAct.reduce 31 3 1]), (4, [PAct.reduce 31 3 1]), (5, [PAct.reduce 31 3 1]), (8, [PAct.reduce 31 3 1]), (9, [PAct.reduce 31 3 1]), (11, [PAct.reduce 31 3 1]), (12, [PAct.reduce 31 3 1]), (13, [PAct.reduce 31 3 1]), (14, [PAct.reduce 31 3 1]), (15, [PAct.reduce 31 3 1]), (16, [PAct.reduce 31 3 1]), (17, [PAct.reduce 31 3 1]), (18, [PAct.reduce 31 3 1])], []⟩
def pSt26 : PState := ⟨[(23, [PAct.shiftExtra]), (7, [PAct.shift 39]), (0, [PAct.reduce 28 4 1]), (3, [PAct.reduce 28 4 1]), (4, [PAct.reduce 28 4 1]), (5, [PAct.reduce 28 4 1]), (8, [PAct.reduce 28 4 1]), (9, [PAct.reduce 28 4 1]), (11, [PAct.reduce 28 4 1]), (12, [PAct.reduce 28 4 1]), (13, [PAct.reduce 28 4 1]), (14, [PAct.reduce 28 4 1]), (15, [PAct.reduce 28 4 1]), (16, [PAct.reduce 28 4 1]), (17, [PAct.reduce 28 4 1]), (18, [PAct.reduce 28 4 1])], []⟩
def pSt27 : PState := ⟨[(23, [PAct.shiftExtra]), (0, [PAct.reduce 26 3 0]), (3, [PAct.reduce 26 3 0]), (4, [PAct.reduce 26 3 0]), (5, [PAct.reduce 26 3 0]), (7, [PAct.reduce 26 3 0]), (8, [PAct.reduce 26 3 0]), (9, [PAct.reduce 26 3 0]), (11, [PAct.reduce 26 3 0]), (12, [PAct.reduce 26 3 0]), (13, [PAct.reduce 26 3 0]), (14, [PAct.reduce 26 3 0]), (15, [PAct.reduce 26 3 0]), (16, [PAct.reduce 26 3 0]), (17, [PAct.reduce 26 3 0]), (18, [PAct.reduce 26 3 0])], []⟩
def pSt28 : PState := ⟨[(23, [PAct.shiftExtra]), (7, [PAct.shift 41]), (0, [PAct.reduce 28 5 2]), (3, [PAct.reduce 28 5 2]), (4, [PAct.reduce 28 5 2]), (5, [PAct.reduce 28 5 2]), (8, [PAct.reduce 28 5 2]), (9, [PAct.reduce 28 5 2]), (11, [PAct.reduce 28 5 2]), (12, [PAct.reduce 28 5 2]), (13, [PAct.reduce 28 5 2]), (14, [PAct.reduce 28 5 2]), (15, [PAct.reduce 28 5 2]), (16, [PAct.reduce 28 5 2]), (17, [PAct.reduce 28 5 2]), (18, [PAct.reduce 28 5 2])], []⟩
def pSt29 : PState := ⟨[(23, [PAct.shiftExtra]), (0, [PAct.reduce 29 3 1]), (3, [PAct.reduce 29 3 1]), (4, [PAct.reduce 29 3 1]), (5, [PAct.reduce 29 3 1]), (8, [PAct.reduce 29 3 1]), (9, [PAct.reduce 29 3 1]), (11, [PAct.reduce 29 3 1]), (12, [PAct.reduce 29 3 1]), (13, [PAct.reduce 29 3 1]), (14, [PAct.reduce 29 3 1]), (15, [PAct.reduce 29 3 1]), (16, [PAct.reduce 29 3 1]), (17, [PAct.reduce 29 3 1]), (18, [PAct.reduce 29 3 1])], []⟩
def pSt30 : PState := ⟨[(23, [PAct.shiftExtra]), (0, [PAct.reduce 30 3 0]), (3, [PAct.reduce 30 3 0]), (4, [PAct.reduce 30 3 0]), (5, [PAct.reduce 30 3 0]), (8, [PAct.reduce 30 3 0]), (9, [PAct.reduce 30 3 0]), (11, [PAct.reduce 30 3 0]), (12, [PAct.reduce 30 3 0]), (13, [PAct.reduce 30 3 0]), (14, [PAct.reduce 30 3 0]), (15, [PAct.reduce 30 3 0]), (16, [PAct.reduce 30 3 0]), (17, [PAct.reduce 30 3 0]), (18, [PAct.reduce 30 3 0])], []⟩
def pSt31 : PState := ⟨[(23, [PAct.shiftExtra]), (0, [PAct.reduce 28 4 2]), (3, [PAct.reduce 28 4 2]), (4, [PAct.reduce 28 4 2]), (5, [PAct.reduce 28 4 2]), (8, [PAct.reduce 28 4 2]), (9, [PAct.reduce 28 4 2]), (11, [PAct.reduce 28 4 2]), (12, [PAct.reduce 28 4 2]), (13, [PAct.reduce 28 4 2]), (14, [PAct.reduce 28 4 2]), (15, [PAct.reduce 28 4 2]), (16, [PAct.reduce 28 4 2]), (17, [PAct.reduce 28 4 2]), (18, [PAct.reduce 28 4 2])], []⟩
def pSt32 : PState := ⟨[(23, [PAct.shiftExtra]), (0, [PAct.reduce 31 3 1]), (3, [PAct.reduce 31 3 1]), (4, [PAct.reduce 31 3 1]), (5, [PAct.reduce 31 3 1]), (8, [PAct.reduce 31 3 1]), (9, [PAct.reduce 31 3 1]), (11, [PAct.reduce 31 3 1]), (12, [PAct.reduce 31 3 1]), (13, [PAct.reduce 31 3 1]), (14, [PAct.reduce 31 3 1]), (15, [PAct.reduce 31 3 1]), (16, [PAct.reduce 31 3 1]), (17, [PAct.reduce 31 3 1]), (18, [PAct.reduce 31 3 1])], []⟩
def pSt33 : PState := ⟨[(23, [PAct.shiftExtra]), (0, [PAct.reduce 28 4 1]), (3, [PAct.reduce 28 4 1]), (4, [PAct.reduce 28 4 1]), (5, [PAct.reduce 28 4 1]), (8, [PAct.reduce 28 4 1]), (9, [PAct.reduce 28 4 1]), (11, [PAct.reduce 28 4 1]), (12, [PAct.reduce 28 4 1]), (13, [PAct.reduce 28 4 1]), (14, [PAct.reduce 28 4 1]), (15, [PAct.reduce 28 4 1]), (16, [PAct.reduce 28 4 1]), (17, [PAct.reduce 28 4 1]), (18, [PAct.reduce 28 4 1])], []⟩
def pSt34 : PState := ⟨[(23, [PAct.shiftExtra]), (0, [PAct.reduce 31 4 2]), (3, [PAct.reduce 31 4 2]), (4, [PAct.reduce 31 4 2]), (5, [PAct.reduce 31 4 2]), (8, [PAct.reduce 31 4 2]), (9, [PAct.reduce 31 4 2]), (11, [PAct.reduce 31 4 2]), (12, [PAct.reduce 31 4 2]), (13, [PAct.reduce 31 4 2]), (14, [PAct.reduce 31 4 2]), (15, [PAct.reduce 31 4 2]), (16, [PAct.reduce 31 4 2]), (17, [PAct.reduce 31 4 2]), (18, [PAct.reduce 31 4 2])], []⟩
def pSt35 : PState := ⟨[(23, [PAct.shiftExtra]), (0, [PAct.reduce 29 4 1]), (3, [PAct.reduce 29 4 1]), (4, [PAct.reduce 29 4 1]), (5, [PAct.reduce 29 4 1]), (8, [PAct.reduce 29 4 1]), (9, [PAct.reduce 29 4 1]), (11, [PAct.reduce 29 4 1]), (12, [PAct.reduce 29 4 1]), (13, [PAct.reduce 29 4 1]), (14, [PAct.reduce 29 4 1]), (15, [PAct.reduce 29 4 1]), (16, [PAct.reduce 29 4 1]), (17, [PAct.reduce 29 4 1]), (18, [PAct.reduce 29 4 1])], []⟩
def pSt36 : PState := ⟨[(23, [PAct.shiftExtra]), (0, [PAct.reduce 28 5 2]), (3, [PAct.reduce 28 5 2]), (4, [PAct.reduce 28 5 2]), (5, [PAct.reduce 28 5 2]), (8, [PAct.reduce 28 5 2]), (9, [PAct.reduce 28 5 2]), (11, [PAct.reduce 28 5 2]), (12, [PAct.reduce 28 5 2]), (13, [PAct.reduce 28 5 2]), (14, [PAct.reduce 28 5 2]), (15, [PAct.reduce 28 5 2]), (16, [PAct.reduce 28 5 2]), (17, [PAct.reduce 28 5 2]), (18, [PAct.reduce 28 5 2])], []⟩
def pSt37 : PState := ⟨[(23, [PAct.shiftExtra]), (0, [PAct.reduce 31 4 1]), (3, [PAct.reduce 31 4 1]), (4, [PAct.reduce 31 4 1]), (5, [PAct.reduce 31 4 1]), (8, [PAct.reduce 31 4 1]), (9, [PAct.reduce 31 4 1]), (11, [PAct.reduce 31 4 1]), (12, [PAct.reduce 31 4 1]), (13, [PAct.reduce 31 4 1]), (14, [PAct.reduce 31 4 1]), (15, [PAct.reduce 31 4 1]), (16, [PAct.reduce 31 4 1]), (17, [PAct.reduce 31 4 1]), (18, [PAct.reduce 31 4 1])], []⟩
def pSt38 : PState := ⟨[(23, [PAct.shiftExtra]), (0, [PAct.reduce 27 3 1]), (3, [PAct.reduce 27 3 1]), (4, [PAct.reduce 27 3 1]), (5, [PAct.reduce 27 3 1]), (8, [PAct.reduce 27 3 1]), (9, [PAct.reduce 27 3 1]), (11, [PAct.reduce 27 3 1]), (12, [PAct.reduce 27 3 1]), (13, [PAct.reduce 27 3 1]), (14, [PAct.reduce 27 3 1]), (15, [PAct.reduce 27 3 1]), (16, [PAct.reduce 27 3 1]), (17, [PAct.reduce 27 3 1]), (18, [PAct.reduce 27 3 1])], []⟩
def pSt39 : PState := ⟨[(23, [PAct.shiftExtra]), (0, [PAct.reduce 28 5 1]), (3, [PAct.reduce 28 5 1]), (4, [PAct.reduce 28 5 1]), (5, [PAct.reduce 28 5 1]), (8, [PAct.reduce 28 5 1]), (9, [PAct.reduce 28 5 1]), (11, [PAct.reduce 28 5 1]), (12, [PAct.reduce 28 5 1]), (13, [PAct.reduce 28 5 1]), (14, [PAct.reduce 28 5 1]), (15, [PAct.reduce 28 5 1]), (16, [PAct.reduce 28 5 1]), (17, [PAct.reduce 28 5 1]), (18, [PAct.reduce 28 5 1])], []⟩
def pSt40 : PState := ⟨[(23, [PAct.shiftExtra]), (0, [PAct.reduce 31 5 2]), (3, [PAct.reduce 31 5 2]), (4, [PAct.reduce 31 5 2]), (5, [PAct.reduce 31 5 2]), (8, [PAct.reduce 31 5 2]), (9, [PAct.reduce 31 5 2]), (11, [PAct.reduce 31 5 2]), (12, [PAct.reduce 31 5 2]), (13, [PAct.reduce 31 5 2]), (14, [PAct.reduce 31 5 2]), (15, [PAct.reduce 31 5 2]), (16, [PAct.reduce 31 5 2]), (17, [PAct.reduce 31 5 2]), (18, [PAct.reduce 31 5 2])], []⟩
def pSt41 : PState := ⟨[(23, [PAct.shiftExtra]), (0, [PAct.reduce 28 6 2]), (3, [PAct.reduce 28 6 2]), (4, [PAct.reduce 28 6 2]), (5, [PAct.reduce 28 6 2]), (8, [PAct.reduce 28 6 2]), (9, [PAct.reduce 28 6 2]), (11, [PAct.reduce 28 6 2]), (12, [PAct.reduce 28 6 2]), (13, [PAct.reduce 28 6 2]), (14, [PAct.reduce 28 6 2]), (15, [PAct.reduce 28 6 2]), (16, [PAct.reduce 28 6 2]), (17, [PAct.reduce 28 6 2]), (18, [PAct.reduce 28 6 2])], []⟩
def pSt42 : PState := ⟨[(23, [PAct.shiftExtra]), (0, [PAct.reduce 28 3 1]), (3, [PAct.reduce 28 3 1]), (4, [PAct.reduce 28 3 1]), (5, [PAct.reduce 28 3 1]), (8, [PAct.reduce 28 3 1]), (9, [PAct.reduce 28 3 1]), (11, [PAct.reduce 28 3 1]), (12, [PAct.reduce 28 3 1]), (13, [PAct.reduce 28 3 1]), (14, [PAct.reduce 28 3 1]), (15, [PAct.reduce 28 3 1]), (16, [PAct.reduce 28 3 1]), (17, [PAct.reduce 28 3 1]), (18, [PAct.reduce 28 3 1])], []⟩
def pSt43 : PState := ⟨[(23, [PAct.shiftExtra]), (1, [PAct.shift 8])], [(34, 18), (33, 19)]⟩
def pSt44 : PState := ⟨[(23, [PAct.shiftExtra]), (1, [PAct.shift 12]), (6, [PAct.shift 53])], []⟩
def pSt45 : PState := ⟨[(23, [PAct.shiftExtra]), (1, [PAct.shift 7]), (6, [PAct.shift 49])], []⟩
def pSt46 : PState := ⟨[(23, [PAct.shiftExtra]), (0, [PAct.accept])], []⟩
def pSt47 : PState := ⟨[(23, [PAct.shiftExtra]), (1, [PAct.shift 16])], []⟩
def pSt48 : PState := ⟨[(10, [PAct.shift 50]), (23, [PAct.shiftExtra])], []⟩
def pSt49 : PState := ⟨[(23, [PAct.shiftExtra]), (1, [PAct.shift 6])], []⟩
def pSt50 : PState := ⟨[(23, [PAct.shiftExtra]), (7, [PAct.shift 30])], []⟩
def pSt51 : PState := ⟨[(23, [PAct.shiftExtra]), (1, [PAct.shift 17])], []⟩
def pSt52 : PState := ⟨[(23, [PAct.shiftExtra]), (1, [PAct.shift 11])], []⟩
def pSt53 : PState := ⟨[(23, [PAct.shiftExtra]), (1, [PAct.shift 15])], []⟩

def pstates : List PState := [pSt0, pSt1, pSt2, pSt3, pSt4, pSt5, pSt6, pSt7, pSt8, pSt9, pSt10, pSt11, pSt12, pSt13, pSt14, pSt15, pSt16, pSt17, pSt18, pSt19, pSt20, pSt21, pSt22, pSt23, pSt24, pSt25, pSt26, pSt27, pSt28, pSt29, pSt30, pSt31, pSt32, pSt33, pSt34, pSt35, pSt36, pSt37, pSt38, pSt39, pSt40, pSt41, pSt42, pSt43, pSt44, pSt45, pSt46, pSt47, pSt48, pSt49, pSt50, pSt51, pSt52, pSt53]

/-- ts_lex_modes: lex start state per parser state. -/
def lexModes : List Nat := [0, 0, 0, 0, 0, 0, 9, 9, 10, 10, 10, 9, 0, 0, 0, 0, 10, 0, 0, 0, 0, 0, 0, 0, 0, 0, 0, 0, 0, 0, 0, 0, 0, 0, 0, 0, 0, 0, 0, 0, 0, 0, 0, 0, 0, 0, 0, 0, 5, 0, 0, 0, 0, 0]

/-- ts_symbol_metadata .visible flags, indexed by symbol id. -/
def visibleTbl : List Bool := [false, true, true, true, true, true, true, true, true, true, false, true, true, true, true, true, true, true, true, true, true, true, true, true, true, false, true, true, true, true, true, true, true, true, true, false, false]

/-- ts_symbol_metadata .named flags, indexed by symbol id. -/
def namedTbl : List Bool := [true, true, false, false, false, false, false, false, false, false, false, false, false, false, false, false, false, false, false, false, false, true, true, true, true, true, true, true, true, true, true, true, true, true, true, false, false]

/-- ts_field_map_slices and ts_field_map_entries: production id to (field id, child index) pairs. -/
def fieldTbl : List (Nat × List (Nat × Nat)) := [(1, [(1, 1)]), (2, [(1, 2)]), (3, [(2, 1)])]

end Zed
namespace Ts

/-- Transcription of the ts_lex automaton of /root/workspace/src/sysml-ts/tree-sitter/src/parser.c (states in case order; transition lists keep the if-chain order of the source). -/
def lexSt0 : LexState := ⟨none, some 14, [(Cond.anyOf [('!', '!')], 7, false), (Cond.anyOf [('\x22', '\x22')], 1, false), (Cond.anyOf [('%', '%')], 49, false), (Cond.anyOf [('&', '&')], 41, false), (Cond.anyOf [('*', '*')], 47, false), (Cond.anyOf [('+', '+')], 45, false), (Cond.anyOf [('-', '-')], 46, false), (Cond.anyOf [('/', '/')], 48, false), (Cond.anyOf [(':', ':')], 25, false), (Cond.anyOf [(';', ';')], 17, false), (Cond.anyOf [('<', '<')], 43, false), (Cond.anyOf [('=', '=')], 8, false), (Cond.anyOf [('>', '>')], 44, false), (Cond.anyOf [('?', '?')], 9, false), (Cond.anyOf [('@', '@')], 42, false), (Cond.anyOf [('^', '^')], 50, false), (Cond.anyOf [('\x7b', '\x7b')], 15, false), (Cond.anyOf [('|', '|')], 40, false), (Cond.anyOf [('\x7d', '\x7d')], 16, false), (Cond.anyOf [('~', '~')], 51, false), (Cond.anyOf [('\t', '\r'), (' ', ' ')], 0, true), (Cond.anyOf [('0', '9')], 29, false), (Cond.anyOf [('A', 'Z'), ('_', '_'), ('a', 'z')], 27, false)]⟩
def lexSt1 : LexState := ⟨none, none, [(Cond.anyOf [('\x22', '\x22')], 28, false), (Cond.anyOf [('\\', '\\')], 11, false), (Cond.noneOf ['\x00'], 1, false)]⟩
def lexSt2 : LexState := ⟨none, none, [(Cond.anyOf [('*', '*')], 4, false), (Cond.anyOf [('/', '/')], 53, false)]⟩
def lexSt3 : LexState := ⟨none, none, [(Cond.anyOf [('*', '*')], 3, false), (Cond.anyOf [('/', '/')], 52, false), (Cond.noneOf ['\x00'], 4, false)]⟩
def lexSt4 : LexState := ⟨none, none, [(Cond.anyOf [('*', '*')], 3, false), (Cond.noneOf ['\x00'], 4, false)]⟩
def lexSt5 : LexState := ⟨none, none, [(Cond.anyOf [('/', '/')], 19, false), (Cond.anyOf [('\t', '\r'), (' ', ' ')], 22, false), (Cond.noneOf ['\x00', ';'], 23, false)]⟩
def lexSt6 : LexState := ⟨none, none, [(Cond.anyOf [(':', ':')], 26, false)]⟩
def lexSt7 : LexState := ⟨none, none, [(Cond.anyOf [('=', '=')], 35, false)]⟩
def lexSt8 : LexState := ⟨none, none, [(Cond.anyOf [('=', '=')], 34, false)]⟩
def lexSt9 : LexState := ⟨none, none, [(Cond.anyOf [('?', '?')], 33, false)]⟩
def lexSt10 : LexState := ⟨none, none, [(Cond.anyOf [('0', '9')], 30, false)]⟩
def lexSt11 : LexState := ⟨none, none, [(Cond.noneOf ['\x00', '\n'], 1, false)]⟩
def lexSt12 : LexState := ⟨none, some 14, [(Cond.anyOf [('/', '/')], 2, false), (Cond.anyOf [(':', ':')], 24, false), (Cond.anyOf [(';', ';')], 17, false), (Cond.anyOf [('\x7b', '\x7b')], 15, false), (Cond.anyOf [('\x7d', '\x7d')], 16, false), (Cond.anyOf [('\t', '\r'), (' ', ' ')], 12, true), (Cond.anyOf [('A', 'Z'), ('_', '_'), ('a', 'z')], 27, false)]⟩
def lexSt13 : LexState := ⟨none, some 14, [(Cond.anyOf [('/', '/')], 2, false), (Cond.anyOf [(':', ':')], 6, false), (Cond.anyOf [(';', ';')], 17, false), (Cond.anyOf [('\x7b', '\x7b')], 15, false), (Cond.anyOf [('\x7d', '\x7d')], 16, false), (Cond.anyOf [('\t', '\r'), (' ', ' ')], 13, true), (Cond.anyOf [('A', 'Z'), ('_', '_'), ('a', 'z')], 27, false)]⟩
def lexSt14 : LexState := ⟨some 0, none, []⟩
def lexSt15 : LexState := ⟨some 2, none, []⟩
def lexSt16 : LexState := ⟨some 3, none, []⟩
def lexSt17 : LexState := ⟨some 6, none, []⟩
def lexSt18 : LexState := ⟨some 7, none, [(Cond.anyOf [('\n', '\n')], 23, false), (Cond.anyOf [(';', ';')], 53, false), (Cond.noneOf ['\x00'], 18, false)]⟩
def lexSt19 : LexState := ⟨some 7, none, [(Cond.anyOf [('*', '*')], 21, false), (Cond.anyOf [('/', '/')], 18, false), (Cond.noneOf ['\x00', ';'], 23, false)]⟩
def lexSt20 : LexState := ⟨some 7, none, [(Cond.anyOf [('*', '*')], 20, false), (Cond.anyOf [('/', '/')], 23, false), (Cond.anyOf [(';', ';')], 4, false), (Cond.noneOf ['\x00'], 21, false)]⟩
def lexSt21 : LexState := ⟨some 7, none, [(Cond.anyOf [('*', '*')], 20, false), (Cond.anyOf [(';', ';')], 4, false), (Cond.noneOf ['\x00'], 21, false)]⟩
def lexSt22 : LexState := ⟨some 7, none, [(Cond.anyOf [('/', '/')], 19, false), (Cond.anyOf [('\t', '\r'), (' ', ' ')], 22, false), (Cond.noneOf ['\x00', ';'], 23, false)]⟩
def lexSt23 : LexState := ⟨some 7, none, [(Cond.noneOf ['\x00', ';'], 23, false)]⟩
def lexSt24 : LexState := ⟨some 19, none, []⟩
def lexSt25 : LexState := ⟨some 19, none, [(Cond.anyOf [(':', ':')], 26, false)]⟩
def lexSt26 : LexState := ⟨some 20, none, []⟩
def lexSt27 : LexState := ⟨some 1, none, [(Cond.anyOf [('0', '9'), ('A', 'Z'), ('_', '_'), ('a', 'z')], 27, false)]⟩
def lexSt28 : LexState := ⟨some 21, none, []⟩
def lexSt29 : LexState := ⟨some 22, none, [(Cond.anyOf [('.', '.')], 10, false), (Cond.anyOf [('0', '9')], 29, false)]⟩
def lexSt30 : LexState := ⟨some 22, none, [(Cond.anyOf [('0', '9')], 30, false)]⟩
def lexSt31 : LexState := ⟨some 184, none, []⟩
def lexSt32 : LexState := ⟨some 185, none, []⟩
def lexSt33 : LexState := ⟨some 186, none, []⟩
def lexSt34 : LexState := ⟨some 187, none, [(Cond.anyOf [('=', '=')], 31, false)]⟩
def lexSt35 : LexState := ⟨some 188, none, [(Cond.anyOf [('=', '=')], 32, false)]⟩
def lexSt36 : LexState := ⟨some 189, none, []⟩
def lexSt37 : LexState := ⟨some 190, none, []⟩
def lexSt38 : LexState := ⟨some 191, none, []⟩
def lexSt39 : LexState := ⟨some 192, none, []⟩
def lexSt40 : LexState := ⟨some 193, none, []⟩
def lexSt41 : LexState := ⟨some 194, none, []⟩
def lexSt42 : LexState := ⟨some 195, none, [(Cond.anyOf [('@', '@')], 36, false)]⟩
def lexSt43 : LexState := ⟨some 196, none, [(Cond.anyOf [('=', '=')], 37, false)]⟩
def lexSt44 : LexState := ⟨some 197, none, [(Cond.anyOf [('=', '=')], 38, false)]⟩
def lexSt45 : LexState := ⟨some 198, none, []⟩
def lexSt46 : LexState := ⟨some 199, none, []⟩
def lexSt47 : LexState := ⟨some 200, none, [(Cond.anyOf [('*', '*')], 39, false)]⟩
def lexSt48 : LexState := ⟨some 201, none, [(Cond.anyOf [('*', '*')], 4, false), (Cond.anyOf [('/', '/')], 53, false)]⟩
def lexSt49 : LexState := ⟨some 202, none, []⟩
def lexSt50 : LexState := ⟨some 203, none, []⟩
def lexSt51 : LexState := ⟨some 204, none, []⟩
def lexSt52 : LexState := ⟨some 205, none, []⟩
def lexSt53 : LexState := ⟨some 205, none, [(Cond.noneOf ['\x00', '\n'], 53, false)]⟩

def lexStates : List LexState := [lexSt0, lexSt1, lexSt2, lexSt3, lexSt4, lexSt5, lexSt6, lexSt7, lexSt8, lexSt9, lexSt10, lexSt11, lexSt12, lexSt13, lexSt14, lexSt15, lexSt16, lexSt17, lexSt18, lexSt19, lexSt20, lexSt21, lexSt22, lexSt23, lexSt24, lexSt25, lexSt26, lexSt27, lexSt28, lexSt29, lexSt30, lexSt31, lexSt32, lexSt33, lexSt34, lexSt35, lexSt36, lexSt37, lexSt38, lexSt39, lexSt40, lexSt41, lexSt42, lexSt43, lexSt44, lexSt45, lexSt46, lexSt47, lexSt48, lexSt49, lexSt50, lexSt51, lexSt52, lexSt53]

/-- Transcription of the ts_lex_keywords reserved-word automaton of the same file. -/
def kwSt0 : LexState := ⟨none, none, [(Cond.anyOf [('a', 'a')], 1, false), (Cond.anyOf [('b', 'b')], 2, false), (Cond.anyOf [('c', 'c')], 3, false), (Cond.anyOf [('d', 'd')], 4, false), (Cond.anyOf [('e', 'e')], 5, false), (Cond.anyOf [('f', 'f')], 6, false), (Cond.anyOf [('h', 'h')], 7, false), (Cond.anyOf [('i', 'i')], 8, false), (Cond.anyOf [('j', 'j')], 9, false), (Cond.anyOf [('l', 'l')], 10, false), (Cond.anyOf [('m', 'm')], 11, false), (Cond.anyOf [('n', 'n')], 12, false), (Cond.anyOf [('o', 'o')], 13, false), (Cond.anyOf [('p', 'p')], 14, false), (Cond.anyOf [('r', 'r')], 15, false), (Cond.anyOf [('s', 's')], 16, false), (Cond.anyOf [('t', 't')], 17, false), (Cond.anyOf [('u', 'u')], 18, false), (Cond.anyOf [('v', 'v')], 19, false), (Cond.anyOf [('w', 'w')], 20, false), (Cond.anyOf [('x', 'x')], 21, false), (Cond.anyOf [('\t', '\r'), (' ', ' ')], 0, true)]⟩
def kwSt1 : LexState := ⟨none, none, [(Cond.anyOf [('b', 'b')], 22, false), (Cond.anyOf [('c', 'c')], 23, false), (Cond.anyOf [('f', 'f')], 24, false), (Cond.anyOf [('l', 'l')], 25, false), (Cond.anyOf [('n', 'n')], 26, false), (Cond.anyOf [('s', 's')], 27, false), (Cond.anyOf [('t', 't')], 28, false)]⟩
def kwSt2 : LexState := ⟨none, none, [(Cond.anyOf [('e', 'e')], 29, false), (Cond.anyOf [('i', 'i')], 30, false), (Cond.anyOf [('o', 'o')], 31, false), (Cond.anyOf [('y', 'y')], 32, false)]⟩
def kwSt3 : LexState := ⟨none, none, [(Cond.anyOf [('a', 'a')], 33, false), (Cond.anyOf [('h', 'h')], 34, false), (Cond.anyOf [('l', 'l')], 35, false), (Cond.anyOf [('o', 'o')], 36, false), (Cond.anyOf [('r', 'r')], 37, false)]⟩
def kwSt4 : LexState := ⟨none, none, [(Cond.anyOf [('a', 'a')], 38, false), (Cond.anyOf [('e', 'e')], 39, false), (Cond.anyOf [('i', 'i')], 40, false), (Cond.anyOf [('o', 'o')], 41, false)]⟩
def kwSt5 : LexState := ⟨none, none, [(Cond.anyOf [('l', 'l')], 42, false), (Cond.anyOf [('n', 'n')], 43, false), (Cond.anyOf [('v', 'v')], 44, false), (Cond.anyOf [('x', 'x')], 45, false)]⟩
def kwSt6 : LexState := ⟨none, none, [(Cond.anyOf [('a', 'a')], 46, false), (Cond.anyOf [('e', 'e')], 47, false), (Cond.anyOf [('i', 'i')], 48, false), (Cond.anyOf [('l', 'l')], 49, false), (Cond.anyOf [('o', 'o')], 50, false), (Cond.anyOf [('r', 'r')], 51, false), (Cond.anyOf [('u', 'u')], 52, false)]⟩
def kwSt7 : LexState := ⟨none, none, [(Cond.anyOf [('a', 'a')], 53, false)]⟩
def kwSt8 : LexState := ⟨none, none, [(Cond.anyOf [('f', 'f')], 54, false), (Cond.anyOf [('m', 'm')], 55, false), (Cond.anyOf [('n', 'n')], 56, false), (Cond.anyOf [('s', 's')], 57, false), (Cond.anyOf [('t', 't')], 58, false)]⟩
def kwSt9 : LexState := ⟨none, none, [(Cond.anyOf [('o', 'o')], 59, false)]⟩
def kwSt10 : LexState := ⟨none, none, [(Cond.anyOf [('a', 'a')], 60, false), (Cond.anyOf [('i', 'i')], 61, false), (Cond.anyOf [('o', 'o')], 62, false)]⟩
def kwSt11 : LexState := ⟨none, none, [(Cond.anyOf [('e', 'e')], 63, false), (Cond.anyOf [('u', 'u')], 64, false)]⟩
def kwSt12 : LexState := ⟨none, none, [(Cond.anyOf [('a', 'a')], 65, false), (Cond.anyOf [('e', 'e')], 66, false), (Cond.anyOf [('o', 'o')], 67, false), (Cond.anyOf [('u', 'u')], 68, false)]⟩
def kwSt13 : LexState := ⟨none, none, [(Cond.anyOf [('b', 'b')], 69, false), (Cond.anyOf [('c', 'c')], 70, false), (Cond.anyOf [('f', 'f')], 71, false), (Cond.anyOf [('r', 'r')], 72, false), (Cond.anyOf [('u', 'u')], 73, false)]⟩
def kwSt14 : LexState := ⟨none, none, [(Cond.anyOf [('a', 'a')], 74, false), (Cond.anyOf [('e', 'e')], 75, false), (Cond.anyOf [('o', 'o')], 76, false), (Cond.anyOf [('r', 'r')], 77, false), (Cond.anyOf [('u', 'u')], 78, false)]⟩
def kwSt15 : LexState := ⟨none, none, [(Cond.anyOf [('e', 'e')], 79, false)]⟩
def kwSt16 : LexState := ⟨none, none, [(Cond.anyOf [('a', 'a')], 80, false), (Cond.anyOf [('e', 'e')], 81, false), (Cond.anyOf [('n', 'n')], 82, false), (Cond.anyOf [('p', 'p')], 83, false), (Cond.anyOf [('t', 't')], 84, false), (Cond.anyOf [('u', 'u')], 85, false)]⟩
def kwSt17 : LexState := ⟨none, none, [(Cond.anyOf [('e', 'e')], 86, false), (Cond.anyOf [('h', 'h')], 87, false), (Cond.anyOf [('i', 'i')], 88, false), (Cond.anyOf [('o', 'o')], 89, false), (Cond.anyOf [('r', 'r')], 90, false), (Cond.anyOf [('y', 'y')], 91, false)]⟩
def kwSt18 : LexState := ⟨none, none, [(Cond.anyOf [('n', 'n')], 92, false), (Cond.anyOf [('s', 's')], 93, false)]⟩
def kwSt19 : LexState := ⟨none, none, [(Cond.anyOf [('a', 'a')], 94, false), (Cond.anyOf [('e', 'e')], 95, false), (Cond.anyOf [('i', 'i')], 96, false)]⟩
def kwSt20 : LexState := ⟨none, none, [(Cond.anyOf [('h', 'h')], 97, false)]⟩
def kwSt21 : LexState := ⟨none, none, [(Cond.anyOf [('o', 'o')], 98, false)]⟩
def kwSt22 : LexState := ⟨none, none, [(Cond.anyOf [('o', 'o')], 99, false), (Cond.anyOf [('s', 's')], 100, false)]⟩
def kwSt23 : LexState := ⟨none, none, [(Cond.anyOf [('c', 'c')], 101, false), (Cond.anyOf [('t', 't')], 102, false)]⟩
def kwSt24 : LexState := ⟨none, none, [(Cond.anyOf [('t', 't')], 103, false)]⟩
def kwSt25 : LexState := ⟨none, none, [(Cond.anyOf [('i', 'i')], 104, false), (Cond.anyOf [('l', 'l')], 105, false)]⟩
def kwSt26 : LexState := ⟨none, none, [(Cond.anyOf [('a', 'a')], 106, false), (Cond.anyOf [('d', 'd')], 107, false)]⟩
def kwSt27 : LexState := ⟨some 37, none, [(Cond.anyOf [('s', 's')], 108, false)]⟩
def kwSt28 : LexState := ⟨some 42, none, [(Cond.anyOf [('t', 't')], 109, false)]⟩
def kwSt29 : LexState := ⟨none, none, [(Cond.anyOf [('h', 'h')], 110, false)]⟩
def kwSt30 : LexState := ⟨none, none, [(Cond.anyOf [('n', 'n')], 111, false)]⟩
def kwSt31 : LexState := ⟨none, none, [(Cond.anyOf [('o', 'o')], 112, false)]⟩
def kwSt32 : LexState := ⟨some 47, none, []⟩
def kwSt33 : LexState := ⟨none, none, [(Cond.anyOf [('l', 'l')], 113, false), (Cond.anyOf [('s', 's')], 114, false)]⟩
def kwSt34 : LexState := ⟨none, none, [(Cond.anyOf [('a', 'a')], 115, false)]⟩
def kwSt35 : LexState := ⟨none, none, [(Cond.anyOf [('a', 'a')], 116, false)]⟩
def kwSt36 : LexState := ⟨none, none, [(Cond.anyOf [('m', 'm')], 117, false), (Cond.anyOf [('n', 'n')], 118, false)]⟩
def kwSt37 : LexState := ⟨none, none, [(Cond.anyOf [('o', 'o')], 119, false)]⟩
def kwSt38 : LexState := ⟨none, none, [(Cond.anyOf [('t', 't')], 120, false)]⟩
def kwSt39 : LexState := ⟨none, none, [(Cond.anyOf [('c', 'c')], 121, false), (Cond.anyOf [('f', 'f')], 122, false), (Cond.anyOf [('p', 'p')], 123, false), (Cond.anyOf [('r', 'r')], 124, false)]⟩
def kwSt40 : LexState := ⟨none, none, [(Cond.anyOf [('f', 'f')], 125, false), (Cond.anyOf [('s', 's')], 126, false)]⟩
def kwSt41 : LexState := ⟨some 74, none, [(Cond.anyOf [('c', 'c')], 127, false)]⟩
def kwSt42 : LexState := ⟨none, none, [(Cond.anyOf [('s', 's')], 128, false)]⟩
def kwSt43 : LexState := ⟨none, none, [(Cond.anyOf [('d', 'd')], 129, false), (Cond.anyOf [('t', 't')], 130, false), (Cond.anyOf [('u', 'u')], 131, false)]⟩
def kwSt44 : LexState := ⟨none, none, [(Cond.anyOf [('e', 'e')], 132, false)]⟩
def kwSt45 : LexState := ⟨none, none, [(Cond.anyOf [('h', 'h')], 133, false), (Cond.anyOf [('i', 'i')], 134, false), (Cond.anyOf [('p', 'p')], 135, false)]⟩
def kwSt46 : LexState := ⟨none, none, [(Cond.anyOf [('l', 'l')], 136, false)]⟩
def kwSt47 : LexState := ⟨none, none, [(Cond.anyOf [('a', 'a')], 137, false)]⟩
def kwSt48 : LexState := ⟨none, none, [(Cond.anyOf [('l', 'l')], 138, false), (Cond.anyOf [('r', 'r')], 139, false)]⟩
def kwSt49 : LexState := ⟨none, none, [(Cond.anyOf [('o', 'o')], 140, false)]⟩
def kwSt50 : LexState := ⟨none, none, [(Cond.anyOf [('r', 'r')], 141, false)]⟩
def kwSt51 : LexState := ⟨none, none, [(Cond.anyOf [('a', 'a')], 142, false), (Cond.anyOf [('o', 'o')], 143, false)]⟩
def kwSt52 : LexState := ⟨none, none, [(Cond.anyOf [('n', 'n')], 144, false)]⟩
def kwSt53 : LexState := ⟨none, none, [(Cond.anyOf [('s', 's')], 145, false)]⟩
def kwSt54 : LexState := ⟨some 96, none, []⟩
def kwSt55 : LexState := ⟨none, none, [(Cond.anyOf [('p', 'p')], 146, false)]⟩
def kwSt56 : LexState := ⟨some 98, none, [(Cond.anyOf [('c', 'c')], 147, false), (Cond.anyOf [('d', 'd')], 148, false), (Cond.anyOf [('o', 'o')], 149, false), (Cond.anyOf [('t', 't')], 150, false), (Cond.anyOf [('v', 'v')], 151, false)]⟩
def kwSt57 : LexState := ⟨none, none, [(Cond.anyOf [('t', 't')], 152, false)]⟩
def kwSt58 : LexState := ⟨none, none, [(Cond.anyOf [('e', 'e')], 153, false)]⟩
def kwSt59 : LexState := ⟨none, none, [(Cond.anyOf [('i', 'i')], 154, false)]⟩
def kwSt60 : LexState := ⟨none, none, [(Cond.anyOf [('n', 'n')], 155, false)]⟩
def kwSt61 : LexState := ⟨none, none, [(Cond.anyOf [('b', 'b')], 156, false)]⟩
def kwSt62 : LexState := ⟨none, none, [(Cond.anyOf [('c', 'c')], 157, false), (Cond.anyOf [('o', 'o')], 158, false)]⟩
def kwSt63 : LexState := ⟨none, none, [(Cond.anyOf [('m', 'm')], 159, false), (Cond.anyOf [('r', 'r')], 160, false), (Cond.anyOf [('s', 's')], 161, false), (Cond.anyOf [('t', 't')], 162, false)]⟩
def kwSt64 : LexState := ⟨none, none, [(Cond.anyOf [('l', 'l')], 163, false)]⟩
def kwSt65 : LexState := ⟨none, none, [(Cond.anyOf [('m', 'm')], 164, false)]⟩
def kwSt66 : LexState := ⟨none, none, [(Cond.anyOf [('w', 'w')], 165, false)]⟩
def kwSt67 : LexState := ⟨none, none, [(Cond.anyOf [('n', 'n')], 166, false), (Cond.anyOf [('t', 't')], 167, false)]⟩
def kwSt68 : LexState := ⟨none, none, [(Cond.anyOf [('l', 'l')], 168, false)]⟩
def kwSt69 : LexState := ⟨none, none, [(Cond.anyOf [('j', 'j')], 169, false)]⟩
def kwSt70 : LexState := ⟨none, none, [(Cond.anyOf [('c', 'c')], 170, false)]⟩
def kwSt71 : LexState := ⟨some 127, none, []⟩
def kwSt72 : LexState := ⟨some 128, none, [(Cond.anyOf [('d', 'd')], 171, false)]⟩
def kwSt73 : LexState := ⟨none, none, [(Cond.anyOf [('t', 't')], 172, false)]⟩
def kwSt74 : LexState := ⟨none, none, [(Cond.anyOf [('c', 'c')], 173, false), (Cond.anyOf [('r', 'r')], 174, false)]⟩
def kwSt75 : LexState := ⟨none, none, [(Cond.anyOf [('r', 'r')], 175, false)]⟩
def kwSt76 : LexState := ⟨none, none, [(Cond.anyOf [('r', 'r')], 176, false)]⟩
def kwSt77 : LexState := ⟨none, none, [(Cond.anyOf [('e', 'e')], 177, false), (Cond.anyOf [('i', 'i')], 178, false), (Cond.anyOf [('o', 'o')], 179, false)]⟩
def kwSt78 : LexState := ⟨none, none, [(Cond.anyOf [('b', 'b')], 180, false)]⟩
def kwSt79 : LexState := ⟨none, none, [(Cond.anyOf [('a', 'a')], 181, false), (Cond.anyOf [('d', 'd')], 182, false), (Cond.anyOf [('f', 'f')], 183, false), (Cond.anyOf [('n', 'n')], 184, false), (Cond.anyOf [('p', 'p')], 185, false), (Cond.anyOf [('q', 'q')], 186, false), (Cond.anyOf [('t', 't')], 187, false)]⟩
def kwSt80 : LexState := ⟨none, none, [(Cond.anyOf [('t', 't')], 188, false)]⟩
def kwSt81 : LexState := ⟨none, none, [(Cond.anyOf [('n', 'n')], 189, false)]⟩
def kwSt82 : LexState := ⟨none, none, [(Cond.anyOf [('a', 'a')], 190, false)]⟩
def kwSt83 : LexState := ⟨none, none, [(Cond.anyOf [('e', 'e')], 191, false)]⟩
def kwSt84 : LexState := ⟨none, none, [(Cond.anyOf [('a', 'a')], 192, false), (Cond.anyOf [('e', 'e')], 193, false), (Cond.anyOf [('r', 'r')], 194, false)]⟩
def kwSt85 : LexState := ⟨none, none, [(Cond.anyOf [('b', 'b')], 195, false), (Cond.anyOf [('c', 'c')], 196, false)]⟩
def kwSt86 : LexState := ⟨none, none, [(Cond.anyOf [('r', 'r')], 197, false)]⟩
def kwSt87 : LexState := ⟨none, none, [(Cond.anyOf [('e', 'e')], 198, false)]⟩
def kwSt88 : LexState := ⟨none, none, [(Cond.anyOf [('m', 'm')], 199, false)]⟩
def kwSt89 : LexState := ⟨some 166, none, []⟩
def kwSt90 : LexState := ⟨none, none, [(Cond.anyOf [('a', 'a')], 200, false), (Cond.anyOf [('u', 'u')], 201, false)]⟩
def kwSt91 : LexState := ⟨none, none, [(Cond.anyOf [('p', 'p')], 202, false)]⟩
def kwSt92 : LexState := ⟨none, none, [(Cond.anyOf [('i', 'i')], 203, false), (Cond.anyOf [('t', 't')], 204, false)]⟩
def kwSt93 : LexState := ⟨none, none, [(Cond.anyOf [('e', 'e')], 205, false)]⟩
def kwSt94 : LexState := ⟨none, none, [(Cond.anyOf [('r', 'r')], 206, false)]⟩
def kwSt95 : LexState := ⟨none, none, [(Cond.anyOf [('r', 'r')], 207, false)]⟩
def kwSt96 : LexState := ⟨none, none, [(Cond.anyOf [('a', 'a')], 208, false), (Cond.anyOf [('e', 'e')], 209, false)]⟩
def kwSt97 : LexState := ⟨none, none, [(Cond.anyOf [('e', 'e')], 210, false), (Cond.anyOf [('i', 'i')], 211, false)]⟩
def kwSt98 : LexState := ⟨none, none, [(Cond.anyOf [('r', 'r')], 212, false)]⟩
def kwSt99 : LexState := ⟨none, none, [(Cond.anyOf [('u', 'u')], 213, false)]⟩
def kwSt100 : LexState := ⟨none, none, [(Cond.anyOf [('t', 't')], 214, false)]⟩
def kwSt101 : LexState := ⟨none, none, [(Cond.anyOf [('e', 'e')], 215, false)]⟩
def kwSt102 : LexState := ⟨none, none, [(Cond.anyOf [('i', 'i')], 216, false), (Cond.anyOf [('o', 'o')], 217, false)]⟩
def kwSt103 : LexState := ⟨none, none, [(Cond.anyOf [('e', 'e')], 218, false)]⟩
def kwSt104 : LexState := ⟨none, none, [(Cond.anyOf [('a', 'a')], 219, false)]⟩
def kwSt105 : LexState := ⟨some 32, none, [(Cond.anyOf [('o', 'o')], 220, false)]⟩
def kwSt106 : LexState := ⟨none, none, [(Cond.anyOf [('l', 'l')], 221, false)]⟩
def kwSt107 : LexState := ⟨some 36, none, []⟩
def kwSt108 : LexState := ⟨none, none, [(Cond.anyOf [('e', 'e')], 222, false), (Cond.anyOf [('i', 'i')], 223, false), (Cond.anyOf [('o', 'o')], 224, false), (Cond.anyOf [('u', 'u')], 225, false)]⟩
def kwSt109 : LexState := ⟨none, none, [(Cond.anyOf [('r', 'r')], 226, false)]⟩
def kwSt110 : LexState := ⟨none, none, [(Cond.anyOf [('a', 'a')], 227, false)]⟩
def kwSt111 : LexState := ⟨none, none, [(Cond.anyOf [('d', 'd')], 228, false)]⟩
def kwSt112 : LexState := ⟨none, none, [(Cond.anyOf [('l', 'l')], 229, false)]⟩
def kwSt113 : LexState := ⟨none, none, [(Cond.anyOf [('c', 'c')], 230, false)]⟩
def kwSt114 : LexState := ⟨none, none, [(Cond.anyOf [('e', 'e')], 231, false)]⟩
def kwSt115 : LexState := ⟨none, none, [(Cond.anyOf [('i', 'i')], 232, false)]⟩
def kwSt116 : LexState := ⟨none, none, [(Cond.anyOf [('s', 's')], 233, false)]⟩
def kwSt117 : LexState := ⟨none, none, [(Cond.anyOf [('m', 'm')], 234, false), (Cond.anyOf [('p', 'p')], 235, false)]⟩
def kwSt118 : LexState := ⟨none, none, [(Cond.anyOf [('c', 'c')], 236, false), (Cond.anyOf [('j', 'j')], 237, false), (Cond.anyOf [('n', 'n')], 238, false), (Cond.anyOf [('s', 's')], 239, false)]⟩
def kwSt119 : LexState := ⟨none, none, [(Cond.anyOf [('s', 's')], 240, false)]⟩
def kwSt120 : LexState := ⟨none, none, [(Cond.anyOf [('a', 'a')], 241, false)]⟩
def kwSt121 : LexState := ⟨none, none, [(Cond.anyOf [('i', 'i')], 242, false)]⟩
def kwSt122 : LexState := ⟨some 9, none, [(Cond.anyOf [('a', 'a')], 243, false), (Cond.anyOf [('i', 'i')], 244, false)]⟩
def kwSt123 : LexState := ⟨none, none, [(Cond.anyOf [('e', 'e')], 245, false)]⟩
def kwSt124 : LexState := ⟨none, none, [(Cond.anyOf [('i', 'i')], 246, false)]⟩
def kwSt125 : LexState := ⟨none, none, [(Cond.anyOf [('f', 'f')], 247, false)]⟩
def kwSt126 : LexState := ⟨none, none, [(Cond.anyOf [('j', 'j')], 248, false)]⟩
def kwSt127 : LexState := ⟨some 75, none, []⟩
def kwSt128 : LexState := ⟨none, none, [(Cond.anyOf [('e', 'e')], 249, false)]⟩
def kwSt129 : LexState := ⟨some 77, none, []⟩
def kwSt130 : LexState := ⟨none, none, [(Cond.anyOf [('r', 'r')], 250, false)]⟩
def kwSt131 : LexState := ⟨none, none, [(Cond.anyOf [('m', 'm')], 251, false)]⟩
def kwSt132 : LexState := ⟨none, none, [(Cond.anyOf [('n', 'n')], 252, false)]⟩
def kwSt133 : LexState := ⟨none, none, [(Cond.anyOf [('i', 'i')], 253, false)]⟩
def kwSt134 : LexState := ⟨none, none, [(Cond.anyOf [('t', 't')], 254, false)]⟩
def kwSt135 : LexState := ⟨none, none, [(Cond.anyOf [('o', 'o')], 255, false), (Cond.anyOf [('r', 'r')], 256, false)]⟩
def kwSt136 : LexState := ⟨none, none, [(Cond.anyOf [('s', 's')], 257, false)]⟩
def kwSt137 : LexState := ⟨none, none, [(Cond.anyOf [('t', 't')], 258, false)]⟩
def kwSt138 : LexState := ⟨none, none, [(Cond.anyOf [('t', 't')], 259, false)]⟩
def kwSt139 : LexState := ⟨none, none, [(Cond.anyOf [('s', 's')], 260, false)]⟩
def kwSt140 : LexState := ⟨none, none, [(Cond.anyOf [('w', 'w')], 261, false)]⟩
def kwSt141 : LexState := ⟨some 90, none, [(Cond.anyOf [('k', 'k')], 262, false)]⟩
def kwSt142 : LexState := ⟨none, none, [(Cond.anyOf [('m', 'm')], 263, false)]⟩
def kwSt143 : LexState := ⟨none, none, [(Cond.anyOf [('m', 'm')], 264, false)]⟩
def kwSt144 : LexState := ⟨none, none, [(Cond.anyOf [('c', 'c')], 265, false)]⟩
def kwSt145 : LexState := ⟨none, none, [(Cond.anyOf [('t', 't')], 266, false)]⟩
def kwSt146 : LexState := ⟨none, none, [(Cond.anyOf [('l', 'l')], 267, false), (Cond.anyOf [('o', 'o')], 268, false)]⟩
def kwSt147 : LexState := ⟨none, none, [(Cond.anyOf [('l', 'l')], 269, false)]⟩
def kwSt148 : LexState := ⟨none, none, [(Cond.anyOf [('i', 'i')], 270, false)]⟩
def kwSt149 : LexState := ⟨none, none, [(Cond.anyOf [('u', 'u')], 271, false)]⟩
def kwSt150 : LexState := ⟨none, none, [(Cond.anyOf [('e', 'e')], 272, false)]⟩
def kwSt151 : LexState := ⟨some 104, none, [(Cond.anyOf [('e', 'e')], 273, false)]⟩
def kwSt152 : LexState := ⟨none, none, [(Cond.anyOf [('y', 'y')], 274, false)]⟩
def kwSt153 : LexState := ⟨none, none, [(Cond.anyOf [('m', 'm')], 275, false)]⟩
def kwSt154 : LexState := ⟨none, none, [(Cond.anyOf [('n', 'n')], 276, false)]⟩
def kwSt155 : LexState := ⟨none, none, [(Cond.anyOf [('g', 'g')], 277, false)]⟩
def kwSt156 : LexState := ⟨none, none, [(Cond.anyOf [('r', 'r')], 278, false)]⟩
def kwSt157 : LexState := ⟨none, none, [(Cond.anyOf [('a', 'a')], 279, false)]⟩
def kwSt158 : LexState := ⟨none, none, [(Cond.anyOf [('p', 'p')], 280, false)]⟩
def kwSt159 : LexState := ⟨none, none, [(Cond.anyOf [('b', 'b')], 281, false)]⟩
def kwSt160 : LexState := ⟨none, none, [(Cond.anyOf [('g', 'g')], 282, false)]⟩
def kwSt161 : LexState := ⟨none, none, [(Cond.anyOf [('s', 's')], 283, false)]⟩
def kwSt162 : LexState := ⟨none, none, [(Cond.anyOf [('a', 'a')], 284, false)]⟩
def kwSt163 : LexState := ⟨none, none, [(Cond.anyOf [('t', 't')], 285, false)]⟩
def kwSt164 : LexState := ⟨none, none, [(Cond.anyOf [('e', 'e')], 286, false)]⟩
def kwSt165 : LexState := ⟨some 122, none, []⟩
def kwSt166 : LexState := ⟨none, none, [(Cond.anyOf [('u', 'u')], 287, false)]⟩
def kwSt167 : LexState := ⟨some 124, none, []⟩
def kwSt168 : LexState := ⟨none, none, [(Cond.anyOf [('l', 'l')], 288, false)]⟩
def kwSt169 : LexState := ⟨none, none, [(Cond.anyOf [('e', 'e')], 289, false)]⟩
def kwSt170 : LexState := ⟨none, none, [(Cond.anyOf [('u', 'u')], 290, false)]⟩
def kwSt171 : LexState := ⟨none, none, [(Cond.anyOf [('e', 'e')], 291, false)]⟩
def kwSt172 : LexState := ⟨some 130, none, []⟩
def kwSt173 : LexState := ⟨none, none, [(Cond.anyOf [('k', 'k')], 292, false)]⟩
def kwSt174 : LexState := ⟨none, none, [(Cond.anyOf [('a', 'a')], 293, false), (Cond.anyOf [('t', 't')], 294, false)]⟩
def kwSt175 : LexState := ⟨none, none, [(Cond.anyOf [('f', 'f')], 295, false)]⟩
def kwSt176 : LexState := ⟨none, none, [(Cond.anyOf [('t', 't')], 296, false)]⟩
def kwSt177 : LexState := ⟨none, none, [(Cond.anyOf [('d', 'd')], 297, false)]⟩
def kwSt178 : LexState := ⟨none, none, [(Cond.anyOf [('v', 'v')], 298, false)]⟩
def kwSt179 : LexState := ⟨none, none, [(Cond.anyOf [('t', 't')], 299, false)]⟩
def kwSt180 : LexState := ⟨none, none, [(Cond.anyOf [('l', 'l')], 300, false)]⟩
def kwSt181 : LexState := ⟨none, none, [(Cond.anyOf [('d', 'd')], 301, false)]⟩
def kwSt182 : LexState := ⟨none, none, [(Cond.anyOf [('e', 'e')], 302, false)]⟩
def kwSt183 : LexState := ⟨some 141, none, [(Cond.anyOf [('e', 'e')], 303, false)]⟩
def kwSt184 : LexState := ⟨none, none, [(Cond.anyOf [('d', 'd')], 304, false)]⟩
def kwSt185 : LexState := ⟨some 145, none, []⟩
def kwSt186 : LexState := ⟨none, none, [(Cond.anyOf [('u', 'u')], 305, false)]⟩
def kwSt187 : LexState := ⟨none, none, [(Cond.anyOf [('u', 'u')], 306, false)]⟩
def kwSt188 : LexState := ⟨none, none, [(Cond.anyOf [('i', 'i')], 307, false)]⟩
def kwSt189 : LexState := ⟨none, none, [(Cond.anyOf [('d', 'd')], 308, false)]⟩
def kwSt190 : LexState := ⟨none, none, [(Cond.anyOf [('p', 'p')], 309, false)]⟩
def kwSt191 : LexState := ⟨none, none, [(Cond.anyOf [('c', 'c')], 310, false)]⟩
def kwSt192 : LexState := ⟨none, none, [(Cond.anyOf [('k', 'k')], 311, false), (Cond.anyOf [('n', 'n')], 312, false), (Cond.anyOf [('t', 't')], 313, false)]⟩
def kwSt193 : LexState := ⟨none, none, [(Cond.anyOf [('p', 'p')], 314, false)]⟩
def kwSt194 : LexState := ⟨none, none, [(Cond.anyOf [('u', 'u')], 315, false)]⟩
def kwSt195 : LexState := ⟨none, none, [(Cond.anyOf [('c', 'c')], 316, false), (Cond.anyOf [('j', 'j')], 317, false), (Cond.anyOf [('s', 's')], 318, false), (Cond.anyOf [('t', 't')], 319, false)]⟩
def kwSt196 : LexState := ⟨none, none, [(Cond.anyOf [('c', 'c')], 320, false)]⟩
def kwSt197 : LexState := ⟨none, none, [(Cond.anyOf [('m', 'm')], 321, false)]⟩
def kwSt198 : LexState := ⟨none, none, [(Cond.anyOf [('n', 'n')], 322, false)]⟩
def kwSt199 : LexState := ⟨none, none, [(Cond.anyOf [('e', 'e')], 323, false)]⟩
def kwSt200 : LexState := ⟨none, none, [(Cond.anyOf [('n', 'n')], 324, false)]⟩
def kwSt201 : LexState := ⟨none, none, [(Cond.anyOf [('e', 'e')], 325, false)]⟩
def kwSt202 : LexState := ⟨none, none, [(Cond.anyOf [('e', 'e')], 326, false), (Cond.anyOf [('i', 'i')], 327, false)]⟩
def kwSt203 : LexState := ⟨none, none, [(Cond.anyOf [('o', 'o')], 328, false)]⟩
def kwSt204 : LexState := ⟨none, none, [(Cond.anyOf [('i', 'i')], 329, false)]⟩
def kwSt205 : LexState := ⟨some 172, none, []⟩
def kwSt206 : LexState := ⟨some 173, none, [(Cond.anyOf [('i', 'i')], 330, false)]⟩
def kwSt207 : LexState := ⟨none, none, [(Cond.anyOf [('i', 'i')], 331, false)]⟩
def kwSt208 : LexState := ⟨some 178, none, []⟩
def kwSt209 : LexState := ⟨none, none, [(Cond.anyOf [('w', 'w')], 332, false)]⟩
def kwSt210 : LexState := ⟨none, none, [(Cond.anyOf [('n', 'n')], 333, false)]⟩
def kwSt211 : LexState := ⟨none, none, [(Cond.anyOf [('l', 'l')], 334, false)]⟩
def kwSt212 : LexState := ⟨some 183, none, []⟩
def kwSt213 : LexState := ⟨none, none, [(Cond.anyOf [('t', 't')], 335, false)]⟩
def kwSt214 : LexState := ⟨none, none, [(Cond.anyOf [('r', 'r')], 336, false)]⟩
def kwSt215 : LexState := ⟨none, none, [(Cond.anyOf [('p', 'p')], 337, false)]⟩
def kwSt216 : LexState := ⟨none, none, [(Cond.anyOf [('o', 'o')], 338, false)]⟩
def kwSt217 : LexState := ⟨none, none, [(Cond.anyOf [('r', 'r')], 339, false)]⟩
def kwSt218 : LexState := ⟨none, none, [(Cond.anyOf [('r', 'r')], 340, false)]⟩
def kwSt219 : LexState := ⟨none, none, [(Cond.anyOf [('s', 's')], 341, false)]⟩
def kwSt220 : LexState := ⟨none, none, [(Cond.anyOf [('c', 'c')], 342, false)]⟩
def kwSt221 : LexState := ⟨none, none, [(Cond.anyOf [('y', 'y')], 343, false)]⟩
def kwSt222 : LexState := ⟨none, none, [(Cond.anyOf [('r', 'r')], 344, false)]⟩
def kwSt223 : LexState := ⟨none, none, [(Cond.anyOf [('g', 'g')], 345, false)]⟩
def kwSt224 : LexState := ⟨none, none, [(Cond.anyOf [('c', 'c')], 346, false)]⟩
def kwSt225 : LexState := ⟨none, none, [(Cond.anyOf [('m', 'm')], 347, false)]⟩
def kwSt226 : LexState := ⟨none, none, [(Cond.anyOf [('i', 'i')], 348, false)]⟩
def kwSt227 : LexState := ⟨none, none, [(Cond.anyOf [('v', 'v')], 349, false)]⟩
def kwSt228 : LexState := ⟨some 44, none, [(Cond.anyOf [('i', 'i')], 350, false)]⟩
def kwSt229 : LexState := ⟨some 46, none, []⟩
def kwSt230 : LexState := ⟨some 48, none, []⟩
def kwSt231 : LexState := ⟨some 49, none, []⟩
def kwSt232 : LexState := ⟨none, none, [(Cond.anyOf [('n', 'n')], 351, false)]⟩
def kwSt233 : LexState := ⟨none, none, [(Cond.anyOf [('s', 's')], 352, false)]⟩
def kwSt234 : LexState := ⟨none, none, [(Cond.anyOf [('e', 'e')], 353, false)]⟩
def kwSt235 : LexState := ⟨none, none, [(Cond.anyOf [('o', 'o')], 354, false)]⟩
def kwSt236 : LexState := ⟨none, none, [(Cond.anyOf [('e', 'e')], 355, false)]⟩
def kwSt237 : LexState := ⟨none, none, [(Cond.anyOf [('u', 'u')], 356, false)]⟩
def kwSt238 : LexState := ⟨none, none, [(Cond.anyOf [('e', 'e')], 357, false)]⟩
def kwSt239 : LexState := ⟨none, none, [(Cond.anyOf [('t', 't')], 358, false)]⟩
def kwSt240 : LexState := ⟨none, none, [(Cond.anyOf [('s', 's')], 359, false)]⟩
def kwSt241 : LexState := ⟨none, none, [(Cond.anyOf [('t', 't')], 360, false)]⟩
def kwSt242 : LexState := ⟨none, none, [(Cond.anyOf [('d', 'd')], 361, false)]⟩
def kwSt243 : LexState := ⟨none, none, [(Cond.anyOf [('u', 'u')], 362, false)]⟩
def kwSt244 : LexState := ⟨none, none, [(Cond.anyOf [('n', 'n')], 363, false)]⟩
def kwSt245 : LexState := ⟨none, none, [(Cond.anyOf [('n', 'n')], 364, false)]⟩
def kwSt246 : LexState := ⟨none, none, [(Cond.anyOf [('v', 'v')], 365, false)]⟩
def kwSt247 : LexState := ⟨none, none, [(Cond.anyOf [('e', 'e')], 366, false)]⟩
def kwSt248 : LexState := ⟨none, none, [(Cond.anyOf [('o', 'o')], 367, false)]⟩
def kwSt249 : LexState := ⟨some 76, none, []⟩
def kwSt250 : LexState := ⟨none, none, [(Cond.anyOf [('y', 'y')], 368, false)]⟩
def kwSt251 : LexState := ⟨some 17, none, []⟩
def kwSt252 : LexState := ⟨none, none, [(Cond.anyOf [('t', 't')], 369, false)]⟩
def kwSt253 : LexState := ⟨none, none, [(Cond.anyOf [('b', 'b')], 370, false)]⟩
def kwSt254 : LexState := ⟨some 81, none, []⟩
def kwSt255 : LexState := ⟨none, none, [(Cond.anyOf [('s', 's')], 371, false)]⟩
def kwSt256 : LexState := ⟨some 83, none, []⟩
def kwSt257 : LexState := ⟨none, none, [(Cond.anyOf [('e', 'e')], 372, false)]⟩
def kwSt258 : LexState := ⟨none, none, [(Cond.anyOf [('u', 'u')], 373, false)]⟩
def kwSt259 : LexState := ⟨none, none, [(Cond.anyOf [('e', 'e')], 374, false)]⟩
def kwSt260 : LexState := ⟨none, none, [(Cond.anyOf [('t', 't')], 375, false)]⟩
def kwSt261 : LexState := ⟨some 89, none, []⟩
def kwSt262 : LexState := ⟨some 91, none, []⟩
def kwSt263 : LexState := ⟨none, none, [(Cond.anyOf [('e', 'e')], 376, false)]⟩
def kwSt264 : LexState := ⟨some 93, none, []⟩
def kwSt265 : LexState := ⟨none, none, [(Cond.anyOf [('t', 't')], 377, false)]⟩
def kwSt266 : LexState := ⟨none, none, [(Cond.anyOf [('y', 'y')], 378, false)]⟩
def kwSt267 : LexState := ⟨none, none, [(Cond.anyOf [('i', 'i')], 379, false)]⟩
def kwSt268 : LexState := ⟨none, none, [(Cond.anyOf [('r', 'r')], 380, false)]⟩
def kwSt269 : LexState := ⟨none, none, [(Cond.anyOf [('u', 'u')], 381, false)]⟩
def kwSt270 : LexState := ⟨none, none, [(Cond.anyOf [('v', 'v')], 382, false)]⟩
def kwSt271 : LexState := ⟨none, none, [(Cond.anyOf [('t', 't')], 383, false)]⟩
def kwSt272 : LexState := ⟨none, none, [(Cond.anyOf [('r', 'r')], 384, false)]⟩
def kwSt273 : LexState := ⟨none, none, [(Cond.anyOf [('r', 'r')], 385, false)]⟩
def kwSt274 : LexState := ⟨none, none, [(Cond.anyOf [('p', 'p')], 386, false)]⟩
def kwSt275 : LexState := ⟨some 108, none, []⟩
def kwSt276 : LexState := ⟨some 109, none, []⟩
def kwSt277 : LexState := ⟨none, none, [(Cond.anyOf [('u', 'u')], 387, false)]⟩
def kwSt278 : LexState := ⟨none, none, [(Cond.anyOf [('a', 'a')], 388, false)]⟩
def kwSt279 : LexState := ⟨none, none, [(Cond.anyOf [('l', 'l')], 389, false)]⟩
def kwSt280 : LexState := ⟨some 113, none, []⟩
def kwSt281 : LexState := ⟨none, none, [(Cond.anyOf [('e', 'e')], 390, false)]⟩
def kwSt282 : LexState := ⟨none, none, [(Cond.anyOf [('e', 'e')], 391, false)]⟩
def kwSt283 : LexState := ⟨none, none, [(Cond.anyOf [('a', 'a')], 392, false)]⟩
def kwSt284 : LexState := ⟨some 117, none, [(Cond.anyOf [('c', 'c')], 393, false), (Cond.anyOf [('d', 'd')], 394, false)]⟩
def kwSt285 : LexState := ⟨none, none, [(Cond.anyOf [('i', 'i')], 395, false)]⟩
def kwSt286 : LexState := ⟨none, none, [(Cond.anyOf [('s', 's')], 396, false)]⟩
def kwSt287 : LexState := ⟨none, none, [(Cond.anyOf [('n', 'n')], 397, false)]⟩
def kwSt288 : LexState := ⟨some 25, none, []⟩
def kwSt289 : LexState := ⟨none, none, [(Cond.anyOf [('c', 'c')], 398, false)]⟩
def kwSt290 : LexState := ⟨none, none, [(Cond.anyOf [('r', 'r')], 399, false)]⟩
def kwSt291 : LexState := ⟨none, none, [(Cond.anyOf [('r', 'r')], 400, false)]⟩
def kwSt292 : LexState := ⟨none, none, [(Cond.anyOf [('a', 'a')], 401, false)]⟩
def kwSt293 : LexState := ⟨none, none, [(Cond.anyOf [('l', 'l')], 402, false)]⟩
def kwSt294 : LexState := ⟨some 8, none, []⟩
def kwSt295 : LexState := ⟨none, none, [(Cond.anyOf [('o', 'o')], 403, false)]⟩
def kwSt296 : LexState := ⟨some 14, none, [(Cond.anyOf [('i', 'i')], 404, false)]⟩
def kwSt297 : LexState := ⟨none, none, [(Cond.anyOf [('i', 'i')], 405, false)]⟩
def kwSt298 : LexState := ⟨none, none, [(Cond.anyOf [('a', 'a')], 406, false)]⟩
def kwSt299 : LexState := ⟨none, none, [(Cond.anyOf [('e', 'e')], 407, false)]⟩
def kwSt300 : LexState := ⟨none, none, [(Cond.anyOf [('i', 'i')], 408, false)]⟩
def kwSt301 : LexState := ⟨none, none, [(Cond.anyOf [('o', 'o')], 409, false)]⟩
def kwSt302 : LexState := ⟨none, none, [(Cond.anyOf [('f', 'f')], 410, false)]⟩
def kwSt303 : LexState := ⟨none, none, [(Cond.anyOf [('r', 'r')], 411, false)]⟩
def kwSt304 : LexState := ⟨none, none, [(Cond.anyOf [('e', 'e')], 412, false)]⟩
def kwSt305 : LexState := ⟨none, none, [(Cond.anyOf [('i', 'i')], 413, false)]⟩
def kwSt306 : LexState := ⟨none, none, [(Cond.anyOf [('r', 'r')], 414, false)]⟩
def kwSt307 : LexState := ⟨none, none, [(Cond.anyOf [('s', 's')], 415, false)]⟩
def kwSt308 : LexState := ⟨some 149, none, []⟩
def kwSt309 : LexState := ⟨none, none, [(Cond.anyOf [('s', 's')], 416, false)]⟩
def kwSt310 : LexState := ⟨none, none, [(Cond.anyOf [('i', 'i')], 417, false)]⟩
def kwSt311 : LexState := ⟨none, none, [(Cond.anyOf [('e', 'e')], 418, false)]⟩
def kwSt312 : LexState := ⟨none, none, [(Cond.anyOf [('d', 'd')], 419, false)]⟩
def kwSt313 : LexState := ⟨none, none, [(Cond.anyOf [('e', 'e')], 420, false)]⟩
def kwSt314 : LexState := ⟨some 155, none, []⟩
def kwSt315 : LexState := ⟨none, none, [(Cond.anyOf [('c', 'c')], 421, false)]⟩
def kwSt316 : LexState := ⟨none, none, [(Cond.anyOf [('l', 'l')], 422, false)]⟩
def kwSt317 : LexState := ⟨none, none, [(Cond.anyOf [('e', 'e')], 423, false)]⟩
def kwSt318 : LexState := ⟨none, none, [(Cond.anyOf [('e', 'e')], 424, false)]⟩
def kwSt319 : LexState := ⟨none, none, [(Cond.anyOf [('y', 'y')], 425, false)]⟩
def kwSt320 : LexState := ⟨none, none, [(Cond.anyOf [('e', 'e')], 426, false)]⟩
def kwSt321 : LexState := ⟨none, none, [(Cond.anyOf [('i', 'i')], 427, false)]⟩
def kwSt322 : LexState := ⟨some 164, none, []⟩
def kwSt323 : LexState := ⟨none, none, [(Cond.anyOf [('s', 's')], 428, false)]⟩
def kwSt324 : LexState := ⟨none, none, [(Cond.anyOf [('s', 's')], 429, false)]⟩
def kwSt325 : LexState := ⟨some 23, none, []⟩
def kwSt326 : LexState := ⟨some 18, none, [(Cond.anyOf [('d', 'd')], 430, false)]⟩
def kwSt327 : LexState := ⟨none, none, [(Cond.anyOf [('n', 'n')], 431, false)]⟩
def kwSt328 : LexState := ⟨none, none, [(Cond.anyOf [('n', 'n')], 432, false)]⟩
def kwSt329 : LexState := ⟨none, none, [(Cond.anyOf [('l', 'l')], 433, false)]⟩
def kwSt330 : LexState := ⟨none, none, [(Cond.anyOf [('a', 'a')], 434, false)]⟩
def kwSt331 : LexState := ⟨none, none, [(Cond.anyOf [('f', 'f')], 435, false)]⟩
def kwSt332 : LexState := ⟨some 179, none, [(Cond.anyOf [('p', 'p')], 436, false)]⟩
def kwSt333 : LexState := ⟨some 181, none, []⟩
def kwSt334 : LexState := ⟨none, none, [(Cond.anyOf [('e', 'e')], 437, false)]⟩
def kwSt335 : LexState := ⟨some 26, none, []⟩
def kwSt336 : LexState := ⟨none, none, [(Cond.anyOf [('a', 'a')], 438, false)]⟩
def kwSt337 : LexState := ⟨none, none, [(Cond.anyOf [('t', 't')], 439, false)]⟩
def kwSt338 : LexState := ⟨none, none, [(Cond.anyOf [('n', 'n')], 440, false)]⟩
def kwSt339 : LexState := ⟨some 29, none, []⟩
def kwSt340 : LexState := ⟨some 30, none, []⟩
def kwSt341 : LexState := ⟨some 31, none, []⟩
def kwSt342 : LexState := ⟨none, none, [(Cond.anyOf [('a', 'a')], 441, false)]⟩
def kwSt343 : LexState := ⟨none, none, [(Cond.anyOf [('s', 's')], 442, false)]⟩
def kwSt344 : LexState := ⟨none, none, [(Cond.anyOf [('t', 't')], 443, false)]⟩
def kwSt345 : LexState := ⟨none, none, [(Cond.anyOf [('n', 'n')], 444, false)]⟩
def kwSt346 : LexState := ⟨some 40, none, []⟩
def kwSt347 : LexState := ⟨none, none, [(Cond.anyOf [('e', 'e')], 445, false)]⟩
def kwSt348 : LexState := ⟨none, none, [(Cond.anyOf [('b', 'b')], 446, false)]⟩
def kwSt349 : LexState := ⟨none, none, [(Cond.anyOf [('i', 'i')], 447, false)]⟩
def kwSt350 : LexState := ⟨none, none, [(Cond.anyOf [('n', 'n')], 448, false)]⟩
def kwSt351 : LexState := ⟨none, none, [(Cond.anyOf [('s', 's')], 449, false)]⟩
def kwSt352 : LexState := ⟨some 51, none, [(Cond.anyOf [('i', 'i')], 450, false)]⟩
def kwSt353 : LexState := ⟨none, none, [(Cond.anyOf [('n', 'n')], 451, false)]⟩
def kwSt354 : LexState := ⟨none, none, [(Cond.anyOf [('s', 's')], 452, false)]⟩
def kwSt355 : LexState := ⟨none, none, [(Cond.anyOf [('r', 'r')], 453, false)]⟩
def kwSt356 : LexState := ⟨none, none, [(Cond.anyOf [('g', 'g')], 454, false)]⟩
def kwSt357 : LexState := ⟨none, none, [(Cond.anyOf [('c', 'c')], 455, false)]⟩
def kwSt358 : LexState := ⟨some 62, none, [(Cond.anyOf [('a', 'a')], 456, false), (Cond.anyOf [('r', 'r')], 457, false)]⟩
def kwSt359 : LexState := ⟨none, none, [(Cond.anyOf [('e', 'e')], 458, false)]⟩
def kwSt360 : LexState := ⟨none, none, [(Cond.anyOf [('y', 'y')], 459, false)]⟩
def kwSt361 : LexState := ⟨none, none, [(Cond.anyOf [('e', 'e')], 460, false)]⟩
def kwSt362 : LexState := ⟨none, none, [(Cond.anyOf [('l', 'l')], 461, false)]⟩
def kwSt363 : LexState := ⟨none, none, [(Cond.anyOf [('e', 'e')], 462, false)]⟩
def kwSt364 : LexState := ⟨none, none, [(Cond.anyOf [('d', 'd')], 463, false)]⟩
def kwSt365 : LexState := ⟨none, none, [(Cond.anyOf [('e', 'e')], 464, false)]⟩
def kwSt366 : LexState := ⟨none, none, [(Cond.anyOf [('r', 'r')], 465, false)]⟩
def kwSt367 : LexState := ⟨none, none, [(Cond.anyOf [('i', 'i')], 466, false)]⟩
def kwSt368 : LexState := ⟨some 78, none, []⟩
def kwSt369 : LexState := ⟨some 79, none, []⟩
def kwSt370 : LexState := ⟨none, none, [(Cond.anyOf [('i', 'i')], 467, false)]⟩
def kwSt371 : LexState := ⟨none, none, [(Cond.anyOf [('e', 'e')], 468, false)]⟩
def kwSt372 : LexState := ⟨some 24, none, []⟩
def kwSt373 : LexState := ⟨none, none, [(Cond.anyOf [('r', 'r')], 469, false)]⟩
def kwSt374 : LexState := ⟨none, none, [(Cond.anyOf [('r', 'r')], 470, false)]⟩
def kwSt375 : LexState := ⟨some 88, none, []⟩
def kwSt376 : LexState := ⟨some 92, none, []⟩
def kwSt377 : LexState := ⟨none, none, [(Cond.anyOf [('i', 'i')], 471, false)]⟩
def kwSt378 : LexState := ⟨none, none, [(Cond.anyOf [('p', 'p')], 472, false)]⟩
def kwSt379 : LexState := ⟨none, none, [(Cond.anyOf [('e', 'e')], 473, false)]⟩
def kwSt380 : LexState := ⟨none, none, [(Cond.anyOf [('t', 't')], 474, false)]⟩
def kwSt381 : LexState := ⟨none, none, [(Cond.anyOf [('d', 'd')], 475, false)]⟩
def kwSt382 : LexState := ⟨none, none, [(Cond.anyOf [('i', 'i')], 476, false)]⟩
def kwSt383 : LexState := ⟨some 101, none, []⟩
def kwSt384 : LexState := ⟨none, none, [(Cond.anyOf [('a', 'a')], 477, false), (Cond.anyOf [('f', 'f')], 478, false), (Cond.anyOf [('s', 's')], 479, false)]⟩
def kwSt385 : LexState := ⟨none, none, [(Cond.anyOf [('s', 's')], 480, false), (Cond.anyOf [('t', 't')], 481, false)]⟩
def kwSt386 : LexState := ⟨none, none, [(Cond.anyOf [('e', 'e')], 482, false)]⟩
def kwSt387 : LexState := ⟨none, none, [(Cond.anyOf [('a', 'a')], 483, false)]⟩
def kwSt388 : LexState := ⟨none, none, [(Cond.anyOf [('r', 'r')], 484, false)]⟩
def kwSt389 : LexState := ⟨none, none, [(Cond.anyOf [('e', 'e')], 485, false)]⟩
def kwSt390 : LexState := ⟨none, none, [(Cond.anyOf [('r', 'r')], 486, false)]⟩
def kwSt391 : LexState := ⟨some 115, none, []⟩
def kwSt392 : LexState := ⟨none, none, [(Cond.anyOf [('g', 'g')], 487, false)]⟩
def kwSt393 : LexState := ⟨none, none, [(Cond.anyOf [('l', 'l')], 488, false)]⟩
def kwSt394 : LexState := ⟨none, none, [(Cond.anyOf [('a', 'a')], 489, false)]⟩
def kwSt395 : LexState := ⟨none, none, [(Cond.anyOf [('p', 'p')], 490, false)]⟩
def kwSt396 : LexState := ⟨none, none, [(Cond.anyOf [('p', 'p')], 491, false)]⟩
def kwSt397 : LexState := ⟨none, none, [(Cond.anyOf [('i', 'i')], 492, false)]⟩
def kwSt398 : LexState := ⟨none, none, [(Cond.anyOf [('t', 't')], 493, false)]⟩
def kwSt399 : LexState := ⟨none, none, [(Cond.anyOf [('r', 'r')], 494, false)]⟩
def kwSt400 : LexState := ⟨none, none, [(Cond.anyOf [('e', 'e')], 495, false)]⟩
def kwSt401 : LexState := ⟨none, none, [(Cond.anyOf [('g', 'g')], 496, false)]⟩
def kwSt402 : LexState := ⟨none, none, [(Cond.anyOf [('l', 'l')], 497, false)]⟩
def kwSt403 : LexState := ⟨none, none, [(Cond.anyOf [('r', 'r')], 498, false)]⟩
def kwSt404 : LexState := ⟨none, none, [(Cond.anyOf [('o', 'o')], 499, false)]⟩
def kwSt405 : LexState := ⟨none, none, [(Cond.anyOf [('c', 'c')], 500, false)]⟩
def kwSt406 : LexState := ⟨none, none, [(Cond.anyOf [('t', 't')], 501, false)]⟩
def kwSt407 : LexState := ⟨none, none, [(Cond.anyOf [('c', 'c')], 502, false)]⟩
def kwSt408 : LexState := ⟨none, none, [(Cond.anyOf [('c', 'c')], 503, false)]⟩
def kwSt409 : LexState := ⟨none, none, [(Cond.anyOf [('n', 'n')], 504, false)]⟩
def kwSt410 : LexState := ⟨none, none, [(Cond.anyOf [('i', 'i')], 505, false)]⟩
def kwSt411 : LexState := ⟨none, none, [(Cond.anyOf [('e', 'e')], 506, false)]⟩
def kwSt412 : LexState := ⟨none, none, [(Cond.anyOf [('r', 'r')], 507, false)]⟩
def kwSt413 : LexState := ⟨none, none, [(Cond.anyOf [('r', 'r')], 508, false)]⟩
def kwSt414 : LexState := ⟨none, none, [(Cond.anyOf [('n', 'n')], 509, false)]⟩
def kwSt415 : LexState := ⟨none, none, [(Cond.anyOf [('f', 'f')], 510, false)]⟩
def kwSt416 : LexState := ⟨none, none, [(Cond.anyOf [('h', 'h')], 511, false)]⟩
def kwSt417 : LexState := ⟨none, none, [(Cond.anyOf [('a', 'a')], 512, false)]⟩
def kwSt418 : LexState := ⟨none, none, [(Cond.anyOf [('h', 'h')], 513, false)]⟩
def kwSt419 : LexState := ⟨none, none, [(Cond.anyOf [('a', 'a')], 514, false)]⟩
def kwSt420 : LexState := ⟨some 12, none, []⟩
def kwSt421 : LexState := ⟨none, none, [(Cond.anyOf [('t', 't')], 515, false)]⟩
def kwSt422 : LexState := ⟨none, none, [(Cond.anyOf [('a', 'a')], 516, false)]⟩
def kwSt423 : LexState := ⟨none, none, [(Cond.anyOf [('c', 'c')], 517, false)]⟩
def kwSt424 : LexState := ⟨none, none, [(Cond.anyOf [('t', 't')], 518, false)]⟩
def kwSt425 : LexState := ⟨none, none, [(Cond.anyOf [('p', 'p')], 519, false)]⟩
def kwSt426 : LexState := ⟨none, none, [(Cond.anyOf [('s', 's')], 520, false)]⟩
def kwSt427 : LexState := ⟨none, none, [(Cond.anyOf [('n', 'n')], 521, false)]⟩
def kwSt428 : LexState := ⟨none, none, [(Cond.anyOf [('l', 'l')], 522, false)]⟩
def kwSt429 : LexState := ⟨none, none, [(Cond.anyOf [('i', 'i')], 523, false)]⟩
def kwSt430 : LexState := ⟨some 168, none, []⟩
def kwSt431 : LexState := ⟨none, none, [(Cond.anyOf [('g', 'g')], 524, false)]⟩
def kwSt432 : LexState := ⟨none, none, [(Cond.anyOf [('s', 's')], 525, false)]⟩
def kwSt433 : LexState := ⟨some 171, none, []⟩
def kwSt434 : LexState := ⟨none, none, [(Cond.anyOf [('n', 'n')], 526, false), (Cond.anyOf [('t', 't')], 527, false)]⟩
def kwSt435 : LexState := ⟨none, none, [(Cond.anyOf [('i', 'i')], 528, false), (Cond.anyOf [('y', 'y')], 529, false)]⟩
def kwSt436 : LexState := ⟨none, none, [(Cond.anyOf [('o', 'o')], 530, false)]⟩
def kwSt437 : LexState := ⟨some 182, none, []⟩
def kwSt438 : LexState := ⟨none, none, [(Cond.anyOf [('c', 'c')], 531, false)]⟩
def kwSt439 : LexState := ⟨some 28, none, []⟩
def kwSt440 : LexState := ⟨some 11, none, []⟩
def kwSt441 : LexState := ⟨none, none, [(Cond.anyOf [('t', 't')], 532, false)]⟩
def kwSt442 : LexState := ⟨none, none, [(Cond.anyOf [('i', 'i')], 533, false)]⟩
def kwSt443 : LexState := ⟨some 38, none, []⟩
def kwSt444 : LexState := ⟨some 39, none, []⟩
def kwSt445 : LexState := ⟨some 41, none, []⟩
def kwSt446 : LexState := ⟨none, none, [(Cond.anyOf [('u', 'u')], 534, false)]⟩
def kwSt447 : LexState := ⟨none, none, [(Cond.anyOf [('o', 'o')], 535, false)]⟩
def kwSt448 : LexState := ⟨none, none, [(Cond.anyOf [('g', 'g')], 536, false)]⟩
def kwSt449 : LexState := ⟨some 50, none, []⟩
def kwSt450 : LexState := ⟨none, none, [(Cond.anyOf [('f', 'f')], 537, false)]⟩
def kwSt451 : LexState := ⟨none, none, [(Cond.anyOf [('t', 't')], 538, false)]⟩
def kwSt452 : LexState := ⟨none, none, [(Cond.anyOf [('i', 'i')], 539, false)]⟩
def kwSt453 : LexState := ⟨none, none, [(Cond.anyOf [('n', 'n')], 540, false)]⟩
def kwSt454 : LexState := ⟨none, none, [(Cond.anyOf [('a', 'a')], 541, false)]⟩
def kwSt455 : LexState := ⟨none, none, [(Cond.anyOf [('t', 't')], 542, false)]⟩
def kwSt456 : LexState := ⟨none, none, [(Cond.anyOf [('n', 'n')], 543, false)]⟩
def kwSt457 : LexState := ⟨none, none, [(Cond.anyOf [('a', 'a')], 544, false)]⟩
def kwSt458 : LexState := ⟨none, none, [(Cond.anyOf [('s', 's')], 545, false)]⟩
def kwSt459 : LexState := ⟨none, none, [(Cond.anyOf [('p', 'p')], 546, false)]⟩
def kwSt460 : LexState := ⟨some 66, none, []⟩
def kwSt461 : LexState := ⟨none, none, [(Cond.anyOf [('t', 't')], 547, false)]⟩
def kwSt462 : LexState := ⟨none, none, [(Cond.anyOf [('d', 'd')], 548, false)]⟩
def kwSt463 : LexState := ⟨none, none, [(Cond.anyOf [('e', 'e')], 549, false)]⟩
def kwSt464 : LexState := ⟨none, none, [(Cond.anyOf [('d', 'd')], 550, false)]⟩
def kwSt465 : LexState := ⟨none, none, [(Cond.anyOf [('e', 'e')], 551, false)]⟩
def kwSt466 : LexState := ⟨none, none, [(Cond.anyOf [('n', 'n')], 552, false)]⟩
def kwSt467 : LexState := ⟨none, none, [(Cond.anyOf [('t', 't')], 553, false)]⟩
def kwSt468 : LexState := ⟨some 82, none, []⟩
def kwSt469 : LexState := ⟨none, none, [(Cond.anyOf [('e', 'e')], 554, false), (Cond.anyOf [('i', 'i')], 555, false)]⟩
def kwSt470 : LexState := ⟨some 87, none, []⟩
def kwSt471 : LexState := ⟨none, none, [(Cond.anyOf [('o', 'o')], 556, false)]⟩
def kwSt472 : LexState := ⟨none, none, [(Cond.anyOf [('e', 'e')], 557, false)]⟩
def kwSt473 : LexState := ⟨none, none, [(Cond.anyOf [('s', 's')], 558, false)]⟩
def kwSt474 : LexState := ⟨some 5, none, []⟩
def kwSt475 : LexState := ⟨none, none, [(Cond.anyOf [('e', 'e')], 559, false)]⟩
def kwSt476 : LexState := ⟨none, none, [(Cond.anyOf [('d', 'd')], 560, false)]⟩
def kwSt477 : LexState := ⟨none, none, [(Cond.anyOf [('c', 'c')], 561, false)]⟩
def kwSt478 : LexState := ⟨none, none, [(Cond.anyOf [('a', 'a')], 562, false)]⟩
def kwSt479 : LexState := ⟨none, none, [(Cond.anyOf [('e', 'e')], 563, false)]⟩
def kwSt480 : LexState := ⟨none, none, [(Cond.anyOf [('e', 'e')], 564, false)]⟩
def kwSt481 : LexState := ⟨none, none, [(Cond.anyOf [('i', 'i')], 565, false)]⟩
def kwSt482 : LexState := ⟨some 107, none, []⟩
def kwSt483 : LexState := ⟨none, none, [(Cond.anyOf [('g', 'g')], 566, false)]⟩
def kwSt484 : LexState := ⟨none, none, [(Cond.anyOf [('y', 'y')], 567, false)]⟩
def kwSt485 : LexState := ⟨some 112, none, []⟩
def kwSt486 : LexState := ⟨some 114, none, []⟩
def kwSt487 : LexState := ⟨none, none, [(Cond.anyOf [('e', 'e')], 568, false)]⟩
def kwSt488 : LexState := ⟨none, none, [(Cond.anyOf [('a', 'a')], 569, false)]⟩
def kwSt489 : LexState := ⟨none, none, [(Cond.anyOf [('t', 't')], 570, false)]⟩
def kwSt490 : LexState := ⟨none, none, [(Cond.anyOf [('l', 'l')], 571, false)]⟩
def kwSt491 : LexState := ⟨none, none, [(Cond.anyOf [('a', 'a')], 572, false)]⟩
def kwSt492 : LexState := ⟨none, none, [(Cond.anyOf [('q', 'q')], 573, false)]⟩
def kwSt493 : LexState := ⟨none, none, [(Cond.anyOf [('i', 'i')], 574, false)]⟩
def kwSt494 : LexState := ⟨none, none, [(Cond.anyOf [('e', 'e')], 575, false)]⟩
def kwSt495 : LexState := ⟨none, none, [(Cond.anyOf [('d', 'd')], 576, false)]⟩
def kwSt496 : LexState := ⟨none, none, [(Cond.anyOf [('e', 'e')], 577, false)]⟩
def kwSt497 : LexState := ⟨none, none, [(Cond.anyOf [('e', 'e')], 578, false)]⟩
def kwSt498 : LexState := ⟨none, none, [(Cond.anyOf [('m', 'm')], 579, false)]⟩
def kwSt499 : LexState := ⟨none, none, [(Cond.anyOf [('n', 'n')], 580, false)]⟩
def kwSt500 : LexState := ⟨none, none, [(Cond.anyOf [('a', 'a')], 581, false)]⟩
def kwSt501 : LexState := ⟨none, none, [(Cond.anyOf [('e', 'e')], 582, false)]⟩
def kwSt502 : LexState := ⟨none, none, [(Cond.anyOf [('t', 't')], 583, false)]⟩
def kwSt503 : LexState := ⟨some 137, none, []⟩
def kwSt504 : LexState := ⟨none, none, [(Cond.anyOf [('l', 'l')], 584, false)]⟩
def kwSt505 : LexState := ⟨none, none, [(Cond.anyOf [('n', 'n')], 585, false)]⟩
def kwSt506 : LexState := ⟨none, none, [(Cond.anyOf [('n', 'n')], 586, false)]⟩
def kwSt507 : LexState := ⟨some 143, none, [(Cond.anyOf [('i', 'i')], 587, false)]⟩
def kwSt508 : LexState := ⟨none, none, [(Cond.anyOf [('e', 'e')], 588, false)]⟩
def kwSt509 : LexState := ⟨some 147, none, []⟩
def kwSt510 : LexState := ⟨none, none, [(Cond.anyOf [('y', 'y')], 589, false)]⟩
def kwSt511 : LexState := ⟨none, none, [(Cond.anyOf [('o', 'o')], 590, false)]⟩
def kwSt512 : LexState := ⟨none, none, [(Cond.anyOf [('l', 'l')], 591, false)]⟩
def kwSt513 : LexState := ⟨none, none, [(Cond.anyOf [('o', 'o')], 592, false)]⟩
def kwSt514 : LexState := ⟨none, none, [(Cond.anyOf [('r', 'r')], 593, false)]⟩
def kwSt515 : LexState := ⟨some 156, none, []⟩
def kwSt516 : LexState := ⟨none, none, [(Cond.anyOf [('s', 's')], 594, false)]⟩
def kwSt517 : LexState := ⟨none, none, [(Cond.anyOf [('t', 't')], 595, false)]⟩
def kwSt518 : LexState := ⟨some 159, none, [(Cond.anyOf [('s', 's')], 596, false)]⟩
def kwSt519 : LexState := ⟨none, none, [(Cond.anyOf [('e', 'e')], 597, false)]⟩
def kwSt520 : LexState := ⟨none, none, [(Cond.anyOf [('s', 's')], 598, false)]⟩
def kwSt521 : LexState := ⟨none, none, [(Cond.anyOf [('a', 'a')], 599, false)]⟩
def kwSt522 : LexState := ⟨none, none, [(Cond.anyOf [('i', 'i')], 600, false)]⟩
def kwSt523 : LexState := ⟨none, none, [(Cond.anyOf [('t', 't')], 601, false)]⟩
def kwSt524 : LexState := ⟨some 169, none, []⟩
def kwSt525 : LexState := ⟨some 170, none, []⟩
def kwSt526 : LexState := ⟨none, none, [(Cond.anyOf [('t', 't')], 602, false)]⟩
def kwSt527 : LexState := ⟨none, none, [(Cond.anyOf [('i', 'i')], 603, false)]⟩
def kwSt528 : LexState := ⟨none, none, [(Cond.anyOf [('c', 'c')], 604, false)]⟩
def kwSt529 : LexState := ⟨some 177, none, []⟩
def kwSt530 : LexState := ⟨none, none, [(Cond.anyOf [('i', 'i')], 605, false)]⟩
def kwSt531 : LexState := ⟨none, none, [(Cond.anyOf [('t', 't')], 606, false)]⟩
def kwSt532 : LexState := ⟨none, none, [(Cond.anyOf [('e', 'e')], 607, false), (Cond.anyOf [('i', 'i')], 608, false)]⟩
def kwSt533 : LexState := ⟨none, none, [(Cond.anyOf [('s', 's')], 609, false)]⟩
def kwSt534 : LexState := ⟨none, none, [(Cond.anyOf [('t', 't')], 610, false)]⟩
def kwSt535 : LexState := ⟨none, none, [(Cond.anyOf [('r', 'r')], 611, false)]⟩
def kwSt536 : LexState := ⟨some 45, none, []⟩
def kwSt537 : LexState := ⟨none, none, [(Cond.anyOf [('i', 'i')], 612, false)]⟩
def kwSt538 : LexState := ⟨some 53, none, []⟩
def kwSt539 : LexState := ⟨none, none, [(Cond.anyOf [('t', 't')], 613, false)]⟩
def kwSt540 : LexState := ⟨some 55, none, []⟩
def kwSt541 : LexState := ⟨none, none, [(Cond.anyOf [('t', 't')], 614, false)]⟩
def kwSt542 : LexState := ⟨some 59, none, [(Cond.anyOf [('i', 'i')], 615, false), (Cond.anyOf [('o', 'o')], 616, false)]⟩
def kwSt543 : LexState := ⟨none, none, [(Cond.anyOf [('t', 't')], 617, false)]⟩
def kwSt544 : LexState := ⟨none, none, [(Cond.anyOf [('i', 'i')], 618, false)]⟩
def kwSt545 : LexState := ⟨some 64, none, []⟩
def kwSt546 : LexState := ⟨none, none, [(Cond.anyOf [('e', 'e')], 619, false)]⟩
def kwSt547 : LexState := ⟨some 67, none, []⟩
def kwSt548 : LexState := ⟨some 68, none, []⟩
def kwSt549 : LexState := ⟨none, none, [(Cond.anyOf [('n', 'n')], 620, false)]⟩
def kwSt550 : LexState := ⟨some 70, none, []⟩
def kwSt551 : LexState := ⟨none, none, [(Cond.anyOf [('n', 'n')], 621, false)]⟩
def kwSt552 : LexState := ⟨none, none, [(Cond.anyOf [('i', 'i')], 622, false), (Cond.anyOf [('t', 't')], 623, false)]⟩
def kwSt553 : LexState := ⟨some 80, none, []⟩
def kwSt554 : LexState := ⟨some 84, none, [(Cond.anyOf [('d', 'd')], 624, false)]⟩
def kwSt555 : LexState := ⟨none, none, [(Cond.anyOf [('n', 'n')], 625, false)]⟩
def kwSt556 : LexState := ⟨none, none, [(Cond.anyOf [('n', 'n')], 626, false)]⟩
def kwSt557 : LexState := ⟨some 95, none, []⟩
def kwSt558 : LexState := ⟨some 97, none, []⟩
def kwSt559 : LexState := ⟨some 99, none, []⟩
def kwSt560 : LexState := ⟨none, none, [(Cond.anyOf [('u', 'u')], 627, false)]⟩
def kwSt561 : LexState := ⟨none, none, [(Cond.anyOf [('t', 't')], 628, false)]⟩
def kwSt562 : LexState := ⟨none, none, [(Cond.anyOf [('c', 'c')], 629, false)]⟩
def kwSt563 : LexState := ⟨none, none, [(Cond.anyOf [('c', 'c')], 630, false)]⟩
def kwSt564 : LexState := ⟨some 105, none, []⟩
def kwSt565 : LexState := ⟨none, none, [(Cond.anyOf [('n', 'n')], 631, false)]⟩
def kwSt566 : LexState := ⟨none, none, [(Cond.anyOf [('e', 'e')], 632, false)]⟩
def kwSt567 : LexState := ⟨some 111, none, []⟩
def kwSt568 : LexState := ⟨some 116, none, []⟩
def kwSt569 : LexState := ⟨none, none, [(Cond.anyOf [('s', 's')], 633, false)]⟩
def kwSt570 : LexState := ⟨none, none, [(Cond.anyOf [('a', 'a')], 634, false)]⟩
def kwSt571 : LexState := ⟨none, none, [(Cond.anyOf [('i', 'i')], 635, false)]⟩
def kwSt572 : LexState := ⟨none, none, [(Cond.anyOf [('c', 'c')], 636, false)]⟩
def kwSt573 : LexState := ⟨none, none, [(Cond.anyOf [('u', 'u')], 637, false)]⟩
def kwSt574 : LexState := ⟨none, none, [(Cond.anyOf [('v', 'v')], 638, false)]⟩
def kwSt575 : LexState := ⟨none, none, [(Cond.anyOf [('n', 'n')], 639, false)]⟩
def kwSt576 : LexState := ⟨some 129, none, []⟩
def kwSt577 : LexState := ⟨some 4, none, []⟩
def kwSt578 : LexState := ⟨none, none, [(Cond.anyOf [('l', 'l')], 640, false)]⟩
def kwSt579 : LexState := ⟨some 132, none, []⟩
def kwSt580 : LexState := ⟨some 133, none, []⟩
def kwSt581 : LexState := ⟨none, none, [(Cond.anyOf [('t', 't')], 641, false)]⟩
def kwSt582 : LexState := ⟨some 135, none, []⟩
def kwSt583 : LexState := ⟨none, none, [(Cond.anyOf [('e', 'e')], 642, false)]⟩
def kwSt584 : LexState := ⟨none, none, [(Cond.anyOf [('y', 'y')], 643, false)]⟩
def kwSt585 : LexState := ⟨none, none, [(Cond.anyOf [('e', 'e')], 644, false), (Cond.anyOf [('i', 'i')], 645, false)]⟩
def kwSt586 : LexState := ⟨none, none, [(Cond.anyOf [('c', 'c')], 646, false)]⟩
def kwSt587 : LexState := ⟨none, none, [(Cond.anyOf [('n', 'n')], 647, false)]⟩
def kwSt588 : LexState := ⟨some 146, none, [(Cond.anyOf [('m', 'm')], 648, false)]⟩
def kwSt589 : LexState := ⟨some 148, none, []⟩
def kwSt590 : LexState := ⟨none, none, [(Cond.anyOf [('t', 't')], 649, false)]⟩
def kwSt591 : LexState := ⟨none, none, [(Cond.anyOf [('i', 'i')], 650, false)]⟩
def kwSt592 : LexState := ⟨none, none, [(Cond.anyOf [('l', 'l')], 651, false)]⟩
def kwSt593 : LexState := ⟨none, none, [(Cond.anyOf [('d', 'd')], 652, false)]⟩
def kwSt594 : LexState := ⟨none, none, [(Cond.anyOf [('s', 's')], 653, false)]⟩
def kwSt595 : LexState := ⟨some 158, none, []⟩
def kwSt596 : LexState := ⟨some 160, none, []⟩
def kwSt597 : LexState := ⟨some 161, none, []⟩
def kwSt598 : LexState := ⟨none, none, [(Cond.anyOf [('i', 'i')], 654, false)]⟩
def kwSt599 : LexState := ⟨none, none, [(Cond.anyOf [('t', 't')], 655, false)]⟩
def kwSt600 : LexState := ⟨none, none, [(Cond.anyOf [('c', 'c')], 656, false)]⟩
def kwSt601 : LexState := ⟨none, none, [(Cond.anyOf [('i', 'i')], 657, false)]⟩
def kwSt602 : LexState := ⟨some 174, none, []⟩
def kwSt603 : LexState := ⟨none, none, [(Cond.anyOf [('o', 'o')], 658, false)]⟩
def kwSt604 : LexState := ⟨none, none, [(Cond.anyOf [('a', 'a')], 659, false)]⟩
def kwSt605 : LexState := ⟨none, none, [(Cond.anyOf [('n', 'n')], 660, false)]⟩
def kwSt606 : LexState := ⟨some 27, none, []⟩
def kwSt607 : LexState := ⟨some 33, none, []⟩
def kwSt608 : LexState := ⟨none, none, [(Cond.anyOf [('o', 'o')], 661, false)]⟩
def kwSt609 : LexState := ⟨some 35, none, []⟩
def kwSt610 : LexState := ⟨none, none, [(Cond.anyOf [('e', 'e')], 662, false)]⟩
def kwSt611 : LexState := ⟨some 43, none, []⟩
def kwSt612 : LexState := ⟨none, none, [(Cond.anyOf [('e', 'e')], 663, false)]⟩
def kwSt613 : LexState := ⟨none, none, [(Cond.anyOf [('e', 'e')], 664, false)]⟩
def kwSt614 : LexState := ⟨none, none, [(Cond.anyOf [('e', 'e')], 665, false), (Cond.anyOf [('i', 'i')], 666, false)]⟩
def kwSt615 : LexState := ⟨none, none, [(Cond.anyOf [('o', 'o')], 667, false)]⟩
def kwSt616 : LexState := ⟨none, none, [(Cond.anyOf [('r', 'r')], 668, false)]⟩
def kwSt617 : LexState := ⟨some 63, none, []⟩
def kwSt618 : LexState := ⟨none, none, [(Cond.anyOf [('n', 'n')], 669, false)]⟩
def kwSt619 : LexState := ⟨some 65, none, []⟩
def kwSt620 : LexState := ⟨none, none, [(Cond.anyOf [('c', 'c')], 670, false)]⟩
def kwSt621 : LexState := ⟨none, none, [(Cond.anyOf [('c', 'c')], 671, false)]⟩
def kwSt622 : LexState := ⟨none, none, [(Cond.anyOf [('n', 'n')], 672, false)]⟩
def kwSt623 : LexState := ⟨some 73, none, []⟩
def kwSt624 : LexState := ⟨some 85, none, []⟩
def kwSt625 : LexState := ⟨none, none, [(Cond.anyOf [('g', 'g')], 673, false)]⟩
def kwSt626 : LexState := ⟨some 94, none, []⟩
def kwSt627 : LexState := ⟨none, none, [(Cond.anyOf [('a', 'a')], 674, false)]⟩
def kwSt628 : LexState := ⟨none, none, [(Cond.anyOf [('i', 'i')], 675, false)]⟩
def kwSt629 : LexState := ⟨none, none, [(Cond.anyOf [('e', 'e')], 676, false)]⟩
def kwSt630 : LexState := ⟨none, none, [(Cond.anyOf [('t', 't')], 677, false)]⟩
def kwSt631 : LexState := ⟨none, none, [(Cond.anyOf [('g', 'g')], 678, false)]⟩
def kwSt632 : LexState := ⟨some 110, none, []⟩
def kwSt633 : LexState := ⟨none, none, [(Cond.anyOf [('s', 's')], 679, false)]⟩
def kwSt634 : LexState := ⟨some 119, none, []⟩
def kwSt635 : LexState := ⟨none, none, [(Cond.anyOf [('c', 'c')], 680, false)]⟩
def kwSt636 : LexState := ⟨none, none, [(Cond.anyOf [('e', 'e')], 681, false)]⟩
def kwSt637 : LexState := ⟨none, none, [(Cond.anyOf [('e', 'e')], 682, false)]⟩
def kwSt638 : LexState := ⟨none, none, [(Cond.anyOf [('e', 'e')], 683, false)]⟩
def kwSt639 : LexState := ⟨none, none, [(Cond.anyOf [('c', 'c')], 684, false)]⟩
def kwSt640 : LexState := ⟨some 131, none, []⟩
def kwSt641 : LexState := ⟨none, none, [(Cond.anyOf [('e', 'e')], 685, false)]⟩
def kwSt642 : LexState := ⟨none, none, [(Cond.anyOf [('d', 'd')], 686, false)]⟩
def kwSt643 : LexState := ⟨some 138, none, []⟩
def kwSt644 : LexState := ⟨none, none, [(Cond.anyOf [('s', 's')], 687, false)]⟩
def kwSt645 : LexState := ⟨none, none, [(Cond.anyOf [('t', 't')], 688, false)]⟩
def kwSt646 : LexState := ⟨none, none, [(Cond.anyOf [('e', 'e')], 689, false)]⟩
def kwSt647 : LexState := ⟨none, none, [(Cond.anyOf [('g', 'g')], 690, false)]⟩
def kwSt648 : LexState := ⟨none, none, [(Cond.anyOf [('e', 'e')], 691, false)]⟩
def kwSt649 : LexState := ⟨some 150, none, []⟩
def kwSt650 : LexState := ⟨none, none, [(Cond.anyOf [('z', 'z')], 692, false)]⟩
def kwSt651 : LexState := ⟨none, none, [(Cond.anyOf [('d', 'd')], 693, false)]⟩
def kwSt652 : LexState := ⟨some 154, none, []⟩
def kwSt653 : LexState := ⟨none, none, [(Cond.anyOf [('i', 'i')], 694, false)]⟩
def kwSt654 : LexState := ⟨none, none, [(Cond.anyOf [('o', 'o')], 695, false)]⟩
def kwSt655 : LexState := ⟨none, none, [(Cond.anyOf [('e', 'e')], 696, false)]⟩
def kwSt656 : LexState := ⟨none, none, [(Cond.anyOf [('e', 'e')], 697, false)]⟩
def kwSt657 : LexState := ⟨none, none, [(Cond.anyOf [('o', 'o')], 698, false)]⟩
def kwSt658 : LexState := ⟨none, none, [(Cond.anyOf [('n', 'n')], 699, false)]⟩
def kwSt659 : LexState := ⟨none, none, [(Cond.anyOf [('t', 't')], 700, false)]⟩
def kwSt660 : LexState := ⟨none, none, [(Cond.anyOf [('t', 't')], 701, false)]⟩
def kwSt661 : LexState := ⟨none, none, [(Cond.anyOf [('n', 'n')], 702, false)]⟩
def kwSt662 : LexState := ⟨some 10, none, []⟩
def kwSt663 : LexState := ⟨none, none, [(Cond.anyOf [('r', 'r')], 703, false)]⟩
def kwSt664 : LexState := ⟨some 54, none, []⟩
def kwSt665 : LexState := ⟨some 56, none, [(Cond.anyOf [('s', 's')], 704, false)]⟩
def kwSt666 : LexState := ⟨none, none, [(Cond.anyOf [('o', 'o')], 705, false)]⟩
def kwSt667 : LexState := ⟨none, none, [(Cond.anyOf [('n', 'n')], 706, false)]⟩
def kwSt668 : LexState := ⟨some 61, none, []⟩
def kwSt669 : LexState := ⟨none, none, [(Cond.anyOf [('t', 't')], 707, false)]⟩
def kwSt670 : LexState := ⟨none, none, [(Cond.anyOf [('y', 'y')], 708, false)]⟩
def kwSt671 : LexState := ⟨none, none, [(Cond.anyOf [('e', 'e')], 709, false)]⟩
def kwSt672 : LexState := ⟨none, none, [(Cond.anyOf [('g', 'g')], 710, false)]⟩
def kwSt673 : LexState := ⟨some 86, none, []⟩
def kwSt674 : LexState := ⟨none, none, [(Cond.anyOf [('l', 'l')], 711, false)]⟩
def kwSt675 : LexState := ⟨none, none, [(Cond.anyOf [('o', 'o')], 712, false)]⟩
def kwSt676 : LexState := ⟨some 13, none, []⟩
def kwSt677 : LexState := ⟨none, none, [(Cond.anyOf [('s', 's')], 713, false)]⟩
def kwSt678 : LexState := ⟨some 106, none, []⟩
def kwSt679 : LexState := ⟨some 118, none, []⟩
def kwSt680 : LexState := ⟨none, none, [(Cond.anyOf [('i', 'i')], 714, false)]⟩
def kwSt681 : LexState := ⟨some 121, none, []⟩
def kwSt682 : LexState := ⟨some 123, none, []⟩
def kwSt683 : LexState := ⟨some 125, none, []⟩
def kwSt684 : LexState := ⟨none, none, [(Cond.anyOf [('e', 'e')], 715, false)]⟩
def kwSt685 : LexState := ⟨some 134, none, []⟩
def kwSt686 : LexState := ⟨some 136, none, []⟩
def kwSt687 : LexState := ⟨some 139, none, []⟩
def kwSt688 : LexState := ⟨none, none, [(Cond.anyOf [('i', 'i')], 716, false)]⟩
def kwSt689 : LexState := ⟨none, none, [(Cond.anyOf [('s', 's')], 717, false)]⟩
def kwSt690 : LexState := ⟨some 144, none, []⟩
def kwSt691 : LexState := ⟨none, none, [(Cond.anyOf [('n', 'n')], 718, false)]⟩
def kwSt692 : LexState := ⟨none, none, [(Cond.anyOf [('a', 'a')], 719, false), (Cond.anyOf [('e', 'e')], 720, false)]⟩
def kwSt693 : LexState := ⟨none, none, [(Cond.anyOf [('e', 'e')], 721, false)]⟩
def kwSt694 : LexState := ⟨none, none, [(Cond.anyOf [('f', 'f')], 722, false)]⟩
def kwSt695 : LexState := ⟨none, none, [(Cond.anyOf [('n', 'n')], 723, false)]⟩
def kwSt696 : LexState := ⟨some 163, none, []⟩
def kwSt697 : LexState := ⟨some 165, none, []⟩
def kwSt698 : LexState := ⟨none, none, [(Cond.anyOf [('n', 'n')], 724, false)]⟩
def kwSt699 : LexState := ⟨some 175, none, []⟩
def kwSt700 : LexState := ⟨none, none, [(Cond.anyOf [('i', 'i')], 725, false)]⟩
def kwSt701 : LexState := ⟨some 180, none, []⟩
def kwSt702 : LexState := ⟨some 34, none, []⟩
def kwSt703 : LexState := ⟨some 52, none, []⟩
def kwSt704 : LexState := ⟨some 57, none, []⟩
def kwSt705 : LexState := ⟨none, none, [(Cond.anyOf [('n', 'n')], 726, false)]⟩
def kwSt706 : LexState := ⟨some 60, none, []⟩
def kwSt707 : LexState := ⟨some 16, none, []⟩
def kwSt708 : LexState := ⟨some 69, none, []⟩
def kwSt709 : LexState := ⟨none, none, [(Cond.anyOf [('s', 's')], 727, false)]⟩
def kwSt710 : LexState := ⟨some 72, none, []⟩
def kwSt711 : LexState := ⟨some 100, none, []⟩
def kwSt712 : LexState := ⟨none, none, [(Cond.anyOf [('n', 'n')], 728, false)]⟩
def kwSt713 : LexState := ⟨some 103, none, []⟩
def kwSt714 : LexState := ⟨none, none, [(Cond.anyOf [('t', 't')], 729, false)]⟩
def kwSt715 : LexState := ⟨some 126, none, []⟩
def kwSt716 : LexState := ⟨none, none, [(Cond.anyOf [('o', 'o')], 730, false)]⟩
def kwSt717 : LexState := ⟨some 142, none, []⟩
def kwSt718 : LexState := ⟨none, none, [(Cond.anyOf [('t', 't')], 731, false)]⟩
def kwSt719 : LexState := ⟨none, none, [(Cond.anyOf [('t', 't')], 732, false)]⟩
def kwSt720 : LexState := ⟨none, none, [(Cond.anyOf [('s', 's')], 733, false)]⟩
def kwSt721 : LexState := ⟨none, none, [(Cond.anyOf [('r', 'r')], 734, false)]⟩
def kwSt722 : LexState := ⟨none, none, [(Cond.anyOf [('i', 'i')], 735, false)]⟩
def kwSt723 : LexState := ⟨some 162, none, []⟩
def kwSt724 : LexState := ⟨some 167, none, []⟩
def kwSt725 : LexState := ⟨none, none, [(Cond.anyOf [('o', 'o')], 736, false)]⟩
def kwSt726 : LexState := ⟨some 58, none, []⟩
def kwSt727 : LexState := ⟨some 71, none, []⟩
def kwSt728 : LexState := ⟨some 102, none, []⟩
def kwSt729 : LexState := ⟨none, none, [(Cond.anyOf [('y', 'y')], 737, false)]⟩
def kwSt730 : LexState := ⟨none, none, [(Cond.anyOf [('n', 'n')], 738, false)]⟩
def kwSt731 : LexState := ⟨some 15, none, []⟩
def kwSt732 : LexState := ⟨none, none, [(Cond.anyOf [('i', 'i')], 739, false)]⟩
def kwSt733 : LexState := ⟨some 152, none, []⟩
def kwSt734 : LexState := ⟨some 153, none, []⟩
def kwSt735 : LexState := ⟨none, none, [(Cond.anyOf [('e', 'e')], 740, false)]⟩
def kwSt736 : LexState := ⟨none, none, [(Cond.anyOf [('n', 'n')], 741, false)]⟩
def kwSt737 : LexState := ⟨some 120, none, []⟩
def kwSt738 : LexState := ⟨some 140, none, []⟩
def kwSt739 : LexState := ⟨none, none, [(Cond.anyOf [('o', 'o')], 742, false)]⟩
def kwSt740 : LexState := ⟨none, none, [(Cond.anyOf [('r', 'r')], 743, false)]⟩
def kwSt741 : LexState := ⟨some 176, none, []⟩
def kwSt742 : LexState := ⟨none, none, [(Cond.anyOf [('n', 'n')], 744, false)]⟩
def kwSt743 : LexState := ⟨some 157, none, []⟩
def kwSt744 : LexState := ⟨some 151, none, []⟩

def kwStates : List LexState := [kwSt0, kwSt1, kwSt2, kwSt3, kwSt4, kwSt5, kwSt6, kwSt7, kwSt8, kwSt9, kwSt10, kwSt11, kwSt12, kwSt13, kwSt14, kwSt15, kwSt16, kwSt17, kwSt18, kwSt19, kwSt20, kwSt21, kwSt22, kwSt23, kwSt24, kwSt25, kwSt26, kwSt27, kwSt28, kwSt29, kwSt30, kwSt31, kwSt32, kwSt33, kwSt34, kwSt35, kwSt36, kwSt37, kwSt38, kwSt39, kwSt40, kwSt41, kwSt42, kwSt43, kwSt44, kwSt45, kwSt46, kwSt47, kwSt48, kwSt49, kwSt50, kwSt51, kwSt52, kwSt53, kwSt54, kwSt55, kwSt56, kwSt57, kwSt58, kwSt59, kwSt60, kwSt61, kwSt62, kwSt63, kwSt64, kwSt65, kwSt66, kwSt67, kwSt68, kwSt69, kwSt70, kwSt71, kwSt72, kwSt73, kwSt74, kwSt75, kwSt76, kwSt77, kwSt78, kwSt79, kwSt80, kwSt81, kwSt82, kwSt83, kwSt84, kwSt85, kwSt86, kwSt87, kwSt88, kwSt89, kwSt90, kwSt91, kwSt92, kwSt93, kwSt94, kwSt95, kwSt96, kwSt97, kwSt98, kwSt99, kwSt100, kwSt101, kwSt102, kwSt103, kwSt104, kwSt105, kwSt106, kwSt107, kwSt108, kwSt109, kwSt110, kwSt111, kwSt112, kwSt113, kwSt114, kwSt115, kwSt116, kwSt117, kwSt118, kwSt119, kwSt120, kwSt121, kwSt122, kwSt123, kwSt124, kwSt125, kwSt126, kwSt127, kwSt128, kwSt129, kwSt130, kwSt131, kwSt132, kwSt133, kwSt134, kwSt135, kwSt136, kwSt137, kwSt138, kwSt139, kwSt140, kwSt141, kwSt142, kwSt143, kwSt144, kwSt145, kwSt146, kwSt147, kwSt148, kwSt149, kwSt150, kwSt151, kwSt152, kwSt153, kwSt154, kwSt155, kwSt156, kwSt157, kwSt158, kwSt159, kwSt160, kwSt161, kwSt162, kwSt163, kwSt164, kwSt165, kwSt166, kwSt167, kwSt168, kwSt169, kwSt170, kwSt171, kwSt172, kwSt173, kwSt174, kwSt175, kwSt176, kwSt177, kwSt178, kwSt179, kwSt180, kwSt181, kwSt182, kwSt183, kwSt184, kwSt185, kwSt186, kwSt187, kwSt188, kwSt189, kwSt190, kwSt191, kwSt192, kwSt193, kwSt194, kwSt195, kwSt196, kwSt197, kwSt198, kwSt199, kwSt200, kwSt201, kwSt202, kwSt203, kwSt204, kwSt205, kwSt206, kwSt207, kwSt208, kwSt209, kwSt210, kwSt211, kwSt212, kwSt213, kwSt214, kwSt215, kwSt216, kwSt217, kwSt218, kwSt219, kwSt220, kwSt221, kwSt222, kwSt223, kwSt224, kwSt225, kwSt226, kwSt227, kwSt228, kwSt229, kwSt230, kwSt231, kwSt232, kwSt233, kwSt234, kwSt235, kwSt236, kwSt237, kwSt238, kwSt239, kwSt240, kwSt241, kwSt242, kwSt243, kwSt244, kwSt245, kwSt246, kwSt247, kwSt248, kwSt249, kwSt250, kwSt251, kwSt252, kwSt253, kwSt254, kwSt255, kwSt256, kwSt257, kwSt258, kwSt259, kwSt260, kwSt261, kwSt262, kwSt263, kwSt264, kwSt265, kwSt266, kwSt267, kwSt268, kwSt269, kwSt270, kwSt271, kwSt272, kwSt273, kwSt274, kwSt275, kwSt276, kwSt277, kwSt278, kwSt279, kwSt280, kwSt281, kwSt282, kwSt283, kwSt284, kwSt285, kwSt286, kwSt287, kwSt288, kwSt289, kwSt290, kwSt291, kwSt292, kwSt293, kwSt294, kwSt295, kwSt296, kwSt297, kwSt298, kwSt299, kwSt300, kwSt301, kwSt302, kwSt303, kwSt304, kwSt305, kwSt306, kwSt307, kwSt308, kwSt309, kwSt310, kwSt311, kwSt312, kwSt313, kwSt314, kwSt315, kwSt316, kwSt317, kwSt318, kwSt319, kwSt320, kwSt321, kwSt322, kwSt323, kwSt324, kwSt325, kwSt326, kwSt327, kwSt328, kwSt329, kwSt330, kwSt331, kwSt332, kwSt333, kwSt334, kwSt335, kwSt336, kwSt337, kwSt338, kwSt339, kwSt340, kwSt341, kwSt342, kwSt343, kwSt344, kwSt345, kwSt346, kwSt347, kwSt348, kwSt349, kwSt350, kwSt351, kwSt352, kwSt353, kwSt354, kwSt355, kwSt356, kwSt357, kwSt358, kwSt359, kwSt360, kwSt361, kwSt362, kwSt363, kwSt364, kwSt365, kwSt366, kwSt367, kwSt368, kwSt369, kwSt370, kwSt371, kwSt372, kwSt373, kwSt374, kwSt375, kwSt376, kwSt377, kwSt378, kwSt379, kwSt380, kwSt381, kwSt382, kwSt383, kwSt384, kwSt385, kwSt386, kwSt387, kwSt388, kwSt389, kwSt390, kwSt391, kwSt392, kwSt393, kwSt394, kwSt395, kwSt396, kwSt397, kwSt398, kwSt399, kwSt400, kwSt401, kwSt402, kwSt403, kwSt404, kwSt405, kwSt406, kwSt407, kwSt408, kwSt409, kwSt410, kwSt411, kwSt412, kwSt413, kwSt414, kwSt415, kwSt416, kwSt417, kwSt418, kwSt419, kwSt420, kwSt421, kwSt422, kwSt423, kwSt424, kwSt425, kwSt426, kwSt427, kwSt428, kwSt429, kwSt430, kwSt431, kwSt432, kwSt433, kwSt434, kwSt435, kwSt436, kwSt437, kwSt438, kwSt439, kwSt440, kwSt441, kwSt442, kwSt443, kwSt444, kwSt445, kwSt446, kwSt447, kwSt448, kwSt449, kwSt450, kwSt451, kwSt452, kwSt453, kwSt454, kwSt455, kwSt456, kwSt457, kwSt458, kwSt459, kwSt460, kwSt461, kwSt462, kwSt463, kwSt464, kwSt465, kwSt466, kwSt467, kwSt468, kwSt469, kwSt470, kwSt471, kwSt472, kwSt473, kwSt474, kwSt475, kwSt476, kwSt477, kwSt478, kwSt479, kwSt480, kwSt481, kwSt482, kwSt483, kwSt484, kwSt485, kwSt486, kwSt487, kwSt488, kwSt489, kwSt490, kwSt491, kwSt492, kwSt493, kwSt494, kwSt495, kwSt496, kwSt497, kwSt498, kwSt499, kwSt500, kwSt501, kwSt502, kwSt503, kwSt504, kwSt505, kwSt506, kwSt507, kwSt508, kwSt509, kwSt510, kwSt511, kwSt512, kwSt513, kwSt514, kwSt515, kwSt516, kwSt517, kwSt518, kwSt519, kwSt520, kwSt521, kwSt522, kwSt523, kwSt524, kwSt525, kwSt526, kwSt527, kwSt528, kwSt529, kwSt530, kwSt531, kwSt532, kwSt533, kwSt534, kwSt535, kwSt536, kwSt537, kwSt538, kwSt539, kwSt540, kwSt541, kwSt542, kwSt543, kwSt544, kwSt545, kwSt546, kwSt547, kwSt548, kwSt549, kwSt550, kwSt551, kwSt552, kwSt553, kwSt554, kwSt555, kwSt556, kwSt557, kwSt558, kwSt559, kwSt560, kwSt561, kwSt562, kwSt563, kwSt564, kwSt565, kwSt566, kwSt567, kwSt568, kwSt569, kwSt570, kwSt571, kwSt572, kwSt573, kwSt574, kwSt575, kwSt576, kwSt577, kwSt578, kwSt579, kwSt580, kwSt581, kwSt582, kwSt583, kwSt584, kwSt585, kwSt586, kwSt587, kwSt588, kwSt589, kwSt590, kwSt591, kwSt592, kwSt593, kwSt594, kwSt595, kwSt596, kwSt597, kwSt598, kwSt599, kwSt600, kwSt601, kwSt602, kwSt603, kwSt604, kwSt605, kwSt606, kwSt607, kwSt608, kwSt609, kwSt610, kwSt611, kwSt612, kwSt613, kwSt614, kwSt615, kwSt616, kwSt617, kwSt618, kwSt619, kwSt620, kwSt621, kwSt622, kwSt623, kwSt624, kwSt625, kwSt626, kwSt627, kwSt628, kwSt629, kwSt630, kwSt631, kwSt632, kwSt633, kwSt634, kwSt635, kwSt636, kwSt637, kwSt638, kwSt639, kwSt640, kwSt641, kwSt642, kwSt643, kwSt644, kwSt645, kwSt646, kwSt647, kwSt648, kwSt649, kwSt650, kwSt651, kwSt652, kwSt653, kwSt654, kwSt655, kwSt656, kwSt657, kwSt658, kwSt659, kwSt660, kwSt661, kwSt662, kwSt663, kwSt664, kwSt665, kwSt666, kwSt667, kwSt668, kwSt669, kwSt670, kwSt671, kwSt672, kwSt673, kwSt674, kwSt675, kwSt676, kwSt677, kwSt678, kwSt679, kwSt680, kwSt681, kwSt682, kwSt683, kwSt684, kwSt685, kwSt686, kwSt687, kwSt688, kwSt689, kwSt690, kwSt691, kwSt692, kwSt693, kwSt694, kwSt695, kwSt696, kwSt697, kwSt698, kwSt699, kwSt700, kwSt701, kwSt702, kwSt703, kwSt704, kwSt705, kwSt706, kwSt707, kwSt708, kwSt709, kwSt710, kwSt711, kwSt712, kwSt713, kwSt714, kwSt715, kwSt716, kwSt717, kwSt718, kwSt719, kwSt720, kwSt721, kwSt722, kwSt723, kwSt724, kwSt725, kwSt726, kwSt727, kwSt728, kwSt729, kwSt730, kwSt731, kwSt732, kwSt733, kwSt734, kwSt735, kwSt736, kwSt737, kwSt738, kwSt739, kwSt740, kwSt741, kwSt742, kwSt743, kwSt744]

/-- Transcription of ts_parse_table, ts_small_parse_table and ts_parse_actions: per parser state, the (terminal, action-entry) list and the (nonterminal, goto-state) list. -/
def pSt0 : PState := ⟨[(0, [PAct.recover]), (1, [PAct.recover]), (2, [PAct.recover]), (3, [PAct.recover]), (4, [PAct.recover]), (5, [PAct.recover]), (6, [PAct.recover]), (8, [PAct.recover]), (9, [PAct.recover]), (10, [PAct.recover]), (11, [PAct.recover]), (12, [PAct.recover]), (13, [PAct.recover]), (14, [PAct.recover]), (15, [PAct.recover]), (16, [PAct.recover]), (17, [PAct.recover]), (18, [PAct.recover]), (19, [PAct.recover]), (20, [PAct.recover]), (21, [PAct.recover]), (22, [PAct.recover]), (23, [PAct.recover]), (24, [PAct.recover]), (25, [PAct.recover]), (26, [PAct.recover]), (27, [PAct.recover]), (28, [PAct.recover]), (29, [PAct.recover]), (30, [PAct.recover]), (31, [PAct.recover]), (32, [PAct.recover]), (33, [PAct.recover]), (34, [PAct.recover]), (35, [PAct.recover]), (36, [PAct.recover]), (37, [PAct.recover]), (38, [PAct.recover]), (39, [PAct.recover]), (40, [PAct.recover]), (41, [PAct.recover]), (42, [PAct.recover]), (43, [PAct.recover]), (44, [PAct.recover]), (45, [PAct.recover]), (46, [PAct.recover]), (47, [PAct.recover]), (48, [PAct.recover]), (49, [PAct.recover]), (50, [PAct.recover]), (51, [PAct.recover]), (52, [PAct.recover]), (53, [PAct.recover]), (54, [PAct.recover]), (55, [PAct.recover]), (56, [PAct.recover]), (57, [PAct.recover]), (58, [PAct.recover]), (59, [PAct.recover]), (60, [PAct.recover]), (61, [PAct.recover]), (62, [PAct.recover]), (63, [PAct.recover]), (64, [PAct.recover]), (65, [PAct.recover]), (66, [PAct.recover]), (67, [PAct.recover]), (68, [PAct.recover]), (69, [PAct.recover]), (70, [PAct.recover]), (71, [PAct.recover]), (72, [PAct.recover]), (73, [PAct.recover]), (74, [PAct.recover]), (75, [PAct.recover]), (76, [PAct.recover]), (77, [PAct.recover]), (78, [PAct.recover]), (79, [PAct.recover]), (80, [PAct.recover]), (81, [PAct.recover]), (82, [PAct.recover]), (83, [PAct.recover]), (84, [PAct.recover]), (85, [PAct.recover]), (86, [PAct.recover]), (87, [PAct.recover]), (88, [PAct.recover]), (89, [PAct.recover]), (90, [PAct.recover]), (91, [PAct.recover]), (92, [PAct.recover]), (93, [PAct.recover]), (94, [PAct.recover]), (95, [PAct.recover]), (96, [PAct.recover]), (97, [PAct.recover]), (98, [PAct.recover]), (99, [PAct.recover]), (100, [PAct.recover]), (101, [PAct.recover]), (102, [PAct.recover]), (103, [PAct.recover]), (104, [PAct.recover]), (105, [PAct.recover]), (106, [PAct.recover]), (107, [PAct.recover]), (108, [PAct.recover]), (109, [PAct.recover]), (110, [PAct.recover]), (111, [PAct.recover]), (112, [PAct.recover]), (113, [PAct.recover]), (114, [PAct.recover]), (115, [PAct.recover]), (116, [PAct.recover]), (117, [PAct.recover]), (118, [PAct.recover]), (119, [PAct.recover]), (120, [PAct.recover]), (121, [PAct.recover]), (122, [PAct.recover]), (123, [PAct.recover]), (124, [PAct.recover]), (125, [PAct.recover]), (126, [PAct.recover]), (127, [PAct.recover]), (128, [PAct.recover]), (129, [PAct.recover]), (130, [PAct.recover]), (131, [PAct.recover]), (132, [PAct.recover]), (133, [PAct.recover]), (134, [PAct.recover]), (135, [PAct.recover]), (136, [PAct.recover]), (137, [PAct.recover]), (138, [PAct.recover]), (139, [PAct.recover]), (140, [PAct.recover]), (141, [PAct.recover]), (142, [PAct.recover]), (143, [PAct.recover]), (144, [PAct.recover]), (145, [PAct.recover]), (146, [PAct.recover]), (147, [PAct.recover]), (148, [PAct.recover]), (149, [PAct.recover]), (150, [PAct.recover]), (151, [PAct.recover]), (152, [PAct.recover]), (153, [PAct.recover]), (154, [PAct.recover]), (155, [PAct.recover]), (156, [PAct.recover]), (157, [PAct.recover]), (158, [PAct.recover]), (159, [PAct.recover]), (160, [PAct.recover]), (161, [PAct.recover]), (162, [PAct.recover]), (163, [PAct.recover]), (164, [PAct.recover]), (165, [PAct.recover]), (166, [PAct.recover]), (167, [PAct.recover]), (168, [PAct.recover]), (169, [PAct.recover]), (170, [PAct.recover]), (171, [PAct.recover]), (172, [PAct.recover]), (173, [PAct.recover]), (174, [PAct.recover]), (175, [PAct.recover]), (176, [PAct.recover]), (177, [PAct.recover]), (178, [PAct.recover]), (179, [PAct.recover]), (180, [PAct.recover]), (181, [PAct.recover]), (182, [PAct.recover]), (183, [PAct.recover]), (184, [PAct.recover]), (185, [PAct.recover]), (186, [PAct.recover]), (187, [PAct.recover]), (188, [PAct.recover]), (189, [PAct.recover]), (190, [PAct.recover]), (191, [PAct.recover]), (192, [PAct.recover]), (193, [PAct.recover]), (194, [PAct.recover]), (195, [PAct.recover]), (196, [PAct.recover]), (197, [PAct.recover]), (198, [PAct.recover]), (199, [PAct.recover]), (200, [PAct.recover]), (201, [PAct.recover]), (202, [PAct.recover]), (203, [PAct.recover]), (204, [PAct.recover]), (205, [PAct.shiftExtra])], []⟩
def pSt1 : PState := ⟨[(0, [PAct.reduce 206 0 0]), (4, [PAct.shift 64]), (5, [PAct.shift 57]), (8, [PAct.shift 54]), (10, [PAct.shift 55]), (11, [PAct.shift 56]), (12, [PAct.shift 56]), (13, [PAct.shift 56]), (14, [PAct.shift 56]), (15, [PAct.shift 56]), (16, [PAct.shift 56]), (17, [PAct.shift 56]), (18, [PAct.shift 56]), (205, [PAct.shiftExtra])], [(206, 62), (207, 4), (209, 4), (210, 4), (211, 4), (212, 4), (213, 4), (214, 4), (215, 4), (216, 4), (220, 4)]⟩
def pSt2 : PState := ⟨[(205, [PAct.shiftExtra]), (4, [PAct.reduce 220 2 0, PAct.shift 64]), (5, [PAct.reduce 220 2 0, PAct.shift 57]), (8, [PAct.reduce 220 2 0, PAct.shift 54]), (10, [PAct.reduce 220 2 0, PAct.shift 55]), (0, [PAct.reduce 220 2 0]), (3, [PAct.reduce 220 2 0]), (11, [PAct.reduce 220 2 0, PAct.shift 56]), (12, [PAct.reduce 220 2 0, PAct.shift 56]), (13, [PAct.reduce 220 2 0, PAct.shift 56]), (14, [PAct.reduce 220 2 0, PAct.shift 56]), (15, [PAct.reduce 220 2 0, PAct.shift 56]), (16, [PAct.reduce 220 2 0, PAct.shift 56]), (17, [PAct.reduce 220 2 0, PAct.shift 56]), (18, [PAct.reduce 220 2 0, PAct.shift 56])], [(207, 2), (209, 2), (210, 2), (211, 2), (212, 2), (213, 2), (214, 2), (215, 2), (216, 2), (220, 2)]⟩
def pSt3 : PState := ⟨[(205, [PAct.shiftExtra]), (4, [PAct.shift 64]), (5, [PAct.shift 57]), (8, [PAct.shift 54]), (10, [PAct.shift 55]), (3, [PAct.shift 32]), (11, [PAct.shift 56]), (12, [PAct.shift 56]), (13, [PAct.shift 56]), (14, [PAct.shift 56]), (15, [PAct.shift 56]), (16, [PAct.shift 56]), (17, [PAct.shift 56]), (18, [PAct.shift 56])], [(207, 5), (209, 5), (210, 5), (211, 5), (212, 5), (213, 5), (214, 5), (215, 5), (216, 5), (220, 5)]⟩
def pSt4 : PState := ⟨[(205, [PAct.shiftExtra]), (4, [PAct.shift 64]), (5, [PAct.shift 57]), (8, [PAct.shift 54]), (10, [PAct.shift 55]), (0, [PAct.reduce 206 1 0]), (11, [PAct.shift 56]), (12, [PAct.shift 56]), (13, [PAct.shift 56]), (14, [PAct.shift 56]), (15, [PAct.shift 56]), (16, [PAct.shift 56]), (17, [PAct.shift 56]), (18, [PAct.shift 56])], [(207, 2), (209, 2), (210, 2), (211, 2), (212, 2), (213, 2), (214, 2), (215, 2), (216, 2), (220, 2)]⟩
def pSt5 : PState := ⟨[(205, [PAct.shiftExtra]), (4, [PAct.shift 64]), (5, [PAct.shift 57]), (8, [PAct.shift 54]), (10, [PAct.shift 55]), (3, [PAct.shift 23]), (11, [PAct.shift 56]), (12, [PAct.shift 56]), (13, [PAct.shift 56]), (14, [PAct.shift 56]), (15, [PAct.shift 56]), (16, [PAct.shift 56]), (17, [PAct.shift 56]), (18, [PAct.shift 56])], [(207, 2), (209, 2), (210, 2), (211, 2), (212, 2), (213, 2), (214, 2), (215, 2), (216, 2), (220, 2)]⟩
def pSt6 : PState := ⟨[(205, [PAct.shiftExtra]), (2, [PAct.shift 3]), (6, [PAct.shift 39]), (19, [PAct.shift 53]), (0, [PAct.reduce 212 2 1]), (3, [PAct.reduce 212 2 1]), (4, [PAct.reduce 212 2 1]), (5, [PAct.reduce 212 2 1]), (8, [PAct.reduce 212 2 1]), (10, [PAct.reduce 212 2 1]), (11, [PAct.reduce 212 2 1]), (12, [PAct.reduce 212 2 1]), (13, [PAct.reduce 212 2 1]), (14, [PAct.reduce 212 2 1]), (15, [PAct.reduce 212 2 1]), (16, [PAct.reduce 212 2 1]), (17, [PAct.reduce 212 2 1]), (18, [PAct.reduce 212 2 1])], [(217, 14), (208, 33)]⟩
def pSt7 : PState := ⟨[(205, [PAct.shiftExtra]), (2, [PAct.shift 3]), (19, [PAct.shift 53]), (6, [PAct.shift 51]), (0, [PAct.reduce 211 3 3]), (3, [PAct.reduce 211 3 3]), (4, [PAct.reduce 211 3 3]), (5, [PAct.reduce 211 3 3]), (8, [PAct.reduce 211 3 3]), (10, [PAct.reduce 211 3 3]), (11, [PAct.reduce 211 3 3]), (12, [PAct.reduce 211 3 3]), (13, [PAct.reduce 211 3 3]), (14, [PAct.reduce 211 3 3]), (15, [PAct.reduce 211 3 3]), (16, [PAct.reduce 211 3 3]), (17, [PAct.reduce 211 3 3]), (18, [PAct.reduce 211 3 3])], [(217, 16), (208, 26)]⟩
def pSt8 : PState := ⟨[(205, [PAct.shiftExtra]), (2, [PAct.shift 3]), (19, [PAct.shift 53]), (6, [PAct.shift 48]), (0, [PAct.reduce 216 2 1]), (3, [PAct.reduce 216 2 1]), (4, [PAct.reduce 216 2 1]), (5, [PAct.reduce 216 2 1]), (8, [PAct.reduce 216 2 1]), (10, [PAct.reduce 216 2 1]), (11, [PAct.reduce 216 2 1]), (12, [PAct.reduce 216 2 1]), (13, [PAct.reduce 216 2 1]), (14, [PAct.reduce 216 2 1]), (15, [PAct.reduce 216 2 1]), (16, [PAct.reduce 216 2 1]), (17, [PAct.reduce 216 2 1]), (18, [PAct.reduce 216 2 1])], [(217, 17), (208, 28)]⟩
def pSt9 : PState := ⟨[(205, [PAct.shiftExtra]), (2, [PAct.shift 3]), (19, [PAct.shift 53]), (6, [PAct.shift 43]), (0, [PAct.reduce 215 3 3]), (3, [PAct.reduce 215 3 3]), (4, [PAct.reduce 215 3 3]), (5, [PAct.reduce 215 3 3]), (8, [PAct.reduce 215 3 3]), (10, [PAct.reduce 215 3 3]), (11, [PAct.reduce 215 3 3]), (12, [PAct.reduce 215 3 3]), (13, [PAct.reduce 215 3 3]), (14, [PAct.reduce 215 3 3]), (15, [PAct.reduce 215 3 3]), (16, [PAct.reduce 215 3 3]), (17, [PAct.reduce 215 3 3]), (18, [PAct.reduce 215 3 3])], [(217, 18), (208, 25)]⟩
def pSt10 : PState := ⟨[(205, [PAct.shiftExtra]), (20, [PAct.shift 61]), (0, [PAct.reduce 219 2 0]), (2, [PAct.reduce 219 2 0]), (3, [PAct.reduce 219 2 0]), (4, [PAct.reduce 219 2 0]), (5, [PAct.reduce 219 2 0]), (6, [PAct.reduce 219 2 0]), (8, [PAct.reduce 219 2 0]), (10, [PAct.reduce 219 2 0]), (11, [PAct.reduce 219 2 0]), (12, [PAct.reduce 219 2 0]), (13, [PAct.reduce 219 2 0]), (14, [PAct.reduce 219 2 0]), (15, [PAct.reduce 219 2 0]), (16, [PAct.reduce 219 2 0]), (17, [PAct.reduce 219 2 0]), (18, [PAct.reduce 219 2 0])], [(221, 12)]⟩
def pSt11 : PState := ⟨[(205, [PAct.shiftExtra]), (20, [PAct.shift 61]), (0, [PAct.reduce 218 1 0]), (2, [PAct.reduce 218 1 0]), (3, [PAct.reduce 218 1 0]), (4, [PAct.reduce 218 1 0]), (5, [PAct.reduce 218 1 0]), (6, [PAct.reduce 218 1 0]), (8, [PAct.reduce 218 1 0]), (10, [PAct.reduce 218 1 0]), (11, [PAct.reduce 218 1 0]), (12, [PAct.reduce 218 1 0]), (13, [PAct.reduce 218 1 0]), (14, [PAct.reduce 218 1 0]), (15, [PAct.reduce 218 1 0]), (16, [PAct.reduce 218 1 0]), (17, [PAct.reduce 218 1 0]), (18, [PAct.reduce 218 1 0])], [(221, 10)]⟩
def pSt12 : PState := ⟨[(205, [PAct.shiftExtra]), (20, [PAct.reduce 221 2 0, PAct.shift 61]), (0, [PAct.reduce 221 2 0]), (2, [PAct.reduce 221 2 0]), (3, [PAct.reduce 221 2 0]), (4, [PAct.reduce 221 2 0]), (5, [PAct.reduce 221 2 0]), (6, [PAct.reduce 221 2 0]), (8, [PAct.reduce 221 2 0]), (10, [PAct.reduce 221 2 0]), (11, [PAct.reduce 221 2 0]), (12, [PAct.reduce 221 2 0]), (13, [PAct.reduce 221 2 0]), (14, [PAct.reduce 221 2 0]), (15, [PAct.reduce 221 2 0]), (16, [PAct.reduce 221 2 0]), (17, [PAct.reduce 221 2 0]), (18, [PAct.reduce 221 2 0])], [(221, 12)]⟩
def pSt13 : PState := ⟨[(205, [PAct.shiftExtra]), (19, [PAct.shift 53]), (6, [PAct.shift 42]), (0, [PAct.reduce 214 2 1]), (3, [PAct.reduce 214 2 1]), (4, [PAct.reduce 214 2 1]), (5, [PAct.reduce 214 2 1]), (8, [PAct.reduce 214 2 1]), (10, [PAct.reduce 214 2 1]), (11, [PAct.reduce 214 2 1]), (12, [PAct.reduce 214 2 1]), (13, [PAct.reduce 214 2 1]), (14, [PAct.reduce 214 2 1]), (15, [PAct.reduce 214 2 1]), (16, [PAct.reduce 214 2 1]), (17, [PAct.reduce 214 2 1]), (18, [PAct.reduce 214 2 1])], [(217, 30)]⟩
def pSt14 : PState := ⟨[(205, [PAct.shiftExtra]), (2, [PAct.shift 3]), (6, [PAct.shift 41]), (0, [PAct.reduce 212 3 1]), (3, [PAct.reduce 212 3 1]), (4, [PAct.reduce 212 3 1]), (5, [PAct.reduce 212 3 1]), (8, [PAct.reduce 212 3 1]), (10, [PAct.reduce 212 3 1]), (11, [PAct.reduce 212 3 1]), (12, [PAct.reduce 212 3 1]), (13, [PAct.reduce 212 3 1]), (14, [PAct.reduce 212 3 1]), (15, [PAct.reduce 212 3 1]), (16, [PAct.reduce 212 3 1]), (17, [PAct.reduce 212 3 1]), (18, [PAct.reduce 212 3 1])], [(208, 34)]⟩
def pSt15 : PState := ⟨[(205, [PAct.shiftExtra]), (19, [PAct.shift 53]), (6, [PAct.shift 40]), (0, [PAct.reduce 213 3 3]), (3, [PAct.reduce 213 3 3]), (4, [PAct.reduce 213 3 3]), (5, [PAct.reduce 213 3 3]), (8, [PAct.reduce 213 3 3]), (10, [PAct.reduce 213 3 3]), (11, [PAct.reduce 213 3 3]), (12, [PAct.reduce 213 3 3]), (13, [PAct.reduce 213 3 3]), (14, [PAct.reduce 213 3 3]), (15, [PAct.reduce 213 3 3]), (16, [PAct.reduce 213 3 3]), (17, [PAct.reduce 213 3 3]), (18, [PAct.reduce 213 3 3])], [(217, 24)]⟩
def pSt16 : PState := ⟨[(205, [PAct.shiftExtra]), (2, [PAct.shift 3]), (6, [PAct.shift 47]), (0, [PAct.reduce 211 4 3]), (3, [PAct.reduce 211 4 3]), (4, [PAct.reduce 211 4 3]), (5, [PAct.reduce 211 4 3]), (8, [PAct.reduce 211 4 3]), (10, [PAct.reduce 211 4 3]), (11, [PAct.reduce 211 4 3]), (12, [PAct.reduce 211 4 3]), (13, [PAct.reduce 211 4 3]), (14, [PAct.reduce 211 4 3]), (15, [PAct.reduce 211 4 3]), (16, [PAct.reduce 211 4 3]), (17, [PAct.reduce 211 4 3]), (18, [PAct.reduce 211 4 3])], [(208, 29)]⟩
def pSt17 : PState := ⟨[(205, [PAct.shiftExtra]), (2, [PAct.shift 3]), (6, [PAct.shift 44]), (0, [PAct.reduce 216 3 1]), (3, [PAct.reduce 216 3 1]), (4, [PAct.reduce 216 3 1]), (5, [PAct.reduce 216 3 1]), (8, [PAct.reduce 216 3 1]), (10, [PAct.reduce 216 3 1]), (11, [PAct.reduce 216 3 1]), (12, [PAct.reduce 216 3 1]), (13, [PAct.reduce 216 3 1]), (14, [PAct.reduce 216 3 1]), (15, [PAct.reduce 216 3 1]), (16, [PAct.reduce 216 3 1]), (17, [PAct.reduce 216 3 1]), (18, [PAct.reduce 216 3 1])], [(208, 27)]⟩
def pSt18 : PState := ⟨[(205, [PAct.shiftExtra]), (2, [PAct.shift 3]), (6, [PAct.shift 50]), (0, [PAct.reduce 215 4 3]), (3, [PAct.reduce 215 4 3]), (4, [PAct.reduce 215 4 3]), (5, [PAct.reduce 215 4 3]), (8, [PAct.reduce 215 4 3]), (10, [PAct.reduce 215 4 3]), (11, [PAct.reduce 215 4 3]), (12, [PAct.reduce 215 4 3]), (13, [PAct.reduce 215 4 3]), (14, [PAct.reduce 215 4 3]), (15, [PAct.reduce 215 4 3]), (16, [PAct.reduce 215 4 3]), (17, [PAct.reduce 215 4 3]), (18, [PAct.reduce 215 4 3])], [(208, 31)]⟩
def pSt19 : PState := ⟨[(205, [PAct.shiftExtra]), (0, [PAct.reduce 221 2 0]), (2, [PAct.reduce 221 2 0]), (3, [PAct.reduce 221 2 0]), (4, [PAct.reduce 221 2 0]), (5, [PAct.reduce 221 2 0]), (6, [PAct.reduce 221 2 0]), (8, [PAct.reduce 221 2 0]), (10, [PAct.reduce 221 2 0]), (11, [PAct.reduce 221 2 0]), (12, [PAct.reduce 221 2 0]), (13, [PAct.reduce 221 2 0]), (14, [PAct.reduce 221 2 0]), (15, [PAct.reduce 221 2 0]), (16, [PAct.reduce 221 2 0]), (17, [PAct.reduce 221 2 0]), (18, [PAct.reduce 221 2 0]), (20, [PAct.reduce 221 2 0])], []⟩
def pSt20 : PState := ⟨[(205, [PAct.shiftExtra]), (2, [PAct.shift 3]), (0, [PAct.reduce 209 2 1]), (3, [PAct.reduce 209 2 1]), (4, [PAct.reduce 209 2 1]), (5, [PAct.reduce 209 2 1]), (8, [PAct.reduce 209 2 1]), (10, [PAct.reduce 209 2 1]), (11, [PAct.reduce 209 2 1]), (12, [PAct.reduce 209 2 1]), (13, [PAct.reduce 209 2 1]), (14, [PAct.reduce 209 2 1]), (15, [PAct.reduce 209 2 1]), (16, [PAct.reduce 209 2 1]), (17, [PAct.reduce 209 2 1]), (18, [PAct.reduce 209 2 1])], [(208, 36)]⟩
def pSt21 : PState := ⟨[(205, [PAct.shiftExtra]), (0, [PAct.reduce 218 1 0]), (2, [PAct.reduce 218 1 0]), (3, [PAct.reduce 218 1 0]), (4, [PAct.reduce 218 1 0]), (5, [PAct.reduce 218 1 0]), (6, [PAct.reduce 218 1 0]), (8, [PAct.reduce 218 1 0]), (10, [PAct.reduce 218 1 0]), (11, [PAct.reduce 218 1 0]), (12, [PAct.reduce 218 1 0]), (13, [PAct.reduce 218 1 0]), (14, [PAct.reduce 218 1 0]), (15, [PAct.reduce 218 1 0]), (16, [PAct.reduce 218 1 0]), (17, [PAct.reduce 218 1 0]), (18, [PAct.reduce 218 1 0])], []⟩
def pSt22 : PState := ⟨[(205, [PAct.shiftExtra]), (0, [PAct.reduce 217 2 4]), (2, [PAct.reduce 217 2 4]), (3, [PAct.reduce 217 2 4]), (4, [PAct.reduce 217 2 4]), (5, [PAct.reduce 217 2 4]), (6, [PAct.reduce 217 2 4]), (8, [PAct.reduce 217 2 4]), (10, [PAct.reduce 217 2 4]), (11, [PAct.reduce 217 2 4]), (12, [PAct.reduce 217 2 4]), (13, [PAct.reduce 217 2 4]), (14, [PAct.reduce 217 2 4]), (15, [PAct.reduce 217 2 4]), (16, [PAct.reduce 217 2 4]), (17, [PAct.reduce 217 2 4]), (18, [PAct.reduce 217 2 4])], []⟩
def pSt23 : PState := ⟨[(205, [PAct.shiftExtra]), (0, [PAct.reduce 208 3 0]), (3, [PAct.reduce 208 3 0]), (4, [PAct.reduce 208 3 0]), (5, [PAct.reduce 208 3 0]), (6, [PAct.reduce 208 3 0]), (8, [PAct.reduce 208 3 0]), (10, [PAct.reduce 208 3 0]), (11, [PAct.reduce 208 3 0]), (12, [PAct.reduce 208 3 0]), (13, [PAct.reduce 208 3 0]), (14, [PAct.reduce 208 3 0]), (15, [PAct.reduce 208 3 0]), (16, [PAct.reduce 208 3 0]), (17, [PAct.reduce 208 3 0]), (18, [PAct.reduce 208 3 0])], []⟩
def pSt24 : PState := ⟨[(205, [PAct.shiftExtra]), (6, [PAct.shift 49]), (0, [PAct.reduce 213 4 3]), (3, [PAct.reduce 213 4 3]), (4, [PAct.reduce 213 4 3]), (5, [PAct.reduce 213 4 3]), (8, [PAct.reduce 213 4 3]), (10, [PAct.reduce 213 4 3]), (11, [PAct.reduce 213 4 3]), (12, [PAct.reduce 213 4 3]), (13, [PAct.reduce 213 4 3]), (14, [PAct.reduce 213 4 3]), (15, [PAct.reduce 213 4 3]), (16, [PAct.reduce 213 4 3]), (17, [PAct.reduce 213 4 3]), (18, [PAct.reduce 213 4 3])], []⟩
def pSt25 : PState := ⟨[(205, [PAct.shiftExtra]), (6, [PAct.shift 50]), (0, [PAct.reduce 215 4 3]), (3, [PAct.reduce 215 4 3]), (4, [PAct.reduce 215 4 3]), (5, [PAct.reduce 215 4 3]), (8, [PAct.reduce 215 4 3]), (10, [PAct.reduce 215 4 3]), (11, [PAct.reduce 215 4 3]), (12, [PAct.reduce 215 4 3]), (13, [PAct.reduce 215 4 3]), (14, [PAct.reduce 215 4 3]), (15, [PAct.reduce 215 4 3]), (16, [PAct.reduce 215 4 3]), (17, [PAct.reduce 215 4 3]), (18, [PAct.reduce 215 4 3])], []⟩
def pSt26 : PState := ⟨[(205, [PAct.shiftExtra]), (6, [PAct.shift 47]), (0, [PAct.reduce 211 4 3]), (3, [PAct.reduce 211 4 3]), (4, [PAct.reduce 211 4 3]), (5, [PAct.reduce 211 4 3]), (8, [PAct.reduce 211 4 3]), (10, [PAct.reduce 211 4 3]), (11, [PAct.reduce 211 4 3]), (12, [PAct.reduce 211 4 3]), (13, [PAct.reduce 211 4 3]), (14, [PAct.reduce 211 4 3]), (15, [PAct.reduce 211 4 3]), (16, [PAct.reduce 211 4 3]), (17, [PAct.reduce 211 4 3]), (18, [PAct.reduce 211 4 3])], []⟩
def pSt27 : PState := ⟨[(205, [PAct.shiftExtra]), (6, [PAct.shift 35]), (0, [PAct.reduce 216 4 1]), (3, [PAct.reduce 216 4 1]), (4, [PAct.reduce 216 4 1]), (5, [PAct.reduce 216 4 1]), (8, [PAct.reduce 216 4 1]), (10, [PAct.reduce 216 4 1]), (11, [PAct.reduce 216 4 1]), (12, [PAct.reduce 216 4 1]), (13, [PAct.reduce 216 4 1]), (14, [PAct.reduce 216 4 1]), (15, [PAct.reduce 216 4 1]), (16, [PAct.reduce 216 4 1]), (17, [PAct.reduce 216 4 1]), (18, [PAct.reduce 216 4 1])], []⟩
def pSt28 : PState := ⟨[(205, [PAct.shiftExtra]), (6, [PAct.shift 44]), (0, [PAct.reduce 216 3 1]), (3, [PAct.reduce 216 3 1]), (4, [PAct.reduce 216 3 1]), (5, [PAct.reduce 216 3 1]), (8, [PAct.reduce 216 3 1]), (10, [PAct.reduce 216 3 1]), (11, [PAct.reduce 216 3 1]), (12, [PAct.reduce 216 3 1]), (13, [PAct.reduce 216 3 1]), (14, [PAct.reduce 216 3 1]), (15, [PAct.reduce 216 3 1]), (16, [PAct.reduce 216 3 1]), (17, [PAct.reduce 216 3 1]), (18, [PAct.reduce 216 3 1])], []⟩
def pSt29 : PState := ⟨[(205, [PAct.shiftExtra]), (6, [PAct.shift 45]), (0, [PAct.reduce 211 5 3]), (3, [PAct.reduce 211 5 3]), (4, [PAct.reduce 211 5 3]), (5, [PAct.reduce 211 5 3]), (8, [PAct.reduce 211 5 3]), (10, [PAct.reduce 211 5 3]), (11, [PAct.reduce 211 5 3]), (12, [PAct.reduce 211 5 3]), (13, [PAct.reduce 211 5 3]), (14, [PAct.reduce 211 5 3]), (15, [PAct.reduce 211 5 3]), (16, [PAct.reduce 211 5 3]), (17, [PAct.reduce 211 5 3]), (18, [PAct.reduce 211 5 3])], []⟩
def pSt30 : PState := ⟨[(205, [PAct.shiftExtra]), (6, [PAct.shift 38]), (0, [PAct.reduce 214 3 1]), (3, [PAct.reduce 214 3 1]), (4, [PAct.reduce 214 3 1]), (5, [PAct.reduce 214 3 1]), (8, [PAct.reduce 214 3 1]), (10, [PAct.reduce 214 3 1]), (11, [PAct.reduce 214 3 1]), (12, [PAct.reduce 214 3 1]), (13, [PAct.reduce 214 3 1]), (14, [PAct.reduce 214 3 1]), (15, [PAct.reduce 214 3 1]), (16, [PAct.reduce 214 3 1]), (17, [PAct.reduce 214 3 1]), (18, [PAct.reduce 214 3 1])], []⟩
def pSt31 : PState := ⟨[(205, [PAct.shiftExtra]), (6, [PAct.shift 52]), (0, [PAct.reduce 215 5 3]), (3, [PAct.reduce 215 5 3]), (4, [PAct.reduce 215 5 3]), (5, [PAct.reduce 215 5 3]), (8, [PAct.reduce 215 5 3]), (10, [PAct.reduce 215 5 3]), (11, [PAct.reduce 215 5 3]), (12, [PAct.reduce 215 5 3]), (13, [PAct.reduce 215 5 3]), (14, [PAct.reduce 215 5 3]), (15, [PAct.reduce 215 5 3]), (16, [PAct.reduce 215 5 3]), (17, [PAct.reduce 215 5 3]), (18, [PAct.reduce 215 5 3])], []⟩
def pSt32 : PState := ⟨[(205, [PAct.shiftExtra]), (0, [PAct.reduce 208 2 0]), (3, [PAct.reduce 208 2 0]), (4, [PAct.reduce 208 2 0]), (5, [PAct.reduce 208 2 0]), (6, [PAct.reduce 208 2 0]), (8, [PAct.reduce 208 2 0]), (10, [PAct.reduce 208 2 0]), (11, [PAct.reduce 208 2 0]), (12, [PAct.reduce 208 2 0]), (13, [PAct.reduce 208 2 0]), (14, [PAct.reduce 208 2 0]), (15, [PAct.reduce 208 2 0]), (16, [PAct.reduce 208 2 0]), (17, [PAct.reduce 208 2 0]), (18, [PAct.reduce 208 2 0])], []⟩
def pSt33 : PState := ⟨[(205, [PAct.shiftExtra]), (6, [PAct.shift 41]), (0, [PAct.reduce 212 3 1]), (3, [PAct.reduce 212 3 1]), (4, [PAct.reduce 212 3 1]), (5, [PAct.reduce 212 3 1]), (8, [PAct.reduce 212 3 1]), (10, [PAct.reduce 212 3 1]), (11, [PAct.reduce 212 3 1]), (12, [PAct.reduce 212 3 1]), (13, [PAct.reduce 212 3 1]), (14, [PAct.reduce 212 3 1]), (15, [PAct.reduce 212 3 1]), (16, [PAct.reduce 212 3 1]), (17, [PAct.reduce 212 3 1]), (18, [PAct.reduce 212 3 1])], []⟩
def pSt34 : PState := ⟨[(205, [PAct.shiftExtra]), (6, [PAct.shift 46]), (0, [PAct.reduce 212 4 1]), (3, [PAct.reduce 212 4 1]), (4, [PAct.reduce 212 4 1]), (5, [PAct.reduce 212 4 1]), (8, [PAct.reduce 212 4 1]), (10, [PAct.reduce 212 4 1]), (11, [PAct.reduce 212 4 1]), (12, [PAct.reduce 212 4 1]), (13, [PAct.reduce 212 4 1]), (14, [PAct.reduce 212 4 1]), (15, [PAct.reduce 212 4 1]), (16, [PAct.reduce 212 4 1]), (17, [PAct.reduce 212 4 1]), (18, [PAct.reduce 212 4 1])], []⟩
def pSt35 : PState := ⟨[(205, [PAct.shiftExtra]), (0, [PAct.reduce 216 5 1]), (3, [PAct.reduce 216 5 1]), (4, [PAct.reduce 216 5 1]), (5, [PAct.reduce 216 5 1]), (8, [PAct.reduce 216 5 1]), (10, [PAct.reduce 216 5 1]), (11, [PAct.reduce 216 5 1]), (12, [PAct.reduce 216 5 1]), (13, [PAct.reduce 216 5 1]), (14, [PAct.reduce 216 5 1]), (15, [PAct.reduce 216 5 1]), (16, [PAct.reduce 216 5 1]), (17, [PAct.reduce 216 5 1]), (18, [PAct.reduce 216 5 1])], []⟩
def pSt36 : PState := ⟨[(205, [PAct.shiftExtra]), (0, [PAct.reduce 209 3 1]), (3, [PAct.reduce 209 3 1]), (4, [PAct.reduce 209 3 1]), (5, [PAct.reduce 209 3 1]), (8, [PAct.reduce 209 3 1]), (10, [PAct.reduce 209 3 1]), (11, [PAct.reduce 209 3 1]), (12, [PAct.reduce 209 3 1]), (13, [PAct.reduce 209 3 1]), (14, [PAct.reduce 209 3 1]), (15, [PAct.reduce 209 3 1]), (16, [PAct.reduce 209 3 1]), (17, [PAct.reduce 209 3 1]), (18, [PAct.reduce 209 3 1])], []⟩
def pSt37 : PState := ⟨[(205, [PAct.shiftExtra]), (0, [PAct.reduce 210 3 2]), (3, [PAct.reduce 210 3 2]), (4, [PAct.reduce 210 3 2]), (5, [PAct.reduce 210 3 2]), (8, [PAct.reduce 210 3 2]), (10, [PAct.reduce 210 3 2]), (11, [PAct.reduce 210 3 2]), (12, [PAct.reduce 210 3 2]), (13, [PAct.reduce 210 3 2]), (14, [PAct.reduce 210 3 2]), (15, [PAct.reduce 210 3 2]), (16, [PAct.reduce 210 3 2]), (17, [PAct.reduce 210 3 2]), (18, [PAct.reduce 210 3 2])], []⟩
def pSt38 : PState := ⟨[(205, [PAct.shiftExtra]), (0, [PAct.reduce 214 4 1]), (3, [PAct.reduce 214 4 1]), (4, [PAct.reduce 214 4 1]), (5, [PAct.reduce 214 4 1]), (8, [PAct.reduce 214 4 1]), (10, [PAct.reduce 214 4 1]), (11, [PAct.reduce 214 4 1]), (12, [PAct.reduce 214 4 1]), (13, [PAct.reduce 214 4 1]), (14, [PAct.reduce 214 4 1]), (15, [PAct.reduce 214 4 1]), (16, [PAct.reduce 214 4 1]), (17, [PAct.reduce 214 4 1]), (18, [PAct.reduce 214 4 1])], []⟩
def pSt39 : PState := ⟨[(205, [PAct.shiftExtra]), (0, [PAct.reduce 212 3 1]), (3, [PAct.reduce 212 3 1]), (4, [PAct.reduce 212 3 1]), (5, [PAct.reduce 212 3 1]), (8, [PAct.reduce 212 3 1]), (10, [PAct.reduce 212 3 1]), (11, [PAct.reduce 212 3 1]), (12, [PAct.reduce 212 3 1]), (13, [PAct.reduce 212 3 1]), (14, [PAct.reduce 212 3 1]), (15, [PAct.reduce 212 3 1]), (16, [PAct.reduce 212 3 1]), (17, [PAct.reduce 212 3 1]), (18, [PAct.reduce 212 3 1])], []⟩
def pSt40 : PState := ⟨[(205, [PAct.shiftExtra]), (0, [PAct.reduce 213 4 3]), (3, [PAct.reduce 213 4 3]), (4, [PAct.reduce 213 4 3]), (5, [PAct.reduce 213 4 3]), (8, [PAct.reduce 213 4 3]), (10, [PAct.reduce 213 4 3]), (11, [PAct.reduce 213 4 3]), (12, [PAct.reduce 213 4 3]), (13, [PAct.reduce 213 4 3]), (14, [PAct.reduce 213 4 3]), (15, [PAct.reduce 213 4 3]), (16, [PAct.reduce 213 4 3]), (17, [PAct.reduce 213 4 3]), (18, [PAct.reduce 213 4 3])], []⟩
def pSt41 : PState := ⟨[(205, [PAct.shiftExtra]), (0, [PAct.reduce 212 4 1]), (3, [PAct.reduce 212 4 1]), (4, [PAct.reduce 212 4 1]), (5, [PAct.reduce 212 4 1]), (8, [PAct.reduce 212 4 1]), (10, [PAct.reduce 212 4 1]), (11, [PAct.reduce 212 4 1]), (12, [PAct.reduce 212 4 1]), (13, [PAct.reduce 212 4 1]), (14, [PAct.reduce 212 4 1]), (15, [PAct.reduce 212 4 1]), (16, [PAct.reduce 212 4 1]), (17, [PAct.reduce 212 4 1]), (18, [PAct.reduce 212 4 1])], []⟩
def pSt42 : PState := ⟨[(205, [PAct.shiftExtra]), (0, [PAct.reduce 214 3 1]), (3, [PAct.reduce 214 3 1]), (4, [PAct.reduce 214 3 1]), (5, [PAct.reduce 214 3 1]), (8, [PAct.reduce 214 3 1]), (10, [PAct.reduce 214 3 1]), (11, [PAct.reduce 214 3 1]), (12, [PAct.reduce 214 3 1]), (13, [PAct.reduce 214 3 1]), (14, [PAct.reduce 214 3 1]), (15, [PAct.reduce 214 3 1]), (16, [PAct.reduce 214 3 1]), (17, [PAct.reduce 214 3 1]), (18, [PAct.reduce 214 3 1])], []⟩
def pSt43 : PState := ⟨[(205, [PAct.shiftExtra]), (0, [PAct.reduce 215 4 3]), (3, [PAct.reduce 215 4 3]), (4, [PAct.reduce 215 4 3]), (5, [PAct.reduce 215 4 3]), (8, [PAct.reduce 215 4 3]), (10, [PAct.reduce 215 4 3]), (11, [PAct.reduce 215 4 3]), (12, [PAct.reduce 215 4 3]), (13, [PAct.reduce 215 4 3]), (14, [PAct.reduce 215 4 3]), (15, [PAct.reduce 215 4 3]), (16, [PAct.reduce 215 4 3]), (17, [PAct.reduce 215 4 3]), (18, [PAct.reduce 215 4 3])], []⟩
def pSt44 : PState := ⟨[(205, [PAct.shiftExtra]), (0, [PAct.reduce 216 4 1]), (3, [PAct.reduce 216 4 1]), (4, [PAct.reduce 216 4 1]), (5, [PAct.reduce 216 4 1]), (8, [PAct.reduce 216 4 1]), (10, [PAct.reduce 216 4 1]), (11, [PAct.reduce 216 4 1]), (12, [PAct.reduce 216 4 1]), (13, [PAct.reduce 216 4 1]), (14, [PAct.reduce 216 4 1]), (15, [PAct.reduce 216 4 1]), (16, [PAct.reduce 216 4 1]), (17, [PAct.reduce 216 4 1]), (18, [PAct.reduce 216 4 1])], []⟩
def pSt45 : PState := ⟨[(205, [PAct.shiftExtra]), (0, [PAct.reduce 211 6 3]), (3, [PAct.reduce 211 6 3]), (4, [PAct.reduce 211 6 3]), (5, [PAct.reduce 211 6 3]), (8, [PAct.reduce 211 6 3]), (10, [PAct.reduce 211 6 3]), (11, [PAct.reduce 211 6 3]), (12, [PAct.reduce 211 6 3]), (13, [PAct.reduce 211 6 3]), (14, [PAct.reduce 211 6 3]), (15, [PAct.reduce 211 6 3]), (16, [PAct.reduce 211 6 3]), (17, [PAct.reduce 211 6 3]), (18, [PAct.reduce 211 6 3])], []⟩
def pSt46 : PState := ⟨[(205, [PAct.shiftExtra]), (0, [PAct.reduce 212 5 1]), (3, [PAct.reduce 212 5 1]), (4, [PAct.reduce 212 5 1]), (5, [PAct.reduce 212 5 1]), (8, [PAct.reduce 212 5 1]), (10, [PAct.reduce 212 5 1]), (11, [PAct.reduce 212 5 1]), (12, [PAct.reduce 212 5 1]), (13, [PAct.reduce 212 5 1]), (14, [PAct.reduce 212 5 1]), (15, [PAct.reduce 212 5 1]), (16, [PAct.reduce 212 5 1]), (17, [PAct.reduce 212 5 1]), (18, [PAct.reduce 212 5 1])], []⟩
def pSt47 : PState := ⟨[(205, [PAct.shiftExtra]), (0, [PAct.reduce 211 5 3]), (3, [PAct.reduce 211 5 3]), (4, [PAct.reduce 211 5 3]), (5, [PAct.reduce 211 5 3]), (8, [PAct.reduce 211 5 3]), (10, [PAct.reduce 211 5 3]), (11, [PAct.reduce 211 5 3]), (12, [PAct.reduce 211 5 3]), (13, [PAct.reduce 211 5 3]), (14, [PAct.reduce 211 5 3]), (15, [PAct.reduce 211 5 3]), (16, [PAct.reduce 211 5 3]), (17, [PAct.reduce 211 5 3]), (18, [PAct.reduce 211 5 3])], []⟩
def pSt48 : PState := ⟨[(205, [PAct.shiftExtra]), (0, [PAct.reduce 216 3 1]), (3, [PAct.reduce 216 3 1]), (4, [PAct.reduce 216 3 1]), (5, [PAct.reduce 216 3 1]), (8, [PAct.reduce 216 3 1]), (10, [PAct.reduce 216 3 1]), (11, [PAct.reduce 216 3 1]), (12, [PAct.reduce 216 3 1]), (13, [PAct.reduce 216 3 1]), (14, [PAct.reduce 216 3 1]), (15, [PAct.reduce 216 3 1]), (16, [PAct.reduce 216 3 1]), (17, [PAct.reduce 216 3 1]), (18, [PAct.reduce 216 3 1])], []⟩
def pSt49 : PState := ⟨[(205, [PAct.shiftExtra]), (0, [PAct.reduce 213 5 3]), (3, [PAct.reduce 213 5 3]), (4, [PAct.reduce 213 5 3]), (5, [PAct.reduce 213 5 3]), (8, [PAct.reduce 213 5 3]), (10, [PAct.reduce 213 5 3]), (11, [PAct.reduce 213 5 3]), (12, [PAct.reduce 213 5 3]), (13, [PAct.reduce 213 5 3]), (14, [PAct.reduce 213 5 3]), (15, [PAct.reduce 213 5 3]), (16, [PAct.reduce 213 5 3]), (17, [PAct.reduce 213 5 3]), (18, [PAct.reduce 213 5 3])], []⟩
def pSt50 : PState := ⟨[(205, [PAct.shiftExtra]), (0, [PAct.reduce 215 5 3]), (3, [PAct.reduce 215 5 3]), (4, [PAct.reduce 215 5 3]), (5, [PAct.reduce 215 5 3]), (8, [PAct.reduce 215 5 3]), (10, [PAct.reduce 215 5 3]), (11, [PAct.reduce 215 5 3]), (12, [PAct.reduce 215 5 3]), (13, [PAct.reduce 215 5 3]), (14, [PAct.reduce 215 5 3]), (15, [PAct.reduce 215 5 3]), (16, [PAct.reduce 215 5 3]), (17, [PAct.reduce 215 5 3]), (18, [PAct.reduce 215 5 3])], []⟩
def pSt51 : PState := ⟨[(205, [PAct.shiftExtra]), (0, [PAct.reduce 211 4 3]), (3, [PAct.reduce 211 4 3]), (4, [PAct.reduce 211 4 3]), (5, [PAct.reduce 211 4 3]), (8, [PAct.reduce 211 4 3]), (10, [PAct.reduce 211 4 3]), (11, [PAct.reduce 211 4 3]), (12, [PAct.reduce 211 4 3]), (13, [PAct.reduce 211 4 3]), (14, [PAct.reduce 211 4 3]), (15, [PAct.reduce 211 4 3]), (16, [PAct.reduce 211 4 3]), (17, [PAct.reduce 211 4 3]), (18, [PAct.reduce 211 4 3])], []⟩
def pSt52 : PState := ⟨[(205, [PAct.shiftExtra]), (0, [PAct.reduce 215 6 3]), (3, [PAct.reduce 215 6 3]), (4, [PAct.reduce 215 6 3]), (5, [PAct.reduce 215 6 3]), (8, [PAct.reduce 215 6 3]), (10, [PAct.reduce 215 6 3]), (11, [PAct.reduce 215 6 3]), (12, [PAct.reduce 215 6 3]), (13, [PAct.reduce 215 6 3]), (14, [PAct.reduce 215 6 3]), (15, [PAct.reduce 215 6 3]), (16, [PAct.reduce 215 6 3]), (17, [PAct.reduce 215 6 3]), (18, [PAct.reduce 215 6 3])], []⟩
def pSt53 : PState := ⟨[(205, [PAct.shiftExtra]), (1, [PAct.shift 11])], [(219, 21), (218, 22)]⟩
def pSt54 : PState := ⟨[(205, [PAct.shiftExtra]), (1, [PAct.shift 6]), (9, [PAct.shift 59])], []⟩
def pSt55 : PState := ⟨[(205, [PAct.shiftExtra]), (1, [PAct.shift 13]), (9, [PAct.shift 60])], []⟩
def pSt56 : PState := ⟨[(205, [PAct.shiftExtra]), (1, [PAct.shift 8]), (9, [PAct.shift 63])], []⟩
def pSt57 : PState := ⟨[(7, [PAct.shift 58]), (205, [PAct.shiftExtra])], []⟩
def pSt58 : PState := ⟨[(205, [PAct.shiftExtra]), (6, [PAct.shift 37])], []⟩
def pSt59 : PState := ⟨[(205, [PAct.shiftExtra]), (1, [PAct.shift 7])], []⟩
def pSt60 : PState := ⟨[(205, [PAct.shiftExtra]), (1, [PAct.shift 15])], []⟩
def pSt61 : PState := ⟨[(205, [PAct.shiftExtra]), (1, [PAct.shift 19])], []⟩
def pSt62 : PState := ⟨[(205, [PAct.shiftExtra]), (0, [PAct.accept])], []⟩
def pSt63 : PState := ⟨[(205, [PAct.shiftExtra]), (1, [PAct.shift 9])], []⟩
def pSt64 : PState := ⟨[(205, [PAct.shiftExtra]), (1, [PAct.shift 20])], []⟩

def pstates : List PState := [pSt0, pSt1, pSt2, pSt3, pSt4, pSt5, pSt6, pSt7, pSt8, pSt9, pSt10, pSt11, pSt12, pSt13, pSt14, pSt15, pSt16, pSt17, pSt18, pSt19, pSt20, pSt21, pSt22, pSt23, pSt24, pSt25, pSt26, pSt27, pSt28, pSt29, pSt30, pSt31, pSt32, pSt33, pSt34, pSt35, pSt36, pSt37, pSt38, pSt39, pSt40, pSt41, pSt42, pSt43, pSt44, pSt45, pSt46, pSt47, pSt48, pSt49, pSt50, pSt51, pSt52, pSt53, pSt54, pSt55, pSt56, pSt57, pSt58, pSt59, pSt60, pSt61, pSt62, pSt63, pSt64]

/-- ts_lex_modes: lex start state per parser state. -/
def lexModes : List Nat := [0, 12, 12, 12, 12, 12, 12, 12, 12, 12, 13, 13, 13, 12, 12, 12, 12, 12, 12, 13, 12, 12, 12, 12, 12, 12, 12, 12, 12, 12, 12, 12, 12, 12, 12, 12, 12, 12, 12, 12, 12, 12, 12, 12, 12, 12, 12, 12, 12, 12, 12, 12, 12, 12, 12, 12, 12, 5, 12, 12, 12, 12, 12, 12, 12]

/-- ts_symbol_metadata .visible flags, indexed by symbol id. -/
def visibleTbl : List Bool := [false, true, true, true, true, true, true, true, true, true, true, true, true, true, true, true, true, true, true, true, true, true, true, true, true, true, true, true, true, true, true, true, true, true, true, true, true, true, true, true, true, true, true, true, true, true, true, true, true, true, true, true, true, true, true, true, true, true, true, true, true, true, true, true, true, true, true, true, true, true, true, true, true, true, true, true, true, true, true, true, true, true, true, true, true, true, true, true, true, true, true, true, true, true, true, true, true, true, true, true, true, true, true, true, true, true, true, true, true, true, true, true, true, true, true, true, true, true, true, true, true, true, true, true, true, true, true, true, true, true, true, true, true, true, true, true, true, true, true, true, true, true, true, true, true, true, true, true, true, true, true, true, true, true, true, true, true, true, true, true, true, true, true, true, true, true, true, true, true, true, true, true, true, true, true, true, true, true, true, true, true, true, true, true, true, true, true, true, true, true, true, true, true, true, true, true, true, true, true, true, true, true, true, true, true, true, true, false, true, true, true, true, true, true, true, true, true, true, true, true, false, false]

/-- ts_symbol_metadata .named flags, indexed by symbol id. -/
def namedTbl : List Bool := [true, true, false, false, false, false, false, true, false, false, false, false, false, false, false, false, false, false, false, false, false, true, true, false, false, false, false, false, false, false, false, false, false, false, false, false, false, false, false, false, false, false, false, false, false, false, false, false, false, false, false, false, false, false, false, false, false, false, false, false, false, false, false, false, false, false, false, false, false, false, false, false, false, false, false, false, false, false, false, false, false, false, false, false, false, false, false, false, false, false, false, false, false, false, false, false, false, false, false, false, false, false, false, false, false, false, false, false, false, false, false, false, false, false, false, false, false, false, false, false, false, false, false, false, false, false, false, false, false, false, false, false, false, false, false, false, false, false, false, false, false, false, false, false, false, false, false, false, false, false, false, false, false, false, false, false, false, false, false, false, false, false, false, false, false, false, false, false, false, false, false, false, false, false, false, false, false, false, false, false, false, false, false, false, false, false, false, false, false, false, false, false, false, false, false, false, false, false, false, false, false, false, false, false, false, true, true, true, true, true, true, true, true, true, true, true, true, true, true, true, false, false]

/-- ts_field_map_slices and ts_field_map_entries: production id to (field id, child index) pairs. -/
def fieldTbl : List (Nat × List (Nat × Nat)) := [(1, [(1, 1)]), (2, [(2, 1)]), (3, [(1, 2)]), (4, [(3, 1)])]

end Ts

/-- The error symbol (`ts_builtin_sym_error`): error leaves and error-marked
internal nodes carry this id. -/
def errorSym : Nat := 65535

/-- A concrete syntax tree node.  A leaf records the symbol of one token with
its padding start (where its scan began, i.e. the end of the preceding token,
so the padding `[padStart, tokStart)` holds the whitespace skipped before the
token), the token start and the token end.  An internal node records its
symbol, the production id of the reduction that built it, its extent and its
physical children. -/
inductive Node where
  | leaf (sym : Nat) (padStart tokStart tokEnd : Nat)
  | internal (sym : Nat) (prodId : Nat) (startPos endPos : Nat) (children : List Node)

def nodeSym : Node → Nat
  | .leaf s _ _ _ => s
  | .internal s _ _ _ _ => s

def nodeLo : Node → Nat
  | .leaf _ p _ _ => p
  | .internal _ _ a _ _ => a

def nodeHi : Node → Nat
  | .leaf _ _ _ e => e
  | .internal _ _ _ b _ => b

/-- The root's source span. -/
def rootSpan : Node → Nat × Nat
  | .leaf _ p _ e => (p, e)
  | .internal _ _ a b _ => (a, b)

/-- Build an internal node; its extent runs from the first child's start to
the last child's end (a childless node sits at the current position). -/
def mkInternal (sym prodId pos : Nat) (kids : List Node) : Node :=
  let a := match kids.head? with
    | some k => nodeLo k
    | none => pos
  let b := match kids.getLast? with
    | some k => nodeHi k
    | none => pos
  Node.internal sym prodId a b kids

mutual

/-- The padded extents of the leaves of a tree, in tree order: each leaf
contributes `[padStart, tokEnd)`. -/
def leafExts : Node → List (Nat × Nat)
  | .leaf _ p _ e => [(p, e)]
  | .internal _ _ _ _ kids => leafExtsL kids

def leafExtsL : List Node → List (Nat × Nat)
  | [] => []
  | k :: ks => leafExts k ++ leafExtsL ks

end

mutual

/-- Whether a tree contains an error marker (a node or leaf of `errorSym`). -/
def hasError : Node → Bool
  | .leaf s _ _ _ => s == errorSym
  | .internal s _ _ _ kids => s == errorSym || hasErrorL kids

def hasErrorL : List Node → Bool
  | [] => false
  | k :: ks => hasError k || hasErrorL ks

end

mutual

/-- Modelled from the spec: the visible-child view of the tree builder (§4.4).
A child whose symbol is visible (error markers included) is exposed as is; an
invisible internal node — in particular an auxiliary repeat wrapper or a
hidden rule — is flattened, its own visible children spliced in its place;
invisible leaves are suppressed. -/
def visOne (vis : Nat → Bool) : Node → List Node
  | .leaf s p a e => if vis s || s == errorSym then [.leaf s p a e] else []
  | .internal s pr a b kids =>
      if vis s || s == errorSym then [.internal s pr a b kids] else visFlat vis kids

def visFlat (vis : Nat → Bool) : List Node → List Node
  | [] => []
  | k :: ks => visOne vis k ++ visFlat vis ks

end

/-- The visible children of a node, per `visOne`. -/
def visKids (vis : Nat → Bool) : Node → List Node
  | .leaf _ _ _ _ => []
  | .internal _ _ _ _ kids => visFlat vis kids

/-- Modelled from the spec: field lookup (§4.4, §3).  The field map of the
production that built the node assigns field ids to child indices; indices
count the non-extra children (extras — comments and error leaves — are
skipped, as in the runtime's field resolution). -/
def fieldChild (fields : List (Nat × List (Nat × Nat))) (extraSyms : List Nat)
    (t : Node) (fid : Nat) : Option Node :=
  match t with
  | .leaf _ _ _ _ => none
  | .internal _ prodId _ _ kids =>
    let ks := kids.filter (fun k => !(extraSyms.contains (nodeSym k)))
    match ((fields.lookup prodId).getD []).lookup fid with
    | some idx => ks.get? idx
    | none => none

/-- A grammar-table bundle: the two lexer automata, the identifier symbol
captured for keyword disambiguation (`keyword_capture_token`), the lex mode of
each parser state, and the parse-table rows. -/
structure Lang where
  lexSts : List LexState
  kwSts : List LexState
  identSym : Nat
  lexModes : List Nat
  pstates : List PState

def actOf (L : Lang) (st sym : Nat) : Option (List PAct) :=
  ((L.pstates.getD st ⟨[], []⟩).acts).lookup sym

def gotoOf (L : Lang) (st sym : Nat) : Option Nat :=
  ((L.pstates.getD st ⟨[], []⟩).gotos).lookup sym

/-- Modelled from the spec: the keyword disambiguator wrapper (§4.2) of the
runtime lexer, which is not part of the generated sources.  When
disambiguation is active, the identifier-shaped span is re-scanned by the
reserved-word automaton; the reserved-word symbol replaces the generic
identifier only on an exact match of the full span (no trailing characters);
otherwise, and when disambiguation is inactive, the generic identifier
stands. -/
def keywordClassify (kwSts : List LexState) (identSym : Nat) (active : Bool)
    (span : List Char) : Nat :=
  if active then
    let r := lexFrom kwSts 0 span
    match r.sym with
    | some k => if r.endPos = span.length then k else identSym
    | none => identSym
  else identSym

/-- Modelled from the spec: in the engine, keyword disambiguation for a token
is active exactly when the current parser state has an action for the
candidate reserved-word symbol (§4.2: the context dictates whether a reserved
word may stand; §9: a data property of the state table). -/
def resolveSym (L : Lang) (st : Nat) (span : List Char) (sym : Nat) : Nat :=
  if sym = L.identSym then
    let k := keywordClassify L.kwSts L.identSym true span
    if k ≠ L.identSym ∧ (actOf L st k).isSome = true then k else sym
  else sym

def topState (stack : List (Nat × List Node)) : Nat :=
  match stack with
  | [] => 1
  | (s, _) :: _ => s

/-- The nodes held by the stack, bottom to top (the stack list keeps its top
at the head). -/
def stackNodes (stack : List (Nat × List Node)) : List Node :=
  ((stack.reverse).map Prod.snd).flatten

/-- Modelled from the spec: a reduction (§4.3) pops as many frames as the
production has children, builds the parent from their nodes in source order,
and pushes it onto the goto state of the uncovered state; a missing goto is a
table-contract violation and stops the parse. -/
def doReduce (L : Lang) (stack : List (Nat × List Node)) (pos sym cnt prodId : Nat) :
    Option (List (Nat × List Node)) :=
  let popped := stack.take cnt
  let rest := stack.drop cnt
  let kids := ((popped.reverse).map Prod.snd).flatten
  let node := mkInternal sym prodId pos kids
  match gotoOf L (topState rest) sym with
  | some st2 => some ((st2, [node]) :: rest)
  | none => none

def attachTop (stack : List (Nat × List Node)) (nd : Node) : List (Nat × List Node) :=
  match stack with
  | [] => [(1, [nd])]
  | (s, ns) :: rest => (s, ns ++ [nd]) :: rest

/-- The index of the topmost stack frame whose state has an action for the
symbol. -/
def findResync (L : Lang) : List (Nat × List Node) → Nat → Option Nat
  | [], _ => none
  | (s, _) :: rest, sym =>
    if (actOf L s sym).isSome then some 0
    else match findResync L rest sym with
      | some k => some (k + 1)
      | none => none

/-- Result of applying one action entry. -/
inductive StepRes where
  | cont (stack : List (Nat × List Node)) (pos : Nat) (extras : List Node)
  | finished (root : Node)
  | failed
  | recov

/-- The root returned on accept: the spec (§4.3) hands back the start
symbol's node; trailing extras and the end-of-input leaf (which carries the
trailing whitespace as padding) are appended to its children so that the tree
covers the whole input.  Any other stack shape is wrapped in an error-marked
root. -/
def finishRoot (n : Nat) (kids : List Node) : Node :=
  match kids with
  | [Node.internal s p _ _ ks, lf] => Node.internal s p 0 n (ks ++ [lf])
  | ks => Node.internal errorSym 0 0 n ks

/-- The root returned when the parse cannot proceed (lexer dead end at end of
input, a table-contract violation, or fuel exhaustion): everything gathered so
far under an error-marked root covering the whole input. -/
def finishStuck (n : Nat) (stack : List (Nat × List Node)) (pos : Nat)
    (extras errAcc : List Node) : Node :=
  Node.internal errorSym 0 0 n
    (stackNodes stack ++ extras ++ errAcc ++ [Node.leaf errorSym pos n n])

/-- Modelled from the spec: application of one `ts_parse_actions` entry
(§4.3).  A shift pushes a frame holding the pending extras and the token
leaf and consumes the token; a shift-extra appends the token to the pending
extras; a reduce rebuilds the stack and the remaining actions of the entry
run on it (a `REDUCE`/`SHIFT_REPEAT` pair reduces and then shifts the same
token); accept returns the finished root. -/
def applyActs (n : Nat) (L : Lang) (tokLeaf : Node) (tokEnd : Nat) :
    List PAct → List (Nat × List Node) → Nat → List Node → StepRes
  | [], stack, pos, extras => .cont stack pos extras
  | a :: rest, stack, pos, extras =>
    match a with
    | .shift s => .cont ((s, extras ++ [tokLeaf]) :: stack) tokEnd []
    | .shiftExtra => .cont stack tokEnd (extras ++ [tokLeaf])
    | .reduce sym cnt prodId =>
      match doReduce L stack pos sym cnt prodId with
      | some stack2 => applyActs n L tokLeaf tokEnd rest stack2 pos extras
      | none => .failed
    | .accept => .finished (finishRoot n (stackNodes stack ++ extras ++ [Node.leaf 0 pos n n]))
    | .recover => .recov

/-- A configuration of the parse loop: the stack, the cursor, the pending
extras, the error accumulator of the current recovery run, and the recovery
flag. -/
structure Cfg where
  stack : List (Nat × List Node)
  pos : Nat
  extras : List Node
  errAcc : List Node
  rc : Bool

/-- Modelled from the spec: one iteration of the parse loop (§4.3, §7).  The
iteration lexes one token in the lex mode of the current state, applies
keyword disambiguation, and dispatches on the action table.  A lexical dead
end before end of input becomes a one-character error leaf and the cursor
moves past it (§7a).  A missing action consumes the offending token as an
error leaf and enters recovery (§4.3): tokens are then discarded
(accumulating as error leaves) until one is found for which some state on the
stack has an action; the frames above that state, the pending extras and the
discarded tokens are bundled into an error node attached to the resumed
frame.  The result is either the next configuration or a finished tree. -/
def stepOnce (L : Lang) (cs : List Char) : Cfg → Sum Cfg Node
  | ⟨stack, pos, extras, errAcc, recovering⟩ =>
    let n := cs.length
    let st := topState stack
    let r := lexFrom L.lexSts (L.lexModes.getD st 0) (cs.drop pos)
    match r.sym with
    | none =>
      if pos < n then
        let e := Node.leaf errorSym pos pos (pos + 1)
        if recovering then .inl ⟨stack, pos + 1, extras, errAcc ++ [e], true⟩
        else .inl ⟨stack, pos + 1, extras ++ [e], [], false⟩
      else .inr (finishStuck n stack pos extras errAcc)
    | some sym0 =>
      let span := ((cs.drop pos).drop r.tokStart).take (r.endPos - r.tokStart)
      let sym := resolveSym L st span sym0
      let tokEnd := pos + r.endPos
      let tokLeaf := Node.leaf sym pos (pos + r.tokStart) tokEnd
      if recovering then
        match findResync L stack sym with
        | some k =>
          let popped := stack.take k
          let rest := stack.drop k
          let errKids := ((popped.reverse).map Prod.snd).flatten ++ extras ++ errAcc
          let enode := mkInternal errorSym 0 pos errKids
          .inl ⟨attachTop rest enode, pos, [], [], false⟩
        | none =>
          if sym0 = 0 then .inr (finishStuck n stack pos extras errAcc)
          else .inl ⟨stack, tokEnd, extras, errAcc ++ [tokLeaf], true⟩
      else
        match actOf L st sym with
        | some acts =>
          match applyActs n L tokLeaf tokEnd acts stack pos extras with
          | .cont stack2 pos2 extras2 => .inl ⟨stack2, pos2, extras2, [], false⟩
          | .finished root => .inr root
          | .failed => .inr (finishStuck n stack pos extras [])
          | .recov => .inl ⟨stack, tokEnd, extras,
              [Node.leaf errorSym pos (pos + r.tokStart) tokEnd], true⟩
        | none => .inl ⟨stack, tokEnd, extras,
            [Node.leaf errorSym pos (pos + r.tokStart) tokEnd], true⟩

/-- Modelled from the spec: the parse loop (§4.3, §7) iterates `stepOnce`.
The loop is fuel-bounded so the engine is total; every exit path returns a
tree covering the whole input. -/
def runP (L : Lang) (cs : List Char) :
    Nat → List (Nat × List Node) → Nat → List Node → List Node → Bool → Node
  | 0, stack, pos, extras, errAcc, _ => finishStuck cs.length stack pos extras errAcc
  | fuel + 1, stack, pos, extras, errAcc, recovering =>
    match stepOnce L cs ⟨stack, pos, extras, errAcc, recovering⟩ with
    | .inl ⟨stack2, pos2, extras2, errAcc2, rc2⟩ => runP L cs fuel stack2 pos2 extras2 errAcc2 rc2
    | .inr t => t

/-- Modelled from the spec: a parse call (§6): run the engine from the start
state on the whole buffer.  The fuel is generous for the inputs considered;
fuel exhaustion still returns an error-marked tree covering the input. -/
def parseWith (L : Lang) (cs : List Char) : Node :=
  runP L cs (8 * cs.length + 64) [(1, [])] 0 [] [] false

/-- The grammar bundle of `src/sysml-lsp-zed-extension/grammars/tree-sitter-sysml/src/parser.c`
(`keyword_capture_token = sym_identifier = 1`). -/
def zedLang : Lang := ⟨Zed.lexStates, Zed.kwStates, 1, Zed.lexModes, Zed.pstates⟩

/-- The grammar bundle of `src/sysml-ts/tree-sitter/src/parser.c`
(`keyword_capture_token = sym_identifier = 1`). -/
def tsLang : Lang := ⟨Ts.lexStates, Ts.kwStates, 1, Ts.lexModes, Ts.pstates⟩

/-- A scan of the sysml-ts main lexer `ts_lex` from start state `s`. -/
def tsLex (s : Nat) (cs : List Char) : LexOut := lexFrom Ts.lexStates s cs

/-- A scan of the zed-extension main lexer `ts_lex` from start state `s`. -/
def zedLex (s : Nat) (cs : List Char) : LexOut := lexFrom Zed.lexStates s cs

def zedParse (cs : List Char) : Node := parseWith zedLang cs

def tsParse (cs : List Char) : Node := parseWith tsLang cs

/-- Visibility for the zed grammar: `ts_symbol_metadata.visible`. -/
def zedVis (s : Nat) : Bool := Zed.visibleTbl.getD s false

/-- Visibility for the sysml-ts grammar: `ts_symbol_metadata.visible`. -/
def tsVis (s : Nat) : Bool := Ts.visibleTbl.getD s false

/-! ### Generic facts about the lexer interpreter -/

theorem runLex_cons (sts : List LexState) (c : Char) (rest : List Char) (s pos tokStart : Nat)
    (res : Option Nat) (resEnd : Nat) :
    runLex sts (c :: rest) s pos tokStart res resEnd =
      (match lexStep sts s c with
       | some (t, sk) =>
         runLex sts rest t (pos + 1) (if sk then pos + 1 else tokStart)
           (accSym sts s res) (accEnd sts s pos resEnd)
       | none => ⟨accSym sts s res, accEnd sts s pos resEnd, tokStart⟩) := rfl

theorem runLex_nil (sts : List LexState) (s pos tokStart : Nat)
    (res : Option Nat) (resEnd : Nat) :
    runLex sts [] s pos tokStart res resEnd =
      (match (sts.getD s noLexState).eofTo with
       | some t =>
         match (sts.getD t noLexState).accept with
         | some sym => ⟨some sym, pos, tokStart⟩
         | none => ⟨accSym sts s res, accEnd sts s pos resEnd, tokStart⟩
       | none => ⟨accSym sts s res, accEnd sts s pos resEnd, tokStart⟩) := rfl

theorem condHolds_anyOf_iff (c : Char) (rs : List (Char × Char)) :
    condHolds c (Cond.anyOf rs) = true ↔ ∃ r ∈ rs, r.1 ≤ c ∧ c ≤ r.2 := by
  simp [condHolds, List.any_eq_true]

theorem condHolds_single_iff (c d : Char) :
    condHolds c (Cond.anyOf [(d, d)]) = true ↔ c = d := by
  rw [condHolds_anyOf_iff]
  constructor
  · rintro ⟨r, hr, h1, h2⟩
    rw [List.mem_singleton] at hr
    subst hr
    exact le_antisymm h2 h1
  · rintro rfl
    exact ⟨(c, c), List.mem_singleton.mpr rfl, le_refl c, le_refl c⟩

theorem condHolds_noneOf_iff (c : Char) (l : List Char) :
    condHolds c (Cond.noneOf l) = true ↔ ∀ x ∈ l, c ≠ x := by
  simp [condHolds, List.all_eq_true]

/-- Case analysis on one lexer step: either no transition matches, or the
matched transition is one of the entries of the state's list and its
condition holds for `c`. -/
theorem lexStep_cases (sts : List LexState) (s : Nat) (c : Char) :
    lexStep sts s c = none ∨
      ∃ e ∈ (sts.getD s noLexState).trans,
        lexStep sts s c = some (e.2.1, e.2.2) ∧ condHolds c e.1 = true := by
  unfold lexStep
  cases hf : (sts.getD s noLexState).trans.find? (fun t => condHolds c t.1) with
  | none => exact Or.inl rfl
  | some e =>
    have hm := List.mem_of_find?_eq_some hf
    have hp := List.find?_some hf
    exact Or.inr ⟨e, hm, rfl, hp⟩

/-! ### C3: maximal munch for multi-character operators (ts_lex) -/

theorem lexStep_eqEq_ne {c : Char} (h : c ≠ '=') : lexStep Ts.lexStates 34 c = none := by
  rcases lexStep_cases Ts.lexStates 34 c with hn | ⟨e, he, hs, hc⟩
  · exact hn
  · exfalso
    rw [show (Ts.lexStates.getD 34 noLexState).trans = [(Cond.anyOf [('=', '=')], 31, false)] from rfl,
      List.mem_singleton] at he
    subst he
    exact h ((condHolds_single_iff c '=').mp hc)

theorem lexStep_bangEq_ne {c : Char} (h : c ≠ '=') : lexStep Ts.lexStates 35 c = none := by
  rcases lexStep_cases Ts.lexStates 35 c with hn | ⟨e, he, hs, hc⟩
  · exact hn
  · exfalso
    rw [show (Ts.lexStates.getD 35 noLexState).trans = [(Cond.anyOf [('=', '=')], 32, false)] from rfl,
      List.mem_singleton] at he
    subst he
    exact h ((condHolds_single_iff c '=').mp hc)

/-- C3.  Maximal munch in the main `ts_lex` automaton of sysml-ts: on input
`>=` (and on every input continuing it) the lexer returns the single
two-character operator token `>=` (`anon_sym_GT_EQ` = 191) spanning both
characters — never two one-character tokens — and likewise for the other
multi-character operators: `<=` (190), the three-character `===` (184) and
`!==` (185) preferred over their two-character prefixes, `**` (192),
`@@` (189) and `::` (20, also from lex state 13 and in the zed grammar's
lexer); a two-character operator whose continuation does not extend to a
valid longer operator is kept as lexed (`==` = 187, `!=` = 188). -/
theorem ts_lex_maximal_munch :
    (∀ rest, tsLex 0 ('>' :: '=' :: rest) = ⟨some 191, 2, 0⟩) ∧
    (∀ rest, tsLex 0 ('<' :: '=' :: rest) = ⟨some 190, 2, 0⟩) ∧
    (∀ rest, tsLex 0 ('=' :: '=' :: '=' :: rest) = ⟨some 184, 3, 0⟩) ∧
    (∀ rest, tsLex 0 ('!' :: '=' :: '=' :: rest) = ⟨some 185, 3, 0⟩) ∧
    (∀ rest, tsLex 0 ('*' :: '*' :: rest) = ⟨some 192, 2, 0⟩) ∧
    (∀ rest, tsLex 0 ('@' :: '@' :: rest) = ⟨some 189, 2, 0⟩) ∧
    (∀ rest, tsLex 0 (':' :: ':' :: rest) = ⟨some 20, 2, 0⟩) ∧
    (∀ rest, tsLex 13 (':' :: ':' :: rest) = ⟨some 20, 2, 0⟩) ∧
    (∀ rest, zedLex 0 (':' :: ':' :: rest) = ⟨some 20, 2, 0⟩) ∧
    (∀ c rest, c ≠ '=' → tsLex 0 ('=' :: '=' :: c :: rest) = ⟨some 187, 2, 0⟩) ∧
    (∀ c rest, c ≠ '=' → tsLex 0 ('!' :: '=' :: c :: rest) = ⟨some 188, 2, 0⟩) := by
  refine ⟨?_, ?_, ?_, ?_, ?_, ?_, ?_, ?_, ?_, ?_, ?_⟩
  · intro rest; cases rest <;> rfl
  · intro rest; cases rest <;> rfl
  · intro rest; cases rest <;> rfl
  · intro rest; cases rest <;> rfl
  · intro rest; cases rest <;> rfl
  · intro rest; cases rest <;> rfl
  · intro rest; cases rest <;> rfl
  · intro rest; cases rest <;> rfl
  · intro rest; cases rest <;> rfl
  · intro c rest h
    have h1 : tsLex 0 ('=' :: '=' :: c :: rest) = runLex Ts.lexStates (c :: rest) 34 2 0 none 0 := rfl
    rw [h1, runLex_cons, lexStep_eqEq_ne h]
    rfl
  · intro c rest h
    have h1 : tsLex 0 ('!' :: '=' :: c :: rest) = runLex Ts.lexStates (c :: rest) 35 2 0 none 0 := rfl
    rw [h1, runLex_cons, lexStep_bangEq_ne h]
    rfl

/-- Witness for C3 at concrete inputs, discharging the side conditions. -/
theorem ts_lex_maximal_munch_witness :
    tsLex 0 ('>' :: '=' :: []) = ⟨some 191, 2, 0⟩ ∧
    tsLex 0 ('=' :: '=' :: 'a' :: []) = ⟨some 187, 2, 0⟩ ∧
    tsLex 0 ('!' :: '=' :: ')' :: []) = ⟨some 188, 2, 0⟩ :=
  ⟨ts_lex_maximal_munch.1 [],
   (ts_lex_maximal_munch.2.2.2.2.2.2.2.2.2.1) 'a' [] (by decide),
   (ts_lex_maximal_munch.2.2.2.2.2.2.2.2.2.2) ')' [] (by decide)⟩

/-! ### C5: block comments do not nest in ts_lex -/

/-- The C5 test input `/*a/*b*/c*/`: a block-comment open marker at offsets
3–4 sits inside the comment opened at offsets 0–1; the first close marker is
at offsets 6–7 and the close marker matching the outer opener at 9–10. -/
def c5input : List Char := ['/', '*', 'a', '/', '*', 'b', '*', '/', 'c', '*', '/']

/-- C5 counterexample: scanning `/*a/*b*/c*/` from lex state 12, `ts_lex`
accepts the comment token (`sym_comment` = 205) with end position 8 — at the
first close marker — and not 11, the close marker matching the outer open
marker, contradicting the claim that the token extends to the matching close
marker. -/
theorem ts_lex_nested_comment_counterexample :
    tsLex 12 c5input = ⟨some 205, 8, 0⟩ ∧ c5input.length = 11 ∧
    (tsLex 12 c5input).endPos ≠ 11 := by
  refine ⟨by decide, by decide, by decide⟩

/-- C5 amended: block comments do not nest.  Whatever follows, the comment
token scanned from lex state 12 on `/*a/*b*/…` ends at the first close
marker (offset 8); the inner open marker has no effect. -/
theorem ts_lex_comment_first_close :
    ∀ rest, tsLex 12 (['/', '*', 'a', '/', '*', 'b', '*', '/'] ++ rest) = ⟨some 205, 8, 0⟩ := by
  intro rest; cases rest <;> rfl

/-! ### C6: string escapes in ts_lex -/

/-- C6 counterexample: a backslash escape does not consume a newline.  On
`"\⏎"` the scan from state 0 reaches the escape state, has no transition for
the newline, and fails without accepting any token — while the claim (escape
consumes every character verbatim) would produce a string token. -/
theorem ts_lex_string_escape_counterexample :
    (tsLex 0 ['\x22', '\\', '\n', '\x22']).sym = none := by decide

theorem lexStep_escape_ok {c : Char} (h1 : c ≠ '\n') (h2 : c ≠ '\x00') :
    lexStep Ts.lexStates 11 c = some (1, false) := by
  unfold lexStep
  rw [show (Ts.lexStates.getD 11 noLexState).trans = [(Cond.noneOf ['\x00', '\n'], 1, false)] from rfl]
  rw [List.find?]
  have : condHolds c (Cond.noneOf ['\x00', '\n']) = true := by
    rw [condHolds_noneOf_iff]
    intro x hx
    fin_cases hx
    · exact h2
    · exact h1
  rw [this]

/-- C6 amended: inside a string literal a backslash consumes the following
character verbatim — including a literal quote — without terminating the
string, for every character except a newline or NUL (for those the scan
fails, see the counterexample); and the first unescaped quote terminates the
token (`sym_string` = 21), whatever follows. -/
theorem ts_lex_string_escape :
    (∀ c rest, c ≠ '\n' → c ≠ '\x00' →
       tsLex 0 ('\x22' :: '\\' :: c :: '\x22' :: rest) = ⟨some 21, 4, 0⟩) ∧
    (∀ rest, tsLex 0 ('\x22' :: 'a' :: '\x22' :: rest) = ⟨some 21, 3, 0⟩) := by
  constructor
  · intro c rest h1 h2
    have e1 : tsLex 0 ('\x22' :: '\\' :: c :: '\x22' :: rest) =
        runLex Ts.lexStates (c :: '\x22' :: rest) 11 2 0 none 0 := rfl
    rw [e1, runLex_cons, lexStep_escape_ok h1 h2]
    show runLex Ts.lexStates ('\x22' :: rest) 1 3 0 none 0 = ⟨some 21, 4, 0⟩
    cases rest <;> rfl
  · intro rest; cases rest <;> rfl

/-- Witness for C6 at a concrete escaped quote, discharging the side
conditions: in `"\""` the escaped quote is consumed and the final quote
terminates the string. -/
theorem ts_lex_string_escape_witness :
    tsLex 0 ('\x22' :: '\\' :: '\x22' :: '\x22' :: []) = ⟨some 21, 4, 0⟩ :=
  ts_lex_string_escape.1 '\x22' [] (by decide) (by decide)

/-! ### More step-evaluation helpers -/

theorem runLex_cons_step {sts : List LexState} {c : Char} {s t : Nat} {sk : Bool}
    (rest : List Char) (pos ts : Nat) (res : Option Nat) (re : Nat)
    (h : lexStep sts s c = some (t, sk)) :
    runLex sts (c :: rest) s pos ts res re =
      runLex sts rest t (pos + 1) (if sk then pos + 1 else ts)
        (accSym sts s res) (accEnd sts s pos re) := by
  rw [runLex_cons, h]

theorem runLex_cons_none {sts : List LexState} {c : Char} {s : Nat}
    (rest : List Char) (pos ts : Nat) (res : Option Nat) (re : Nat)
    (h : lexStep sts s c = none) :
    runLex sts (c :: rest) s pos ts res re = ⟨accSym sts s res, accEnd sts s pos re, ts⟩ := by
  rw [runLex_cons, h]

theorem runLex_nil_noEof {sts : List LexState} {s : Nat} (pos ts : Nat) (res : Option Nat)
    (re : Nat) (h : (sts.getD s noLexState).eofTo = none) :
    runLex sts [] s pos ts res re = ⟨accSym sts s res, accEnd sts s pos re, ts⟩ := by
  rw [runLex_nil, h]

theorem condHolds_single_ne {c d : Char} (h : c ≠ d) :
    condHolds c (Cond.anyOf [(d, d)]) = false := by
  cases hv : condHolds c (Cond.anyOf [(d, d)]) with
  | false => rfl
  | true => exact absurd ((condHolds_single_iff c d).mp hv) h

theorem condHolds_noneOf_all {c : Char} {l : List Char} (h : ∀ x ∈ l, c ≠ x) :
    condHolds c (Cond.noneOf l) = true := (condHolds_noneOf_iff c l).mpr h

/-! ### Per-state transition evaluation for ts_lex, used by the region lemmas.
The `_other` lemmas evaluate the `if` chain of a state for a character that
matches none of its specific tests, respecting the order of the chain. -/

theorem ts_step1_other {c : Char} (h1 : c ≠ '\x22') (h2 : c ≠ '\\') (h3 : c ≠ '\x00') :
    lexStep Ts.lexStates 1 c = some (1, false) := by
  unfold lexStep
  rw [show (Ts.lexStates.getD 1 noLexState).trans =
    [(Cond.anyOf [('\x22', '\x22')], 28, false), (Cond.anyOf [('\\', '\\')], 11, false),
     (Cond.noneOf ['\x00'], 1, false)] from rfl]
  rw [List.find?_cons_of_neg _ (by simp [condHolds_single_ne h1]),
    List.find?_cons_of_neg _ (by simp [condHolds_single_ne h2]),
    List.find?_cons_of_pos _ (by simpa using condHolds_noneOf_all (by intro x hx; fin_cases hx; exact h3))]

theorem ts_step2_other {c : Char} (h1 : c ≠ '*') (h2 : c ≠ '/') :
    lexStep Ts.lexStates 2 c = none := by
  unfold lexStep
  rw [show (Ts.lexStates.getD 2 noLexState).trans =
    [(Cond.anyOf [('*', '*')], 4, false), (Cond.anyOf [('/', '/')], 53, false)] from rfl]
  rw [List.find?_cons_of_neg _ (by simp [condHolds_single_ne h1]),
    List.find?_cons_of_neg _ (by simp [condHolds_single_ne h2])]
  rfl

theorem ts_step3_other {c : Char} (h1 : c ≠ '*') (h2 : c ≠ '/') (h3 : c ≠ '\x00') :
    lexStep Ts.lexStates 3 c = some (4, false) := by
  unfold lexStep
  rw [show (Ts.lexStates.getD 3 noLexState).trans =
    [(Cond.anyOf [('*', '*')], 3, false), (Cond.anyOf [('/', '/')], 52, false),
     (Cond.noneOf ['\x00'], 4, false)] from rfl]
  rw [List.find?_cons_of_neg _ (by simp [condHolds_single_ne h1]),
    List.find?_cons_of_neg _ (by simp [condHolds_single_ne h2]),
    List.find?_cons_of_pos _ (by simpa using condHolds_noneOf_all (by intro x hx; fin_cases hx; exact h3))]

theorem ts_step4_other {c : Char} (h1 : c ≠ '*') (h3 : c ≠ '\x00') :
    lexStep Ts.lexStates 4 c = some (4, false) := by
  unfold lexStep
  rw [show (Ts.lexStates.getD 4 noLexState).trans =
    [(Cond.anyOf [('*', '*')], 3, false), (Cond.noneOf ['\x00'], 4, false)] from rfl]
  rw [List.find?_cons_of_neg _ (by simp [condHolds_single_ne h1]),
    List.find?_cons_of_pos _ (by simpa using condHolds_noneOf_all (by intro x hx; fin_cases hx; exact h3))]

theorem ts_step53_other {c : Char} (h1 : c ≠ '\x00') (h2 : c ≠ '\n') :
    lexStep Ts.lexStates 53 c = some (53, false) := by
  unfold lexStep
  rw [show (Ts.lexStates.getD 53 noLexState).trans = [(Cond.noneOf ['\x00', '\n'], 53, false)] from rfl]
  rw [List.find?_cons_of_pos _
    (by simpa using condHolds_noneOf_all (by intro x hx; fin_cases hx; exacts [h1, h2]))]

theorem condHolds_ws_false {c : Char} (h : ¬ (('\t' ≤ c ∧ c ≤ '\r') ∨ c = ' ')) :
    condHolds c (Cond.anyOf [('\t', '\r'), (' ', ' ')]) = false := by
  cases hv : condHolds c (Cond.anyOf [('\t', '\r'), (' ', ' ')]) with
  | false => rfl
  | true =>
    exfalso
    rcases (condHolds_anyOf_iff c _).mp hv with ⟨r, hr, ha, hb⟩
    fin_cases hr
    · exact h (Or.inl ⟨ha, hb⟩)
    · exact h (Or.inr (le_antisymm hb ha))

theorem ts_step5_other {c : Char} (h1 : c ≠ '/') (h2 : ¬ (('\t' ≤ c ∧ c ≤ '\r') ∨ c = ' '))
    (h3 : c ≠ '\x00') (h4 : c ≠ ';') :
    lexStep Ts.lexStates 5 c = some (23, false) := by
  unfold lexStep
  rw [show (Ts.lexStates.getD 5 noLexState).trans =
    [(Cond.anyOf [('/', '/')], 19, false), (Cond.anyOf [('\t', '\r'), (' ', ' ')], 22, false),
     (Cond.noneOf ['\x00', ';'], 23, false)] from rfl]
  rw [List.find?_cons_of_neg _ (by simp [condHolds_single_ne h1]),
    List.find?_cons_of_neg _ (by simp [condHolds_ws_false h2]),
    List.find?_cons_of_pos _
      (by simpa using condHolds_noneOf_all (by intro x hx; fin_cases hx; exacts [h3, h4]))]

theorem ts_step22_other {c : Char} (h1 : c ≠ '/') (h2 : ¬ (('\t' ≤ c ∧ c ≤ '\r') ∨ c = ' '))
    (h3 : c ≠ '\x00') (h4 : c ≠ ';') :
    lexStep Ts.lexStates 22 c = some (23, false) := by
  unfold lexStep
  rw [show (Ts.lexStates.getD 22 noLexState).trans =
    [(Cond.anyOf [('/', '/')], 19, false), (Cond.anyOf [('\t', '\r'), (' ', ' ')], 22, false),
     (Cond.noneOf ['\x00', ';'], 23, false)] from rfl]
  rw [List.find?_cons_of_neg _ (by simp [condHolds_single_ne h1]),
    List.find?_cons_of_neg _ (by simp [condHolds_ws_false h2]),
    List.find?_cons_of_pos _
      (by simpa using condHolds_noneOf_all (by intro x hx; fin_cases hx; exacts [h3, h4]))]

theorem ts_step18_other {c : Char} (h1 : c ≠ '\n') (h2 : c ≠ ';') (h3 : c ≠ '\x00') :
    lexStep Ts.lexStates 18 c = some (18, false) := by
  unfold lexStep
  rw [show (Ts.lexStates.getD 18 noLexState).trans =
    [(Cond.anyOf [('\n', '\n')], 23, false), (Cond.anyOf [(';', ';')], 53, false),
     (Cond.noneOf ['\x00'], 18, false)] from rfl]
  rw [List.find?_cons_of_neg _ (by simp [condHolds_single_ne h1]),
    List.find?_cons_of_neg _ (by simp [condHolds_single_ne h2]),
    List.find?_cons_of_pos _ (by simpa using condHolds_noneOf_all (by intro x hx; fin_cases hx; exact h3))]

theorem ts_step19_other {c : Char} (h1 : c ≠ '*') (h2 : c ≠ '/') (h3 : c ≠ '\x00') (h4 : c ≠ ';') :
    lexStep Ts.lexStates 19 c = some (23, false) := by
  unfold lexStep
  rw [show (Ts.lexStates.getD 19 noLexState).trans =
    [(Cond.anyOf [('*', '*')], 21, false), (Cond.anyOf [('/', '/')], 18, false),
     (Cond.noneOf ['\x00', ';'], 23, false)] from rfl]
  rw [List.find?_cons_of_neg _ (by simp [condHolds_single_ne h1]),
    List.find?_cons_of_neg _ (by simp [condHolds_single_ne h2]),
    List.find?_cons_of_pos _
      (by simpa using condHolds_noneOf_all (by intro x hx; fin_cases hx; exacts [h3, h4]))]

theorem ts_step20_other {c : Char} (h1 : c ≠ '*') (h2 : c ≠ '/') (h3 : c ≠ ';') (h4 : c ≠ '\x00') :
    lexStep Ts.lexStates 20 c = some (21, false) := by
  unfold lexStep
  rw [show (Ts.lexStates.getD 20 noLexState).trans =
    [(Cond.anyOf [('*', '*')], 20, false), (Cond.anyOf [('/', '/')], 23, false),
     (Cond.anyOf [(';', ';')], 4, false), (Cond.noneOf ['\x00'], 21, false)] from rfl]
  rw [List.find?_cons_of_neg _ (by simp [condHolds_single_ne h1]),
    List.find?_cons_of_neg _ (by simp [condHolds_single_ne h2]),
    List.find?_cons_of_neg _ (by simp [condHolds_single_ne h3]),
    List.find?_cons_of_pos _ (by simpa using condHolds_noneOf_all (by intro x hx; fin_cases hx; exact h4))]

theorem ts_step21_other {c : Char} (h1 : c ≠ '*') (h3 : c ≠ ';') (h4 : c ≠ '\x00') :
    lexStep Ts.lexStates 21 c = some (21, false) := by
  unfold lexStep
  rw [show (Ts.lexStates.getD 21 noLexState).trans =
    [(Cond.anyOf [('*', '*')], 20, false), (Cond.anyOf [(';', ';')], 4, false),
     (Cond.noneOf ['\x00'], 21, false)] from rfl]
  rw [List.find?_cons_of_neg _ (by simp [condHolds_single_ne h1]),
    List.find?_cons_of_neg _ (by simp [condHolds_single_ne h3]),
    List.find?_cons_of_pos _ (by simpa using condHolds_noneOf_all (by intro x hx; fin_cases hx; exact h4))]

theorem ts_step23_other {c : Char} (h3 : c ≠ '\x00') (h4 : c ≠ ';') :
    lexStep Ts.lexStates 23 c = some (23, false) := by
  unfold lexStep
  rw [show (Ts.lexStates.getD 23 noLexState).trans = [(Cond.noneOf ['\x00', ';'], 23, false)] from rfl]
  rw [List.find?_cons_of_pos _
    (by simpa using condHolds_noneOf_all (by intro x hx; fin_cases hx; exacts [h3, h4]))]

/-! ### C10: an unterminated string literal yields no token -/

/-- Whether the remainder of a string-literal body (the characters after the
opening quote) ever reaches an unescaped closing double quote: a backslash
escapes the immediately following character. -/
def hasCloseQuote : List Char → Bool
  | [] => false
  | [c] => c = '\x22'
  | c :: d :: rest =>
    if c = '\x22' then true
    else if c = '\\' then hasCloseQuote rest
    else hasCloseQuote (d :: rest)

/-- Inside the string states of ts_lex (state 1, and 11 after a backslash),
a body with no unescaped closing quote never reaches the accepting state:
the scan keeps the empty result. -/
theorem ts_string_state_no_close :
    ∀ (n : Nat) (cs : List Char), cs.length ≤ n → hasCloseQuote cs = false →
      ∀ pos ts, (runLex Ts.lexStates cs 1 pos ts none 0).sym = none := by
  intro n
  induction n with
  | zero =>
    intro cs hlen h pos ts
    rw [List.length_eq_zero.mp (Nat.le_zero.mp hlen)]
    rfl
  | succ n IH =>
    intro cs hlen h pos ts
    match cs with
    | [] => rfl
    | c :: rest =>
      have hq : c ≠ '\x22' := by
        intro he
        subst he
        rw [show hasCloseQuote ('\x22' :: rest) = true by
          cases rest <;> simp [hasCloseQuote]] at h
        cases h
      by_cases hb : c = '\\'
      · subst hb
        rw [runLex_cons_step _ _ _ _ _ (show lexStep Ts.lexStates 1 '\\' = some (11, false) from rfl)]
        match rest with
        | [] => rfl
        | d :: rest2 =>
          have h2 : hasCloseQuote rest2 = false := by
            rw [show hasCloseQuote ('\\' :: d :: rest2) = hasCloseQuote rest2 by
              simp [hasCloseQuote]] at h
            exact h
          by_cases h0 : d = '\x00'
          · subst h0
            rw [runLex_cons_none _ _ _ _ _ (show lexStep Ts.lexStates 11 '\x00' = none from rfl)]
            rfl
          · by_cases hn : d = '\n'
            · subst hn
              rw [runLex_cons_none _ _ _ _ _ (show lexStep Ts.lexStates 11 '\n' = none from rfl)]
              rfl
            · rw [runLex_cons_step _ _ _ _ _ (lexStep_escape_ok hn h0)]
              exact IH rest2 (by simp at hlen; omega) h2 _ _
      · have h2 : hasCloseQuote rest = false := by
          match rest with
          | [] => rfl
          | d :: rest2 =>
            rw [show hasCloseQuote (c :: d :: rest2) = hasCloseQuote (d :: rest2) by
              simp [hasCloseQuote, hq, hb]] at h
            exact h
        by_cases h0 : c = '\x00'
        · subst h0
          rw [runLex_cons_none _ _ _ _ _ (show lexStep Ts.lexStates 1 '\x00' = none from rfl)]
          rfl
        · rw [runLex_cons_step _ _ _ _ _ (ts_step1_other hq hb h0)]
          exact IH rest (by simp at hlen; omega) h2 _ _

/-- C10.  For every input opening a string literal with a double quote and
reaching end of input before an unescaped closing quote, the main `ts_lex`
automaton accepts no token for that scan: it fails (empty result symbol)
rather than returning a truncated string token; the parse engine then treats
the scan as a lexical error. -/
theorem ts_lex_unterminated_string_fails :
    ∀ cs, hasCloseQuote cs = false → (tsLex 0 ('\x22' :: cs)).sym = none := by
  intro cs h
  have e1 : tsLex 0 ('\x22' :: cs) = runLex Ts.lexStates cs 1 1 0 none 0 := rfl
  rw [e1]
  exact ts_string_state_no_close cs.length cs (le_refl _) h 1 0

/-- Witness for C10: the unterminated body `abc` has no closing quote and the
scan of `"abc` accepts nothing. -/
theorem ts_lex_unterminated_string_fails_witness :
    hasCloseQuote ['a', 'b', 'c'] = false ∧ (tsLex 0 ('\x22' :: ['a', 'b', 'c'])).sym = none :=
  ⟨by decide, ts_lex_unterminated_string_fails ['a', 'b', 'c'] (by decide)⟩

/-! ### C7: the import-path mode of ts_lex -/

/-- The length of the longest `;`-free prefix of the input. -/
def semiFree : List Char → Nat
  | [] => 0
  | c :: rest => if c = ';' then 0 else semiFree rest + 1

theorem semiFree_take (cs : List Char) : ∀ k, k ≤ semiFree cs → ';' ∉ cs.take k := by
  induction cs with
  | nil => intro k hk; simp
  | cons c rest IH =>
    intro k hk
    by_cases hc : c = ';'
    · subst hc
      rw [show semiFree (';' :: rest) = 0 by simp [semiFree]] at hk
      rw [Nat.le_zero.mp hk]
      simp
    · rw [show semiFree (c :: rest) = semiFree rest + 1 by simp [semiFree, hc]] at hk
      cases k with
      | zero => simp
      | succ k2 =>
        rw [List.take_succ_cons]
        intro hmem
        rcases List.mem_cons.mp hmem with he | hm
        · exact hc he.symm
        · exact IH k2 (by omega) hm

/-- Inside the block-comment states of ts_lex (2, 3, 4 and the accepting 52,
53), the scan either returns the result it entered with, or ends up
accepting the comment symbol (205); in particular the import-path symbol (7)
is never newly accepted there. -/
theorem ts_comment_region :
    ∀ (n : Nat) (cs : List Char) (s : Nat), cs.length ≤ n → s ∈ ([2, 3, 4, 52, 53] : List Nat) →
      ∀ pos ts res re,
        ((runLex Ts.lexStates cs s pos ts res re).sym = res ∧
         (runLex Ts.lexStates cs s pos ts res re).endPos = re) ∨
        (runLex Ts.lexStates cs s pos ts res re).sym = some 205 := by
  intro n
  induction n with
  | zero =>
    intro cs s hlen hs pos ts res re
    rw [List.length_eq_zero.mp (Nat.le_zero.mp hlen)]
    fin_cases hs
    · exact Or.inl ⟨rfl, rfl⟩
    · exact Or.inl ⟨rfl, rfl⟩
    · exact Or.inl ⟨rfl, rfl⟩
    · exact Or.inr rfl
    · exact Or.inr rfl
  | succ n IH =>
    intro cs s hlen hs pos ts res re
    match cs with
    | [] =>
      fin_cases hs
      · exact Or.inl ⟨rfl, rfl⟩
      · exact Or.inl ⟨rfl, rfl⟩
      · exact Or.inl ⟨rfl, rfl⟩
      · exact Or.inr rfl
      · exact Or.inr rfl
    | c :: rest =>
      have hlen2 : rest.length ≤ n := by simp at hlen; omega
      fin_cases hs
      · -- state 2: '*' to 4, '/' to 53
        by_cases h1 : c = '*'
        · subst h1
          rw [runLex_cons_step _ _ _ _ _ (show lexStep Ts.lexStates 2 '*' = some (4, false) from rfl)]
          exact IH rest 4 hlen2 (by decide) _ _ _ _
        · by_cases h2 : c = '/'
          · subst h2
            rw [runLex_cons_step _ _ _ _ _ (show lexStep Ts.lexStates 2 '/' = some (53, false) from rfl)]
            exact IH rest 53 hlen2 (by decide) _ _ _ _
          · rw [runLex_cons_none _ _ _ _ _ (ts_step2_other h1 h2)]
            exact Or.inl ⟨rfl, rfl⟩
      · -- state 3: '*' to 3, '/' to 52, other nonzero to 4
        by_cases h1 : c = '*'
        · subst h1
          rw [runLex_cons_step _ _ _ _ _ (show lexStep Ts.lexStates 3 '*' = some (3, false) from rfl)]
          exact IH rest 3 hlen2 (by decide) _ _ _ _
        · by_cases h2 : c = '/'
          · subst h2
            rw [runLex_cons_step _ _ _ _ _ (show lexStep Ts.lexStates 3 '/' = some (52, false) from rfl)]
            exact IH rest 52 hlen2 (by decide) _ _ _ _
          · by_cases h0 : c = '\x00'
            · subst h0
              rw [runLex_cons_none _ _ _ _ _ (show lexStep Ts.lexStates 3 '\x00' = none from rfl)]
              exact Or.inl ⟨rfl, rfl⟩
            · rw [runLex_cons_step _ _ _ _ _ (ts_step3_other h1 h2 h0)]
              exact IH rest 4 hlen2 (by decide) _ _ _ _
      · -- state 4: '*' to 3, other nonzero to 4
        by_cases h1 : c = '*'
        · subst h1
          rw [runLex_cons_step _ _ _ _ _ (show lexStep Ts.lexStates 4 '*' = some (3, false) from rfl)]
          exact IH rest 3 hlen2 (by decide) _ _ _ _
        · by_cases h0 : c = '\x00'
          · subst h0
            rw [runLex_cons_none _ _ _ _ _ (show lexStep Ts.lexStates 4 '\x00' = none from rfl)]
            exact Or.inl ⟨rfl, rfl⟩
          · rw [runLex_cons_step _ _ _ _ _ (ts_step4_other h1 h0)]
            exact IH rest 4 hlen2 (by decide) _ _ _ _
      · -- state 52: accepts 205, no transitions
        rw [runLex_cons_none _ _ _ _ _ (show lexStep Ts.lexStates 52 c = none from rfl)]
        exact Or.inr rfl
      · -- state 53: accepts 205, loops on characters other than NUL and newline
        by_cases h0 : c = '\x00'
        · subst h0
          rw [runLex_cons_none _ _ _ _ _ (show lexStep Ts.lexStates 53 '\x00' = none from rfl)]
          exact Or.inr rfl
        · by_cases hn : c = '\n'
          · subst hn
            rw [runLex_cons_none _ _ _ _ _ (show lexStep Ts.lexStates 53 '\n' = none from rfl)]
            exact Or.inr rfl
          · rw [runLex_cons_step _ _ _ _ _ (ts_step53_other h0 hn)]
            rcases IH rest 53 hlen2 (by decide) (pos + 1) ts
              (accSym Ts.lexStates 53 res) (accEnd Ts.lexStates 53 pos re) with ⟨hsy, _⟩ | hsy
            · exact Or.inr hsy
            · exact Or.inr hsy

/-- In the import-path states of ts_lex (5 and the accepting 18–23), every
accept of the import-path symbol (7) happens before the first `;` of the
remaining input: whenever the scan returns the import-path symbol, its marked
end lies within the `;`-free prefix. -/
theorem ts_ip_region :
    ∀ (n : Nat) (cs : List Char) (s : Nat), cs.length ≤ n →
      s ∈ ([5, 18, 19, 20, 21, 22, 23] : List Nat) →
      ∀ pos ts res re, (res = some 7 → re ≤ pos) →
        (runLex Ts.lexStates cs s pos ts res re).sym = some 7 →
        (runLex Ts.lexStates cs s pos ts res re).endPos ≤ pos + semiFree cs := by
  intro n
  induction n with
  | zero =>
    intro cs s hlen hs pos ts res re hinv hsym
    rw [List.length_eq_zero.mp (Nat.le_zero.mp hlen)] at hsym ⊢
    fin_cases hs
    · exact le_trans (hinv hsym) (Nat.le_add_right pos _)
    · exact Nat.le_add_right pos _
    · exact Nat.le_add_right pos _
    · exact Nat.le_add_right pos _
    · exact Nat.le_add_right pos _
    · exact Nat.le_add_right pos _
    · exact Nat.le_add_right pos _
  | succ n IH =>
    intro cs s hlen hs pos ts res re hinv hsym
    match cs with
    | [] =>
      fin_cases hs
      · exact le_trans (hinv hsym) (Nat.le_add_right pos _)
      · exact Nat.le_add_right pos _
      · exact Nat.le_add_right pos _
      · exact Nat.le_add_right pos _
      · exact Nat.le_add_right pos _
      · exact Nat.le_add_right pos _
      · exact Nat.le_add_right pos _
    | c :: rest =>
      have hlen2 : rest.length ≤ n := by simp at hlen; omega
      fin_cases hs
      · -- state 5 (start of the import-path mode, not accepting):
        -- '/' to 19, whitespace to 22, other printable non-';' to 23
        by_cases h1 : c = '/'
        · subst h1
          rw [runLex_cons_step rest pos ts res re
            (show lexStep Ts.lexStates 5 '/' = some (19, false) from rfl)] at hsym ⊢
          rw [show semiFree ('/' :: rest) = semiFree rest + 1 by simp [semiFree]]
          exact le_trans (IH rest 19 hlen2 (by decide) (pos + 1) ts _ _
            (fun hx => le_trans (hinv hx) (Nat.le_succ pos)) hsym) (by omega)
        · by_cases hw : ('\t' ≤ c ∧ c ≤ '\r') ∨ c = ' '
          · have hstep : lexStep Ts.lexStates 5 c = some (22, false) := by
              unfold lexStep
              rw [show (Ts.lexStates.getD 5 noLexState).trans =
                [(Cond.anyOf [('/', '/')], 19, false),
                 (Cond.anyOf [('\t', '\r'), (' ', ' ')], 22, false),
                 (Cond.noneOf ['\x00', ';'], 23, false)] from rfl]
              rw [List.find?_cons_of_neg _ (by simp [condHolds_single_ne h1]),
                List.find?_cons_of_pos _ (by
                  simp only []
                  rw [condHolds_anyOf_iff]
                  rcases hw with ⟨ha, hb⟩ | he
                  · exact ⟨('\t', '\r'), by simp, ha, hb⟩
                  · exact ⟨(' ', ' '), by simp, le_of_eq he.symm, le_of_eq he⟩)]
            have hcne : c ≠ ';' := by
              rintro rfl
              rcases hw with ⟨_, hb⟩ | he
              · exact absurd hb (by decide)
              · exact absurd he (by decide)
            rw [runLex_cons_step rest pos ts res re hstep] at hsym ⊢
            rw [show semiFree (c :: rest) = semiFree rest + 1 by simp [semiFree, hcne]]
            exact le_trans (IH rest 22 hlen2 (by decide) (pos + 1) _ _ _
              (fun hx => le_trans (hinv hx) (Nat.le_succ pos)) hsym) (by omega)
          · by_cases h0 : c = '\x00'
            · subst h0
              rw [runLex_cons_none rest pos ts res re
                (show lexStep Ts.lexStates 5 '\x00' = none from rfl)] at hsym ⊢
              exact le_trans (hinv hsym) (Nat.le_add_right pos _)
            · by_cases hcne : c = ';'
              · subst hcne
                rw [runLex_cons_none rest pos ts res re
                  (show lexStep Ts.lexStates 5 ';' = none from rfl)] at hsym ⊢
                exact le_trans (hinv hsym) (Nat.le_add_right pos _)
              · rw [runLex_cons_step rest pos ts res re (ts_step5_other h1 hw h0 hcne)] at hsym ⊢
                rw [show semiFree (c :: rest) = semiFree rest + 1 by simp [semiFree, hcne]]
                exact le_trans (IH rest 23 hlen2 (by decide) (pos + 1) _ _ _
                  (fun hx => le_trans (hinv hx) (Nat.le_succ pos)) hsym) (by omega)
      · -- state 18 (accepting, after `//` in the payload):
        -- newline to 23, ';' to comment state 53, other nonzero loops
        by_cases h1 : c = '\n'
        · subst h1
          rw [runLex_cons_step rest pos ts res re
            (show lexStep Ts.lexStates 18 '\n' = some (23, false) from rfl)] at hsym ⊢
          rw [show semiFree ('\n' :: rest) = semiFree rest + 1 by simp [semiFree]]
          exact le_trans (IH rest 23 hlen2 (by decide) (pos + 1) _ _ _
            (fun _ => Nat.le_succ pos) hsym) (by omega)
        · by_cases h2 : c = ';'
          · subst h2
            rw [runLex_cons_step rest pos ts res re
              (show lexStep Ts.lexStates 18 ';' = some (53, false) from rfl)] at hsym ⊢
            rcases ts_comment_region rest.length rest 53 (le_refl _) (by decide)
              (pos + 1) (if false = true then pos + 1 else ts)
              (accSym Ts.lexStates 18 res) (accEnd Ts.lexStates 18 pos re) with ⟨hsy, hen⟩ | hsy
            · rw [hen]
              exact Nat.le_add_right pos _
            · rw [hsym] at hsy
              exact absurd hsy (by decide)
          · by_cases h0 : c = '\x00'
            · subst h0
              rw [runLex_cons_none rest pos ts res re
                (show lexStep Ts.lexStates 18 '\x00' = none from rfl)] at hsym ⊢
              exact Nat.le_add_right pos _
            · rw [runLex_cons_step rest pos ts res re (ts_step18_other h1 h2 h0)] at hsym ⊢
              rw [show semiFree (c :: rest) = semiFree rest + 1 by simp [semiFree, h2]]
              exact le_trans (IH rest 18 hlen2 (by decide) (pos + 1) _ _ _
                (fun _ => Nat.le_succ pos) hsym) (by omega)
      · -- state 19 (accepting, after `/`): '*' to 21, '/' to 18, other
        -- non-';' to 23; ';' matches nothing
        by_cases h1 : c = '*'
        · subst h1
          rw [runLex_cons_step rest pos ts res re
            (show lexStep Ts.lexStates 19 '*' = some (21, false) from rfl)] at hsym ⊢
          rw [show semiFree ('*' :: rest) = semiFree rest + 1 by simp [semiFree]]
          exact le_trans (IH rest 21 hlen2 (by decide) (pos + 1) _ _ _
            (fun _ => Nat.le_succ pos) hsym) (by omega)
        · by_cases h2 : c = '/'
          · subst h2
            rw [runLex_cons_step rest pos ts res re
              (show lexStep Ts.lexStates 19 '/' = some (18, false) from rfl)] at hsym ⊢
            rw [show semiFree ('/' :: rest) = semiFree rest + 1 by simp [semiFree]]
            exact le_trans (IH rest 18 hlen2 (by decide) (pos + 1) _ _ _
              (fun _ => Nat.le_succ pos) hsym) (by omega)
          · by_cases h0 : c = '\x00'
            · subst h0
              rw [runLex_cons_none rest pos ts res re
                (show lexStep Ts.lexStates 19 '\x00' = none from rfl)] at hsym ⊢
              exact Nat.le_add_right pos _
            · by_cases hcne : c = ';'
              · subst hcne
                rw [runLex_cons_none rest pos ts res re
                  (show lexStep Ts.lexStates 19 ';' = none from rfl)] at hsym ⊢
                exact Nat.le_add_right pos _
              · rw [runLex_cons_step rest pos ts res re (ts_step19_other h1 h2 h0 hcne)] at hsym ⊢
                rw [show semiFree (c :: rest) = semiFree rest + 1 by simp [semiFree, hcne]]
                exact le_trans (IH rest 23 hlen2 (by decide) (pos + 1) _ _ _
                  (fun _ => Nat.le_succ pos) hsym) (by omega)
      · -- state 20 (accepting, inside a payload block comment after `*`):
        -- '*' loops to 20, '/' to 23, ';' to comment state 4, other to 21
        by_cases h1 : c = '*'
        · subst h1
          rw [runLex_cons_step rest pos ts res re
            (show lexStep Ts.lexStates 20 '*' = some (20, false) from rfl)] at hsym ⊢
          rw [show semiFree ('*' :: rest) = semiFree rest + 1 by simp [semiFree]]
          exact le_trans (IH rest 20 hlen2 (by decide) (pos + 1) _ _ _
            (fun _ => Nat.le_succ pos) hsym) (by omega)
        · by_cases h2 : c = '/'
          · subst h2
            rw [runLex_cons_step rest pos ts res re
              (show lexStep Ts.lexStates 20 '/' = some (23, false) from rfl)] at hsym ⊢
            rw [show semiFree ('/' :: rest) = semiFree rest + 1 by simp [semiFree]]
            exact le_trans (IH rest 23 hlen2 (by decide) (pos + 1) _ _ _
              (fun _ => Nat.le_succ pos) hsym) (by omega)
          · by_cases h3 : c = ';'
            · subst h3
              rw [runLex_cons_step rest pos ts res re
                (show lexStep Ts.lexStates 20 ';' = some (4, false) from rfl)] at hsym ⊢
              rcases ts_comment_region rest.length rest 4 (le_refl _) (by decide)
                (pos + 1) (if false = true then pos + 1 else ts)
                (accSym Ts.lexStates 20 res) (accEnd Ts.lexStates 20 pos re) with ⟨hsy, hen⟩ | hsy
              · rw [hen]
                exact Nat.le_add_right pos _
              · rw [hsym] at hsy
                exact absurd hsy (by decide)
            · by_cases h0 : c = '\x00'
              · subst h0
                rw [runLex_cons_none rest pos ts res re
                  (show lexStep Ts.lexStates 20 '\x00' = none from rfl)] at hsym ⊢
                exact Nat.le_add_right pos _
              · rw [runLex_cons_step rest pos ts res re (ts_step20_other h1 h2 h3 h0)] at hsym ⊢
                rw [show semiFree (c :: rest) = semiFree rest + 1 by simp [semiFree, h3]]
                exact le_trans (IH rest 21 hlen2 (by decide) (pos + 1) _ _ _
                  (fun _ => Nat.le_succ pos) hsym) (by omega)
      · -- state 21 (accepting, inside a payload block comment):
        -- '*' to 20, ';' to comment state 4, other nonzero loops
        by_cases h1 : c = '*'
        · subst h1
          rw [runLex_cons_step rest pos ts res re
            (show lexStep Ts.lexStates 21 '*' = some (20, false) from rfl)] at hsym ⊢
          rw [show semiFree ('*' :: rest) = semiFree rest + 1 by simp [semiFree]]
          exact le_trans (IH rest 20 hlen2 (by decide) (pos + 1) _ _ _
            (fun _ => Nat.le_succ pos) hsym) (by omega)
        · by_cases h3 : c = ';'
          · subst h3
            rw [runLex_cons_step rest pos ts res re
              (show lexStep Ts.lexStates 21 ';' = some (4, false) from rfl)] at hsym ⊢
            rcases ts_comment_region rest.length rest 4 (le_refl _) (by decide)
              (pos + 1) (if false = true then pos + 1 else ts)
              (accSym Ts.lexStates 21 res) (accEnd Ts.lexStates 21 pos re) with ⟨hsy, hen⟩ | hsy
            · rw [hen]
              exact Nat.le_add_right pos _
            · rw [hsym] at hsy
              exact absurd hsy (by decide)
          · by_cases h0 : c = '\x00'
            · subst h0
              rw [runLex_cons_none rest pos ts res re
                (show lexStep Ts.lexStates 21 '\x00' = none from rfl)] at hsym ⊢
              exact Nat.le_add_right pos _
            · rw [runLex_cons_step rest pos ts res re (ts_step21_other h1 h3 h0)] at hsym ⊢
              rw [show semiFree (c :: rest) = semiFree rest + 1 by simp [semiFree, h3]]
              exact le_trans (IH rest 21 hlen2 (by decide) (pos + 1) _ _ _
                (fun _ => Nat.le_succ pos) hsym) (by omega)
      · -- state 22 (accepting, in payload whitespace): same transitions as 5
        by_cases h1 : c = '/'
        · subst h1
          rw [runLex_cons_step rest pos ts res re
            (show lexStep Ts.lexStates 22 '/' = some (19, false) from rfl)] at hsym ⊢
          rw [show semiFree ('/' :: rest) = semiFree rest + 1 by simp [semiFree]]
          exact le_trans (IH rest 19 hlen2 (by decide) (pos + 1) _ _ _
            (fun _ => Nat.le_succ pos) hsym) (by omega)
        · by_cases hw : ('\t' ≤ c ∧ c ≤ '\r') ∨ c = ' '
          · have hstep : lexStep Ts.lexStates 22 c = some (22, false) := by
              unfold lexStep
              rw [show (Ts.lexStates.getD 22 noLexState).trans =
                [(Cond.anyOf [('/', '/')], 19, false),
                 (Cond.anyOf [('\t', '\r'), (' ', ' ')], 22, false),
                 (Cond.noneOf ['\x00', ';'], 23, false)] from rfl]
              rw [List.find?_cons_of_neg _ (by simp [condHolds_single_ne h1]),
                List.find?_cons_of_pos _ (by
                  simp only []
                  rw [condHolds_anyOf_iff]
                  rcases hw with ⟨ha, hb⟩ | he
                  · exact ⟨('\t', '\r'), by simp, ha, hb⟩
                  · exact ⟨(' ', ' '), by simp, le_of_eq he.symm, le_of_eq he⟩)]
            have hcne : c ≠ ';' := by
              rintro rfl
              rcases hw with ⟨_, hb⟩ | he
              · exact absurd hb (by decide)
              · exact absurd he (by decide)
            rw [runLex_cons_step rest pos ts res re hstep] at hsym ⊢
            rw [show semiFree (c :: rest) = semiFree rest + 1 by simp [semiFree, hcne]]
            exact le_trans (IH rest 22 hlen2 (by decide) (pos + 1) _ _ _
              (fun _ => Nat.le_succ pos) hsym) (by omega)
          · by_cases h0 : c = '\x00'
            · subst h0
              rw [runLex_cons_none rest pos ts res re
                (show lexStep Ts.lexStates 22 '\x00' = none from rfl)] at hsym ⊢
              exact Nat.le_add_right pos _
            · by_cases hcne : c = ';'
              · subst hcne
                rw [runLex_cons_none rest pos ts res re
                  (show lexStep Ts.lexStates 22 ';' = none from rfl)] at hsym ⊢
                exact Nat.le_add_right pos _
              · rw [runLex_cons_step rest pos ts res re (ts_step22_other h1 hw h0 hcne)] at hsym ⊢
                rw [show semiFree (c :: rest) = semiFree rest + 1 by simp [semiFree, hcne]]
                exact le_trans (IH rest 23 hlen2 (by decide) (pos + 1) _ _ _
                  (fun _ => Nat.le_succ pos) hsym) (by omega)
      · -- state 23 (accepting): loops on everything except NUL and ';'
        by_cases h0 : c = '\x00'
        · subst h0
          rw [runLex_cons_none rest pos ts res re
            (show lexStep Ts.lexStates 23 '\x00' = none from rfl)] at hsym ⊢
          exact Nat.le_add_right pos _
        · by_cases hcne : c = ';'
          · subst hcne
            rw [runLex_cons_none rest pos ts res re
              (show lexStep Ts.lexStates 23 ';' = none from rfl)] at hsym ⊢
            exact Nat.le_add_right pos _
          · rw [runLex_cons_step rest pos ts res re (ts_step23_other h0 hcne)] at hsym ⊢
            rw [show semiFree (c :: rest) = semiFree rest + 1 by simp [semiFree, hcne]]
            exact le_trans (IH rest 23 hlen2 (by decide) (pos + 1) _ _ _
              (fun _ => Nat.le_succ pos) hsym) (by omega)

/-- C7 counterexample: in the import-path mode (lex state 5, used by the
parser state that reads the payload after `import`), the input `/*c*/p;`
lexes as one import-path token (symbol 7) ending at offset 6 — the raw span
`/*c*/p` contains the embedded block comment `/*c*/`, which is thus not
excluded from the raw span as the claim requires. -/
theorem ts_import_path_comment_included :
    tsLex 5 ['/', '*', 'c', '*', '/', 'p', ';'] = ⟨some 7, 6, 0⟩ ∧
    (['/', '*', 'c', '*', '/', 'p', ';'].take 6).take 5 = ['/', '*', 'c', '*', '/'] := by
  exact ⟨by decide, by decide⟩

/-- C7 amended.  The raw import-path token never includes a statement
terminator: whenever the import-path scan (lex state 5) returns the raw
payload symbol (7), the consumed span contains no `;`.  An embedded
comment is recognized as a separate comment token (and thereby excluded from
the raw payload) exactly when it contains a `;`, as in `/*a;*/x`; a comment
without `;` stays inside the raw import-path span (see the
counterexample). -/
theorem ts_import_path_raw_span :
    (∀ cs, (tsLex 5 cs).sym = some 7 → ';' ∉ cs.take (tsLex 5 cs).endPos) ∧
    tsLex 5 ['/', '*', 'a', ';', '*', '/', 'x'] = ⟨some 205, 6, 0⟩ := by
  constructor
  · intro cs hsym
    have h : (tsLex 5 cs).endPos ≤ 0 + semiFree cs :=
      ts_ip_region cs.length cs 5 (le_refl _) (by decide) 0 0 none 0
        (by intro hx; cases hx) hsym
    exact semiFree_take cs _ (by omega)
  · decide

/-- Witness for C7: on `a;b` the import-path token stops before the `;`. -/
theorem ts_import_path_raw_span_witness :
    (tsLex 5 ['a', ';', 'b']).sym = some 7 ∧
    ';' ∉ ['a', ';', 'b'].take (tsLex 5 ['a', ';', 'b']).endPos :=
  ⟨by decide, ts_import_path_raw_span.1 ['a', ';', 'b'] (by decide)⟩

/-! ### C4: keyword disambiguation -/

/-- The reserved words of the zed-extension grammar with their terminal
symbol ids, as accepted by its `ts_lex_keywords` automaton. -/
def zedKeywords : List (List Char × Nat) :=
  [(String.toList "package", 4), (String.toList "part", 5), (String.toList "def", 6),
   (String.toList "attribute", 8), (String.toList "import", 9), (String.toList "action", 11),
   (String.toList "state", 12), (String.toList "interface", 13), (String.toList "port", 14),
   (String.toList "requirement", 15), (String.toList "constraint", 16),
   (String.toList "enum", 17), (String.toList "type", 18)]

theorem classify_ext (w rest : List Char) (k : Nat)
    (hrun : lexFrom Zed.kwStates 0 (w ++ rest) = ⟨some k, w.length, 0⟩)
    (hrest : rest ≠ []) :
    keywordClassify Zed.kwStates 1 true (w ++ rest) = 1 := by
  simp only [keywordClassify, if_true]
  rw [hrun]
  simp only [List.length_append]
  rw [if_neg (by
    intro he
    exact hrest (List.eq_nil_of_length_eq_zero (by omega)))]

/-- C4.  Keyword disambiguation, against the `ts_lex_keywords` reserved-word
automaton of the zed grammar: with disambiguation active, a span exactly
equal to a reserved word is classified as that reserved-word terminal; a
strict nonempty prefix of a reserved word, and any extension of a reserved
word, stay the generic identifier (symbol 1); with disambiguation inactive,
every span stays the generic identifier. -/
theorem zed_keyword_disambiguation :
    (∀ p ∈ zedKeywords, keywordClassify Zed.kwStates 1 true p.1 = p.2) ∧
    (∀ p ∈ zedKeywords, ∀ j, j < p.1.length → 0 < j →
       keywordClassify Zed.kwStates 1 true (p.1.take j) = 1) ∧
    (∀ p ∈ zedKeywords, ∀ rest, rest ≠ [] →
       keywordClassify Zed.kwStates 1 true (p.1 ++ rest) = 1) ∧
    (∀ span, keywordClassify Zed.kwStates 1 false span = 1) := by
  refine ⟨by decide, by decide, ?_, fun span => rfl⟩
  intro p hp rest hrest
  fin_cases hp <;>
    exact classify_ext _ rest _ (by cases rest <;> rfl) hrest

/-- Witness for C4 on the reserved word `part`: exact match gives the
keyword symbol (5); the prefix `pa`, the extension `partx` and the inactive
mode give the identifier symbol (1). -/
theorem zed_keyword_disambiguation_witness :
    keywordClassify Zed.kwStates 1 true (String.toList "part") = 5 ∧
    keywordClassify Zed.kwStates 1 true ((String.toList "part").take 2) = 1 ∧
    keywordClassify Zed.kwStates 1 true (String.toList "part" ++ ['x']) = 1 ∧
    keywordClassify Zed.kwStates 1 false (String.toList "part") = 1 :=
  ⟨zed_keyword_disambiguation.1 (String.toList "part", 5) (by decide),
   zed_keyword_disambiguation.2.1 (String.toList "part", 5) (by decide) 2 (by decide) (by decide),
   zed_keyword_disambiguation.2.2.1 (String.toList "part", 5) (by decide) ['x'] (by decide),
   zed_keyword_disambiguation.2.2.2 (String.toList "part")⟩

/-! ### Span tiling: infrastructure for the round-trip and full-span claims -/

/-- `Tiles L a b`: the extents of `L` cover `[a, b)` contiguously, in order,
with no gaps and no overlaps. -/
def Tiles : List (Nat × Nat) → Nat → Nat → Prop
  | [], a, b => a = b
  | p :: rest, a, b => p.1 = a ∧ a ≤ p.2 ∧ Tiles rest p.2 b

/-- The source text of the range `[a, b)`. -/
def sliceTxt (cs : List Char) (a b : Nat) : List Char := (cs.drop a).take (b - a)

/-- The concatenation of the texts of a span list. -/
def spansText (cs : List Char) (L : List (Nat × Nat)) : List Char :=
  (L.map (fun p => sliceTxt cs p.1 p.2)).flatten

theorem Tiles_append {L1 L2 : List (Nat × Nat)} {a b c : Nat}
    (h1 : Tiles L1 a b) (h2 : Tiles L2 b c) : Tiles (L1 ++ L2) a c := by
  induction L1 generalizing a with
  | nil => rw [show a = b from h1]; exact h2
  | cons p rest IH =>
    obtain ⟨hp, hle, ht⟩ := h1
    exact ⟨hp, hle, IH ht⟩

theorem Tiles_snoc {L : List (Nat × Nat)} {a b e : Nat}
    (h1 : Tiles L a b) (h2 : b ≤ e) : Tiles (L ++ [(b, e)]) a e :=
  Tiles_append h1 ⟨rfl, h2, rfl⟩

theorem Tiles_le {L : List (Nat × Nat)} : ∀ {a b : Nat}, Tiles L a b → a ≤ b := by
  induction L with
  | nil => intro a b h; exact le_of_eq h
  | cons p rest IH =>
    intro a b h
    obtain ⟨hp, hle, ht⟩ := h
    exact le_trans hle (IH ht)

theorem Tiles_spansText (cs : List Char) :
    ∀ (L : List (Nat × Nat)) (a b : Nat), Tiles L a b → spansText cs L = sliceTxt cs a b := by
  intro L
  induction L with
  | nil =>
    intro a b h
    rw [show a = b from h]
    simp [spansText, sliceTxt]
  | cons p rest IH =>
    intro a b h
    obtain ⟨hp, hle, ht⟩ := h
    have hr := IH p.2 b ht
    rw [show spansText cs (p :: rest) = sliceTxt cs p.1 p.2 ++ spansText cs rest from by
      simp [spansText]]
    rw [hr, hp]
    unfold sliceTxt
    have hb : p.2 ≤ b := Tiles_le ht
    rw [show b - a = (p.2 - a) + (b - p.2) from by omega, List.take_add]
    congr 1
    rw [List.drop_drop]
    congr 2
    omega

theorem leafExtsL_append (xs ys : List Node) :
    leafExtsL (xs ++ ys) = leafExtsL xs ++ leafExtsL ys := by
  induction xs with
  | nil => rfl
  | cons x xs IH => simp [leafExtsL, IH]

theorem leafExts_mkInternal (sym prodId pos : Nat) (kids : List Node) :
    leafExts (mkInternal sym prodId pos kids) = leafExtsL kids := rfl

theorem stackNodes_nil : stackNodes [] = [] := rfl

theorem stackNodes_cons (s : Nat) (ns : List Node) (rest : List (Nat × List Node)) :
    stackNodes ((s, ns) :: rest) = stackNodes rest ++ ns := by
  simp [stackNodes]

theorem stackNodes_split (stack : List (Nat × List Node)) (k : Nat) :
    stackNodes stack =
      stackNodes (stack.drop k) ++ (((stack.take k).reverse).map Prod.snd).flatten := by
  rw [show stackNodes stack = stackNodes (stack.take k ++ stack.drop k) from by
    rw [List.take_append_drop]]
  simp only [stackNodes, List.reverse_append, List.map_append, List.flatten_append]

theorem stackNodes_attachTop (stack : List (Nat × List Node)) (nd : Node) :
    stackNodes (attachTop stack nd) = stackNodes stack ++ [nd] := by
  cases stack with
  | nil => simp [attachTop, stackNodes]
  | cons f rest => cases f with
    | mk s ns => simp [attachTop, stackNodes_cons]

/-- The leaf extents held by a configuration (stack bottom to top, then the
pending extras, then the error accumulator). -/
def extsOf (stack : List (Nat × List Node)) (extras errAcc : List Node) : List (Nat × Nat) :=
  leafExtsL (stackNodes stack) ++ leafExtsL extras ++ leafExtsL errAcc

theorem extsOf_errSnoc (stack : List (Nat × List Node)) (extras errAcc : List Node) (e : Node) :
    extsOf stack extras (errAcc ++ [e]) = extsOf stack extras errAcc ++ leafExts e := by
  simp [extsOf, leafExtsL_append, leafExtsL]

theorem extsOf_extraSnoc (stack : List (Nat × List Node)) (extras : List Node) (e : Node) :
    extsOf stack (extras ++ [e]) [] = extsOf stack extras [] ++ leafExts e := by
  simp [extsOf, leafExtsL_append, leafExtsL]

theorem accEnd_le {sts : List LexState} {s pos re : Nat} (h : re ≤ pos) :
    accEnd sts s pos re ≤ pos := by
  unfold accEnd
  cases (sts.getD s noLexState).accept with
  | none => exact h
  | some v => exact le_refl pos

theorem runLex_endPos_le (sts : List LexState) :
    ∀ (cs : List Char) (s pos ts : Nat) (res : Option Nat) (re : Nat), re ≤ pos →
      (runLex sts cs s pos ts res re).endPos ≤ pos + cs.length := by
  intro cs
  induction cs with
  | nil =>
    intro s pos ts res re hre
    cases h1 : (sts.getD s noLexState).eofTo with
    | none =>
      rw [runLex_nil_noEof pos ts res re h1]
      exact le_trans (accEnd_le hre) (Nat.le_add_right _ _)
    | some t =>
      rw [show runLex sts [] s pos ts res re =
          (match (sts.getD t noLexState).accept with
           | some sym => ⟨some sym, pos, ts⟩
           | none => ⟨accSym sts s res, accEnd sts s pos re, ts⟩) from by
        rw [runLex_nil, h1]]
      cases (sts.getD t noLexState).accept with
      | none => exact le_trans (accEnd_le hre) (Nat.le_add_right _ _)
      | some v => exact Nat.le_add_right _ _
  | cons c rest IH =>
    intro s pos ts res re hre
    rw [runLex_cons]
    cases lexStep sts s c with
    | none => exact le_trans (accEnd_le hre) (Nat.le_add_right _ _)
    | some p =>
      cases p with
      | mk t sk =>
        have h2 := IH t (pos + 1) (if sk then pos + 1 else ts) (accSym sts s res)
          (accEnd sts s pos re) (le_trans (accEnd_le hre) (Nat.le_succ pos))
        simp only [List.length_cons]
        exact le_trans h2 (by omega)

theorem leafExts_finishRoot (n : Nat) (kids : List Node) :
    leafExts (finishRoot n kids) = leafExtsL kids := by
  unfold finishRoot
  split
  · next s p a b ks lf =>
    simp [leafExts, leafExtsL, leafExtsL_append]
  · rfl

theorem leafExts_finishStuck (n : Nat) (stack : List (Nat × List Node)) (pos : Nat)
    (extras errAcc : List Node) :
    leafExts (finishStuck n stack pos extras errAcc) =
      extsOf stack extras errAcc ++ [(pos, n)] := by
  simp [finishStuck, leafExts, extsOf, leafExtsL_append, leafExtsL]

theorem Tiles_finishStuck {n : Nat} {stack : List (Nat × List Node)} {pos : Nat}
    {extras errAcc : List Node} (hpos : pos ≤ n)
    (hT : Tiles (extsOf stack extras errAcc) 0 pos) :
    Tiles (leafExts (finishStuck n stack pos extras errAcc)) 0 n := by
  rw [leafExts_finishStuck]
  exact Tiles_snoc hT hpos

theorem stackNodes_doReduce {L : Lang} {stack stack2 : List (Nat × List Node)}
    {pos sym cnt prodId : Nat}
    (h : doReduce L stack pos sym cnt prodId = some stack2) :
    leafExtsL (stackNodes stack2) = leafExtsL (stackNodes stack) := by
  simp only [doReduce] at h
  cases hg : gotoOf L (topState (stack.drop cnt)) sym with
  | none => rw [hg] at h; cases h
  | some st2 =>
    rw [hg] at h
    cases h
    rw [stackNodes_cons, leafExtsL_append]
    conv_rhs => rw [stackNodes_split stack cnt, leafExtsL_append]
    simp [leafExtsL, leafExts_mkInternal]

/-! ### Engine invariants: root span and leaf tiling -/

theorem leafExtsL_nil : leafExtsL [] = [] := by simp [leafExtsL]

theorem leafExtsL_one (k : Node) : leafExtsL [k] = leafExts k := by simp [leafExtsL]

theorem extsOf_shift (s : Nat) (stack : List (Nat × List Node)) (extras : List Node) (tk : Node) :
    extsOf ((s, extras ++ [tk]) :: stack) [] [] = extsOf stack extras [] ++ leafExts tk := by
  simp [extsOf, stackNodes_cons, leafExtsL_append, leafExtsL]

theorem extsOf_errOne (stack : List (Nat × List Node)) (extras : List Node) (e : Node) :
    extsOf stack extras [e] = extsOf stack extras [] ++ leafExts e := by
  simp [extsOf, leafExtsL_append, leafExtsL]

theorem extsOf_congr_stack {stack stack2 : List (Nat × List Node)}
    (h : leafExtsL (stackNodes stack2) = leafExtsL (stackNodes stack))
    (extras errAcc : List Node) :
    extsOf stack2 extras errAcc = extsOf stack extras errAcc := by
  simp [extsOf, h]

theorem extsOf_resync (stack : List (Nat × List Node)) (k pos : Nat)
    (extras errAcc : List Node) :
    extsOf (attachTop (stack.drop k) (mkInternal errorSym 0 pos
      ((((stack.take k).reverse).map Prod.snd).flatten ++ extras ++ errAcc))) [] [] =
    extsOf stack extras errAcc := by
  simp only [extsOf, stackNodes_attachTop, leafExtsL_append, leafExtsL_one, leafExts_mkInternal,
    leafExtsL_nil, List.append_nil]
  conv_rhs => rw [stackNodes_split stack k, leafExtsL_append]
  simp [List.append_assoc]

theorem extsOf_accept (stack : List (Nat × List Node)) (extras : List Node) (lf : Node) :
    leafExtsL (stackNodes stack ++ extras ++ [lf]) = extsOf stack extras [] ++ leafExts lf := by
  simp [extsOf, leafExtsL_append, leafExtsL]

theorem lexFrom_endPos_le (sts : List LexState) (m : Nat) (cs : List Char) :
    (lexFrom sts m cs).endPos ≤ cs.length := by
  have h := runLex_endPos_le sts cs m 0 0 none 0 (le_refl 0)
  simpa [lexFrom] using h

theorem rootSpan_finishRoot (n : Nat) (kids : List Node) :
    rootSpan (finishRoot n kids) = (0, n) := by
  unfold finishRoot
  split <;> rfl

theorem rootSpan_finishStuck (n : Nat) (stack : List (Nat × List Node)) (pos : Nat)
    (extras errAcc : List Node) :
    rootSpan (finishStuck n stack pos extras errAcc) = (0, n) := rfl

/-- Every `.finished` exit of `applyActs` hands back a root spanning `[0, n)`. -/
theorem applyActs_finished_span (n : Nat) (L : Lang) (tokLeaf : Node) (tokEnd : Nat) :
    ∀ (acts : List PAct) (stack : List (Nat × List Node)) (pos : Nat) (extras : List Node)
      (root : Node),
      applyActs n L tokLeaf tokEnd acts stack pos extras = .finished root →
      rootSpan root = (0, n) := by
  intro acts
  induction acts with
  | nil =>
    intro stack pos extras root heq
    exact StepRes.noConfusion heq
  | cons a rest IH =>
    intro stack pos extras root heq
    cases a with
    | shift s => exact StepRes.noConfusion heq
    | shiftExtra => exact StepRes.noConfusion heq
    | reduce sym cnt prodId =>
      simp only [applyActs] at heq
      cases hdr : doReduce L stack pos sym cnt prodId with
      | none => rw [hdr] at heq; exact StepRes.noConfusion heq
      | some s2 =>
        rw [hdr] at heq
        exact IH s2 pos extras root heq
    | accept =>
      simp only [applyActs] at heq
      injection heq with h
      rw [← h]
      exact rootSpan_finishRoot n _
    | recover => exact StepRes.noConfusion heq

/-- `applyActs` preserves the leaf tiling: a `.cont` exit keeps the extents of
the configuration tiling `[0, pos2)` with `pos2 ≤ n`, and a `.finished` exit
hands back a root whose leaf extents tile the whole input. -/
theorem applyActs_tiles (n : Nat) (L : Lang) (sym tokS tokEnd pos0 : Nat)
    (hple : pos0 ≤ tokEnd) (hEnd : tokEnd ≤ n) :
    ∀ (acts : List PAct) (stack : List (Nat × List Node)) (extras : List Node),
      Tiles (extsOf stack extras []) 0 pos0 →
      ((∀ stack2 pos2 extras2,
          applyActs n L (Node.leaf sym pos0 tokS tokEnd) tokEnd acts stack pos0 extras =
            .cont stack2 pos2 extras2 →
          pos2 ≤ n ∧ Tiles (extsOf stack2 extras2 []) 0 pos2) ∧
       (∀ root, applyActs n L (Node.leaf sym pos0 tokS tokEnd) tokEnd acts stack pos0 extras =
            .finished root →
          Tiles (leafExts root) 0 n)) := by
  intro acts
  induction acts with
  | nil =>
    intro stack extras hT
    refine ⟨?_, ?_⟩
    · intro stack2 pos2 extras2 heq
      injection heq with h1 h2 h3
      rw [← h1, ← h2, ← h3]
      exact ⟨le_trans hple hEnd, hT⟩
    · intro root heq
      exact StepRes.noConfusion heq
  | cons a rest IH =>
    intro stack extras hT
    cases a with
    | shift s =>
      refine ⟨?_, ?_⟩
      · intro stack2 pos2 extras2 heq
        injection heq with h1 h2 h3
        rw [← h1, ← h2, ← h3]
        refine ⟨hEnd, ?_⟩
        rw [extsOf_shift]
        exact Tiles_snoc hT hple
      · intro root heq
        exact StepRes.noConfusion heq
    | shiftExtra =>
      refine ⟨?_, ?_⟩
      · intro stack2 pos2 extras2 heq
        injection heq with h1 h2 h3
        rw [← h1, ← h2, ← h3]
        refine ⟨hEnd, ?_⟩
        rw [extsOf_extraSnoc]
        exact Tiles_snoc hT hple
      · intro root heq
        exact StepRes.noConfusion heq
    | reduce sym cnt prodId =>
      cases hdr : doReduce L stack pos0 sym cnt prodId with
      | none =>
        refine ⟨?_, ?_⟩
        · intro stack2 pos2 extras2 heq
          simp only [applyActs] at heq
          rw [hdr] at heq
          exact StepRes.noConfusion heq
        · intro root heq
          simp only [applyActs] at heq
          rw [hdr] at heq
          exact StepRes.noConfusion heq
      | some s2 =>
        have hT2 : Tiles (extsOf s2 extras []) 0 pos0 := by
          rw [extsOf_congr_stack (stackNodes_doReduce hdr) extras []]
          exact hT
        refine ⟨?_, ?_⟩
        · intro stack2 pos2 extras2 heq
          simp only [applyActs] at heq
          rw [hdr] at heq
          exact (IH s2 extras hT2).1 stack2 pos2 extras2 heq
        · intro root heq
          simp only [applyActs] at heq
          rw [hdr] at heq
          exact (IH s2 extras hT2).2 root heq
    | accept =>
      refine ⟨?_, ?_⟩
      · intro stack2 pos2 extras2 heq
        exact StepRes.noConfusion heq
      · intro root heq
        injection heq with h
        rw [← h]
        rw [leafExts_finishRoot, extsOf_accept]
        exact Tiles_snoc hT (le_trans hple hEnd)
    | recover =>
      refine ⟨?_, ?_⟩
      · intro stack2 pos2 extras2 heq
        exact StepRes.noConfusion heq
      · intro root heq
        exact StepRes.noConfusion heq

/-- The per-step root-span invariant: a finished tree spans `[0, n)`. -/
def spanOK (n : Nat) : Sum Cfg Node → Prop
  | .inl _ => True
  | .inr t => rootSpan t = (0, n)

/-- The per-step tiling invariant: a continuing configuration keeps its
extents tiling `[0, pos)` with an empty error accumulator outside recovery;
a finished tree's leaf extents tile the whole input. -/
def stepOK (n : Nat) : Sum Cfg Node → Prop
  | .inl c2 => c2.pos ≤ n ∧ (c2.rc = false → c2.errAcc = []) ∧
      Tiles (extsOf c2.stack c2.extras c2.errAcc) 0 c2.pos
  | .inr t => Tiles (leafExts t) 0 n

/-- Every exit of one loop iteration hands back a full-span tree. -/
theorem spanOK_inl {n : Nat} {c : Cfg} : spanOK n (Sum.inl c) := True.intro

theorem spanOK_fin {n : Nat} {t : Node} (h : rootSpan t = (0, n)) : spanOK n (Sum.inr t) := h

theorem spanOK_elim_inr {n : Nat} {t : Node} (h : spanOK n (Sum.inr t)) :
    rootSpan t = (0, n) := h

theorem stepOK_mk {n : Nat} {stack : List (Nat × List Node)} {pos : Nat}
    {extras errAcc : List Node} {rc : Bool} (h1 : pos ≤ n) (h2 : rc = false → errAcc = [])
    (h3 : Tiles (extsOf stack extras errAcc) 0 pos) :
    stepOK n (Sum.inl ⟨stack, pos, extras, errAcc, rc⟩) := ⟨h1, h2, h3⟩

theorem stepOK_fin {n : Nat} {t : Node} (h : Tiles (leafExts t) 0 n) :
    stepOK n (Sum.inr t) := h

theorem stepOK_elim_inl {n : Nat} {c2 : Cfg} (h : stepOK n (Sum.inl c2)) :
    c2.pos ≤ n ∧ (c2.rc = false → c2.errAcc = []) ∧
      Tiles (extsOf c2.stack c2.extras c2.errAcc) 0 c2.pos := h

theorem stepOK_elim_inr {n : Nat} {t : Node} (h : stepOK n (Sum.inr t)) :
    Tiles (leafExts t) 0 n := h

theorem stepOnce_span (L : Lang) (cs : List Char) (stack : List (Nat × List Node)) (pos : Nat)
    (extras errAcc : List Node) (rc : Bool) :
    spanOK cs.length (stepOnce L cs ⟨stack, pos, extras, errAcc, rc⟩) := by
  simp only [stepOnce]
  split
  · split
    · split
      · exact spanOK_inl
      · exact spanOK_inl
    · exact spanOK_fin (rootSpan_finishStuck cs.length stack pos extras errAcc)
  · split
    · split
      · exact spanOK_inl
      · split
        · exact spanOK_fin (rootSpan_finishStuck cs.length stack pos extras errAcc)
        · exact spanOK_inl
    · split
      · split
        · exact spanOK_inl
        · rename_i root heq
          exact spanOK_fin (applyActs_finished_span cs.length L _ _ _ _ _ _ root heq)
        · exact spanOK_fin (rootSpan_finishStuck cs.length stack pos extras [])
        · exact spanOK_inl
      · exact spanOK_inl

/-- One loop iteration preserves the tiling invariant. -/
theorem stepOnce_tiles (L : Lang) (cs : List Char) (stack : List (Nat × List Node)) (pos : Nat)
    (extras errAcc : List Node) (rc : Bool) (hpos : pos ≤ cs.length)
    (hrec : rc = false → errAcc = []) (hT : Tiles (extsOf stack extras errAcc) 0 pos) :
    stepOK cs.length (stepOnce L cs ⟨stack, pos, extras, errAcc, rc⟩) := by
  have hEnd : pos + (lexFrom L.lexSts (L.lexModes.getD (topState stack) 0) (cs.drop pos)).endPos
      ≤ cs.length := by
    have h1 := lexFrom_endPos_le L.lexSts (L.lexModes.getD (topState stack) 0) (cs.drop pos)
    rw [List.length_drop] at h1
    omega
  simp only [stepOnce]
  split
  · -- lexical dead end
    split
    · rename_i hlt
      split
      · -- recovering: accumulate a one-character error leaf
        exact stepOK_mk (by omega) (by intro h; cases h)
          (by rw [extsOf_errSnoc]
              exact Tiles_snoc hT (by omega))
      · -- normal: the error leaf joins the pending extras
        rename_i hnr
        rw [hrec (by revert hnr; cases rc <;> simp)] at hT
        exact stepOK_mk (by omega) (fun _ => rfl)
          (by rw [extsOf_extraSnoc]
              exact Tiles_snoc hT (by omega))
    · exact stepOK_fin (Tiles_finishStuck hpos hT)
  · -- a token was lexed
    split
    · -- recovering
      split
      · -- resynchronize: bundle the popped frames into an error node
        exact stepOK_mk hpos (fun _ => rfl)
          (by rw [extsOf_resync]
              exact hT)
      · split
        · exact stepOK_fin (Tiles_finishStuck hpos hT)
        · -- discard the token as an error leaf
          exact stepOK_mk hEnd (by intro h; cases h)
            (by rw [extsOf_errSnoc]
                exact Tiles_snoc hT (Nat.le_add_right _ _))
    · -- normal dispatch
      rename_i hnr2
      rw [hrec (by revert hnr2; cases rc <;> simp)] at hT
      split
      · split
        · -- continue
          rename_i stack2 pos2 extras2 heq
          have h2 := (applyActs_tiles cs.length L _ _ _ pos (Nat.le_add_right _ _) hEnd
            _ stack extras hT).1 stack2 pos2 extras2 heq
          exact stepOK_mk h2.1 (fun _ => rfl) h2.2
        · -- accepted
          rename_i root heq
          exact stepOK_fin ((applyActs_tiles cs.length L _ _ _ pos (Nat.le_add_right _ _) hEnd
            _ stack extras hT).2 root heq)
        · -- table-contract violation
          exact stepOK_fin (Tiles_finishStuck hpos hT)
        · -- explicit recover action: enter recovery with the token as error
          exact stepOK_mk hEnd (by intro h; cases h)
            (by rw [extsOf_errOne]
                exact Tiles_snoc hT (Nat.le_add_right _ _))
      · -- no action: enter recovery with the token as error
        exact stepOK_mk hEnd (by intro h; cases h)
          (by rw [extsOf_errOne]
              exact Tiles_snoc hT (Nat.le_add_right _ _))

/-- Every exit path of the parse loop returns a root spanning `[0, n)`. -/
theorem runP_span (L : Lang) (cs : List Char) :
    ∀ (fuel : Nat) (stack : List (Nat × List Node)) (pos : Nat) (extras errAcc : List Node)
      (rc : Bool),
      rootSpan (runP L cs fuel stack pos extras errAcc rc) = (0, cs.length) := by
  intro fuel
  induction fuel with
  | zero => intro stack pos extras errAcc rc; rfl
  | succ fuel IH =>
    intro stack pos extras errAcc rc
    have hstep := stepOnce_span L cs stack pos extras errAcc rc
    simp only [runP]
    cases hs : stepOnce L cs ⟨stack, pos, extras, errAcc, rc⟩ with
    | inl c2 => exact IH c2.stack c2.pos c2.extras c2.errAcc c2.rc
    | inr t =>
      rw [hs] at hstep
      exact spanOK_elim_inr hstep

/-- The parse loop preserves the tiling invariant: if the configuration's
leaf extents tile `[0, pos)` (and the error accumulator is empty outside
recovery), the returned tree's leaf extents tile the whole input. -/
theorem runP_tiles (L : Lang) (cs : List Char) :
    ∀ (fuel : Nat) (stack : List (Nat × List Node)) (pos : Nat) (extras errAcc : List Node)
      (rc : Bool), pos ≤ cs.length → (rc = false → errAcc = []) →
      Tiles (extsOf stack extras errAcc) 0 pos →
      Tiles (leafExts (runP L cs fuel stack pos extras errAcc rc)) 0 cs.length := by
  intro fuel
  induction fuel with
  | zero =>
    intro stack pos extras errAcc rc hpos _ hT
    exact Tiles_finishStuck hpos hT
  | succ fuel IH =>
    intro stack pos extras errAcc rc hpos hrec hT
    have hstep := stepOnce_tiles L cs stack pos extras errAcc rc hpos hrec hT
    simp only [runP]
    cases hs : stepOnce L cs ⟨stack, pos, extras, errAcc, rc⟩ with
    | inl c2 =>
      rw [hs] at hstep
      obtain ⟨h1, h2, h3⟩ := stepOK_elim_inl hstep
      exact IH c2.stack c2.pos c2.extras c2.errAcc c2.rc h1 h2 h3
    | inr t =>
      rw [hs] at hstep
      exact stepOK_elim_inr hstep

/-- Unfolding one parse-loop iteration whose step continues. -/
theorem runP_succ_inl {L : Lang} {cs : List Char} {fuel : Nat}
    {stack : List (Nat × List Node)} {pos : Nat} {extras errAcc : List Node} {rc : Bool}
    {stack2 : List (Nat × List Node)} {pos2 : Nat} {extras2 errAcc2 : List Node} {rc2 : Bool}
    (h : stepOnce L cs ⟨stack, pos, extras, errAcc, rc⟩ =
      Sum.inl ⟨stack2, pos2, extras2, errAcc2, rc2⟩) :
    runP L cs (fuel + 1) stack pos extras errAcc rc =
      runP L cs fuel stack2 pos2 extras2 errAcc2 rc2 := by
  rw [runP, h]

/-- Unfolding one parse-loop iteration whose step finishes. -/
theorem runP_succ_inr {L : Lang} {cs : List Char} {fuel : Nat}
    {stack : List (Nat × List Node)} {pos : Nat} {extras errAcc : List Node} {rc : Bool}
    {t : Node} (h : stepOnce L cs ⟨stack, pos, extras, errAcc, rc⟩ = Sum.inr t) :
    runP L cs (fuel + 1) stack pos extras errAcc rc = t := by
  rw [runP, h]

/-! ### C1, C2: totality, full-span roots and the leaf-span round trip -/

theorem sliceTxt_full (cs : List Char) : sliceTxt cs 0 cs.length = cs := by
  simp [sliceTxt]

/-- C1.  For every finite input buffer, a parse call returns a syntax tree
whose root span covers the full input — lexical errors, syntactic errors and
exhaustion are locally recovered into error-marked nodes rather than faulting.
Concretely: `package ;` (missing name, a syntactic error) yields a tree with
an error marker and a root span covering the whole input; `package %` (a
lexical error: `%` starts no token) and the truncated `package p \x7b` (input
exhausted inside a block) also yield error-marked trees. -/
theorem parse_returns_full_span_tree :
    (∀ cs, rootSpan (zedParse cs) = (0, cs.length)) ∧
    (∀ cs, rootSpan (tsParse cs) = (0, cs.length)) ∧
    (hasError (zedParse (String.toList "package ;")) = true ∧
     rootSpan (zedParse (String.toList "package ;")) =
       (0, (String.toList "package ;").length)) ∧
    hasError (zedParse (String.toList "package %")) = true ∧
    hasError (zedParse (String.toList "package p \x7b")) = true := by
  refine ⟨?_, ?_, ⟨by decide, runP_span zedLang _ _ _ _ _ _ _⟩, by decide, by decide⟩
  · intro cs
    exact runP_span zedLang cs _ _ _ _ _ _
  · intro cs
    exact runP_span tsLang cs _ _ _ _ _ _

/-- C2.  For every input buffer, the padded extents of the leaves of the
resulting tree tile the input contiguously in tree order — no gaps, no
overlaps — and concatenating the source text of those extents reproduces the
original input exactly, whitespace and comment text included. -/
theorem leaf_spans_tile_and_round_trip :
    (∀ cs, Tiles (leafExts (zedParse cs)) 0 cs.length ∧
           spansText cs (leafExts (zedParse cs)) = cs) ∧
    (∀ cs, Tiles (leafExts (tsParse cs)) 0 cs.length ∧
           spansText cs (leafExts (tsParse cs)) = cs) := by
  have key : ∀ (L : Lang) (cs : List Char),
      Tiles (leafExts (parseWith L cs)) 0 cs.length := by
    intro L cs
    have h0 : Tiles (extsOf [(1, [])] [] []) 0 0 := rfl
    exact runP_tiles L cs (8 * cs.length + 64) [(1, [])] 0 [] [] false
      (Nat.zero_le _) (fun _ => rfl) h0
  refine ⟨fun cs => ⟨key zedLang cs, ?_⟩, fun cs => ⟨key tsLang cs, ?_⟩⟩
  · show spansText cs (leafExts (parseWith zedLang cs)) = cs
    rw [Tiles_spansText cs _ 0 cs.length (key zedLang cs), sliceTxt_full]
  · show spansText cs (leafExts (parseWith tsLang cs)) = cs
    rw [Tiles_spansText cs _ 0 cs.length (key tsLang cs), sliceTxt_full]

/-! ### Shared material for the two concrete parses (C8, C9) -/

/-- The statement list used for the C8 parse. -/
def c8input : List Char := String.toList "part a; part b; part c;"

/-- The C9 example input. -/
def c9input : List Char := String.toList "package p \x7b part x; \x7d"

/-- The extra symbols of the zed grammar: the comment terminal and the error
symbol. -/
def zedExtras : List Nat := [23, 65535]

/-- The extra symbols of the sysml-ts grammar: the comment terminal and the
error symbol. -/
def tsExtras : List Nat := [205, 65535]

/-- The token text of a node (for a leaf, the characters of `[tokStart,
tokEnd)`; padding excluded). -/
def tokText (cs : List Char) : Node → List Char
  | .leaf _ _ a e => sliceTxt cs a e
  | .internal _ _ a b _ => sliceTxt cs a b

/-- The first visible child carrying a given symbol. -/
def firstWithSym (vis : Nat → Bool) (sym : Nat) (t : Node) : Option Node :=
  ((visKids vis t).filter (fun k => nodeSym k == sym)).head?

/-- The package declaration of the C9 parse. -/
def c9pd : Option Node := firstWithSym tsVis 209 (tsParse c9input)

/-- Its block. -/
def c9blk : Option Node := c9pd.bind (firstWithSym tsVis 208)

/-- The part usage inside the block. -/
def c9pu : Option Node := c9blk.bind (firstWithSym tsVis 212)

/-! ### Step-by-step evaluation of the two concrete parses -/

set_option maxRecDepth 16384

theorem c8s0 : stepOnce zedLang c8input ⟨[(1, [])], 0, [], [], false⟩ = Sum.inl ⟨[(45, [Node.leaf 5 0 0 4]), (1, [])], 4, [], [], false⟩ := rfl

theorem c8s1 : stepOnce zedLang c8input ⟨[(45, [Node.leaf 5 0 0 4]), (1, [])], 4, [], [], false⟩ = Sum.inl ⟨[(7, [Node.leaf 1 4 5 6]), (45, [Node.leaf 5 0 0 4]), (1, [])], 6, [], [], false⟩ := rfl

theorem c8s2 : stepOnce zedLang c8input ⟨[(7, [Node.leaf 1 4 5 6]), (45, [Node.leaf 5 0 0 4]), (1, [])], 6, [], [], false⟩ = Sum.inl ⟨[(42, [Node.leaf 7 6 6 7]), (7, [Node.leaf 1 4 5 6]), (45, [Node.leaf 5 0 0 4]), (1, [])], 7, [], [], false⟩ := rfl

theorem c8s3 : stepOnce zedLang c8input ⟨[(42, [Node.leaf 7 6 6 7]), (7, [Node.leaf 1 4 5 6]), (45, [Node.leaf 5 0 0 4]), (1, [])], 7, [], [], false⟩ = Sum.inl ⟨[(3, [Node.internal 28 1 0 7 [Node.leaf 5 0 0 4, Node.leaf 1 4 5 6, Node.leaf 7 6 6 7]]), (1, [])], 7, [], [], false⟩ := rfl

theorem c8s4 : stepOnce zedLang c8input ⟨[(3, [Node.internal 28 1 0 7 [Node.leaf 5 0 0 4, Node.leaf 1 4 5 6, Node.leaf 7 6 6 7]]), (1, [])], 7, [], [], false⟩ = Sum.inl ⟨[(45, [Node.leaf 5 7 8 12]), (3, [Node.internal 28 1 0 7 [Node.leaf 5 0 0 4, Node.leaf 1 4 5 6, Node.leaf 7 6 6 7]]), (1, [])], 12, [], [], false⟩ := rfl

theorem c8s5 : stepOnce zedLang c8input ⟨[(45, [Node.leaf 5 7 8 12]), (3, [Node.internal 28 1 0 7 [Node.leaf 5 0 0 4, Node.leaf 1 4 5 6, Node.leaf 7 6 6 7]]), (1, [])], 12, [], [], false⟩ = Sum.inl ⟨[(7, [Node.leaf 1 12 13 14]), (45, [Node.leaf 5 7 8 12]), (3, [Node.internal 28 1 0 7 [Node.leaf 5 0 0 4, Node.leaf 1 4 5 6, Node.leaf 7 6 6 7]]), (1, [])], 14, [], [], false⟩ := rfl

theorem c8s6 : stepOnce zedLang c8input ⟨[(7, [Node.leaf 1 12 13 14]), (45, [Node.leaf 5 7 8 12]), (3, [Node.internal 28 1 0 7 [Node.leaf 5 0 0 4, Node.leaf 1 4 5 6, Node.leaf 7 6 6 7]]), (1, [])], 14, [], [], false⟩ = Sum.inl ⟨[(42, [Node.leaf 7 14 14 15]), (7, [Node.leaf 1 12 13 14]), (45, [Node.leaf 5 7 8 12]), (3, [Node.internal 28 1 0 7 [Node.leaf 5 0 0 4, Node.leaf 1 4 5 6, Node.leaf 7 6 6 7]]), (1, [])], 15, [], [], false⟩ := rfl

theorem c8s7 : stepOnce zedLang c8input ⟨[(42, [Node.leaf 7 14 14 15]), (7, [Node.leaf 1 12 13 14]), (45, [Node.leaf 5 7 8 12]), (3, [Node.internal 28 1 0 7 [Node.leaf 5 0 0 4, Node.leaf 1 4 5 6, Node.leaf 7 6 6 7]]), (1, [])], 15, [], [], false⟩ = Sum.inl ⟨[(2, [Node.internal 28 1 7 15 [Node.leaf 5 7 8 12, Node.leaf 1 12 13 14, Node.leaf 7 14 14 15]]), (3, [Node.internal 28 1 0 7 [Node.leaf 5 0 0 4, Node.leaf 1 4 5 6, Node.leaf 7 6 6 7]]), (1, [])], 15, [], [], false⟩ := rfl

theorem c8s8 : stepOnce zedLang c8input ⟨[(2, [Node.internal 28 1 7 15 [Node.leaf 5 7 8 12, Node.leaf 1 12 13 14, Node.leaf 7 14 14 15]]), (3, [Node.internal 28 1 0 7 [Node.leaf 5 0 0 4, Node.leaf 1 4 5 6, Node.leaf 7 6 6 7]]), (1, [])], 15, [], [], false⟩ = Sum.inl ⟨[(45, [Node.leaf 5 15 16 20]), (3, [Node.internal 35 0 0 15 [Node.internal 28 1 0 7 [Node.leaf 5 0 0 4, Node.leaf 1 4 5 6, Node.leaf 7 6 6 7], Node.internal 28 1 7 15 [Node.leaf 5 7 8 12, Node.leaf 1 12 13 14, Node.leaf 7 14 14 15]]]), (1, [])], 20, [], [], false⟩ := rfl

theorem c8s9 : stepOnce zedLang c8input ⟨[(45, [Node.leaf 5 15 16 20]), (3, [Node.internal 35 0 0 15 [Node.internal 28 1 0 7 [Node.leaf 5 0 0 4, Node.leaf 1 4 5 6, Node.leaf 7 6 6 7], Node.internal 28 1 7 15 [Node.leaf 5 7 8 12, Node.leaf 1 12 13 14, Node.leaf 7 14 14 15]]]), (1, [])], 20, [], [], false⟩ = Sum.inl ⟨[(7, [Node.leaf 1 20 21 22]), (45, [Node.leaf 5 15 16 20]), (3, [Node.internal 35 0 0 15 [Node.internal 28 1 0 7 [Node.leaf 5 0 0 4, Node.leaf 1 4 5 6, Node.leaf 7 6 6 7], Node.internal 28 1 7 15 [Node.leaf 5 7 8 12, Node.leaf 1 12 13 14, Node.leaf 7 14 14 15]]]), (1, [])], 22, [], [], false⟩ := rfl

theorem c8s10 : stepOnce zedLang c8input ⟨[(7, [Node.leaf 1 20 21 22]), (45, [Node.leaf 5 15 16 20]), (3, [Node.internal 35 0 0 15 [Node.internal 28 1 0 7 [Node.leaf 5 0 0 4, Node.leaf 1 4 5 6, Node.leaf 7 6 6 7], Node.internal 28 1 7 15 [Node.leaf 5 7 8 12, Node.leaf 1 12 13 14, Node.leaf 7 14 14 15]]]), (1, [])], 22, [], [], false⟩ = Sum.inl ⟨[(42, [Node.leaf 7 22 22 23]), (7, [Node.leaf 1 20 21 22]), (45, [Node.leaf 5 15 16 20]), (3, [Node.internal 35 0 0 15 [Node.internal 28 1 0 7 [Node.leaf 5 0 0 4, Node.leaf 1 4 5 6, Node.leaf 7 6 6 7], Node.internal 28 1 7 15 [Node.leaf 5 7 8 12, Node.leaf 1 12 13 14, Node.leaf 7 14 14 15]]]), (1, [])], 23, [], [], false⟩ := rfl

theorem c8s11 : stepOnce zedLang c8input ⟨[(42, [Node.leaf 7 22 22 23]), (7, [Node.leaf 1 20 21 22]), (45, [Node.leaf 5 15 16 20]), (3, [Node.internal 35 0 0 15 [Node.internal 28 1 0 7 [Node.leaf 5 0 0 4, Node.leaf 1 4 5 6, Node.leaf 7 6 6 7], Node.internal 28 1 7 15 [Node.leaf 5 7 8 12, Node.leaf 1 12 13 14, Node.leaf 7 14 14 15]]]), (1, [])], 23, [], [], false⟩ = Sum.inl ⟨[(2, [Node.internal 28 1 15 23 [Node.leaf 5 15 16 20, Node.leaf 1 20 21 22, Node.leaf 7 22 22 23]]), (3, [Node.internal 35 0 0 15 [Node.internal 28 1 0 7 [Node.leaf 5 0 0 4, Node.leaf 1 4 5 6, Node.leaf 7 6 6 7], Node.internal 28 1 7 15 [Node.leaf 5 7 8 12, Node.leaf 1 12 13 14, Node.leaf 7 14 14 15]]]), (1, [])], 23, [], [], false⟩ := rfl

theorem c8s12 : stepOnce zedLang c8input ⟨[(2, [Node.internal 28 1 15 23 [Node.leaf 5 15 16 20, Node.leaf 1 20 21 22, Node.leaf 7 22 22 23]]), (3, [Node.internal 35 0 0 15 [Node.internal 28 1 0 7 [Node.leaf 5 0 0 4, Node.leaf 1 4 5 6, Node.leaf 7 6 6 7], Node.internal 28 1 7 15 [Node.leaf 5 7 8 12, Node.leaf 1 12 13 14, Node.leaf 7 14 14 15]]]), (1, [])], 23, [], [], false⟩ = Sum.inl ⟨[(3, [Node.internal 35 0 0 23 [Node.internal 35 0 0 15 [Node.internal 28 1 0 7 [Node.leaf 5 0 0 4, Node.leaf 1 4 5 6, Node.leaf 7 6 6 7], Node.internal 28 1 7 15 [Node.leaf 5 7 8 12, Node.leaf 1 12 13 14, Node.leaf 7 14 14 15]], Node.internal 28 1 15 23 [Node.leaf 5 15 16 20, Node.leaf 1 20 21 22, Node.leaf 7 22 22 23]]]), (1, [])], 23, [], [], false⟩ := rfl

theorem c8s13 : stepOnce zedLang c8input ⟨[(3, [Node.internal 35 0 0 23 [Node.internal 35 0 0 15 [Node.internal 28 1 0 7 [Node.leaf 5 0 0 4, Node.leaf 1 4 5 6, Node.leaf 7 6 6 7], Node.internal 28 1 7 15 [Node.leaf 5 7 8 12, Node.leaf 1 12 13 14, Node.leaf 7 14 14 15]], Node.internal 28 1 15 23 [Node.leaf 5 15 16 20, Node.leaf 1 20 21 22, Node.leaf 7 22 22 23]]]), (1, [])], 23, [], [], false⟩ = Sum.inl ⟨[(46, [Node.internal 24 0 0 23 [Node.internal 35 0 0 23 [Node.internal 35 0 0 15 [Node.internal 28 1 0 7 [Node.leaf 5 0 0 4, Node.leaf 1 4 5 6, Node.leaf 7 6 6 7], Node.internal 28 1 7 15 [Node.leaf 5 7 8 12, Node.leaf 1 12 13 14, Node.leaf 7 14 14 15]], Node.internal 28 1 15 23 [Node.leaf 5 15 16 20, Node.leaf 1 20 21 22, Node.leaf 7 22 22 23]]]]), (1, [])], 23, [], [], false⟩ := rfl

theorem c8s14 : stepOnce zedLang c8input ⟨[(46, [Node.internal 24 0 0 23 [Node.internal 35 0 0 23 [Node.internal 35 0 0 15 [Node.internal 28 1 0 7 [Node.leaf 5 0 0 4, Node.leaf 1 4 5 6, Node.leaf 7 6 6 7], Node.internal 28 1 7 15 [Node.leaf 5 7 8 12, Node.leaf 1 12 13 14, Node.leaf 7 14 14 15]], Node.internal 28 1 15 23 [Node.leaf 5 15 16 20, Node.leaf 1 20 21 22, Node.leaf 7 22 22 23]]]]), (1, [])], 23, [], [], false⟩ = Sum.inr (Node.internal 24 0 0 23 [Node.internal 35 0 0 23 [Node.internal 35 0 0 15 [Node.internal 28 1 0 7 [Node.leaf 5 0 0 4, Node.leaf 1 4 5 6, Node.leaf 7 6 6 7], Node.internal 28 1 7 15 [Node.leaf 5 7 8 12, Node.leaf 1 12 13 14, Node.leaf 7 14 14 15]], Node.internal 28 1 15 23 [Node.leaf 5 15 16 20, Node.leaf 1 20 21 22, Node.leaf 7 22 22 23]], Node.leaf 0 23 23 23]) := rfl

theorem c9s0 : stepOnce tsLang c9input ⟨[(1, [])], 0, [], [], false⟩ = Sum.inl ⟨[(64, [Node.leaf 4 0 0 7]), (1, [])], 7, [], [], false⟩ := rfl

theorem c9s1 : stepOnce tsLang c9input ⟨[(64, [Node.leaf 4 0 0 7]), (1, [])], 7, [], [], false⟩ = Sum.inl ⟨[(20, [Node.leaf 1 7 8 9]), (64, [Node.leaf 4 0 0 7]), (1, [])], 9, [], [], false⟩ := rfl

theorem c9s2 : stepOnce tsLang c9input ⟨[(20, [Node.leaf 1 7 8 9]), (64, [Node.leaf 4 0 0 7]), (1, [])], 9, [], [], false⟩ = Sum.inl ⟨[(3, [Node.leaf 2 9 10 11]), (20, [Node.leaf 1 7 8 9]), (64, [Node.leaf 4 0 0 7]), (1, [])], 11, [], [], false⟩ := rfl

theorem c9s3 : stepOnce tsLang c9input ⟨[(3, [Node.leaf 2 9 10 11]), (20, [Node.leaf 1 7 8 9]), (64, [Node.leaf 4 0 0 7]), (1, [])], 11, [], [], false⟩ = Sum.inl ⟨[(54, [Node.leaf 8 11 12 16]), (3, [Node.leaf 2 9 10 11]), (20, [Node.leaf 1 7 8 9]), (64, [Node.leaf 4 0 0 7]), (1, [])], 16, [], [], false⟩ := rfl

theorem c9s4 : stepOnce tsLang c9input ⟨[(54, [Node.leaf 8 11 12 16]), (3, [Node.leaf 2 9 10 11]), (20, [Node.leaf 1 7 8 9]), (64, [Node.leaf 4 0 0 7]), (1, [])], 16, [], [], false⟩ = Sum.inl ⟨[(6, [Node.leaf 1 16 17 18]), (54, [Node.leaf 8 11 12 16]), (3, [Node.leaf 2 9 10 11]), (20, [Node.leaf 1 7 8 9]), (64, [Node.leaf 4 0 0 7]), (1, [])], 18, [], [], false⟩ := rfl

theorem c9s5 : stepOnce tsLang c9input ⟨[(6, [Node.leaf 1 16 17 18]), (54, [Node.leaf 8 11 12 16]), (3, [Node.leaf 2 9 10 11]), (20, [Node.leaf 1 7 8 9]), (64, [Node.leaf 4 0 0 7]), (1, [])], 18, [], [], false⟩ = Sum.inl ⟨[(39, [Node.leaf 6 18 18 19]), (6, [Node.leaf 1 16 17 18]), (54, [Node.leaf 8 11 12 16]), (3, [Node.leaf 2 9 10 11]), (20, [Node.leaf 1 7 8 9]), (64, [Node.leaf 4 0 0 7]), (1, [])], 19, [], [], false⟩ := rfl

theorem c9s6 : stepOnce tsLang c9input ⟨[(39, [Node.leaf 6 18 18 19]), (6, [Node.leaf 1 16 17 18]), (54, [Node.leaf 8 11 12 16]), (3, [Node.leaf 2 9 10 11]), (20, [Node.leaf 1 7 8 9]), (64, [Node.leaf 4 0 0 7]), (1, [])], 19, [], [], false⟩ = Sum.inl ⟨[(5, [Node.internal 212 1 11 19 [Node.leaf 8 11 12 16, Node.leaf 1 16 17 18, Node.leaf 6 18 18 19]]), (3, [Node.leaf 2 9 10 11]), (20, [Node.leaf 1 7 8 9]), (64, [Node.leaf 4 0 0 7]), (1, [])], 19, [], [], false⟩ := rfl

theorem c9s7 : stepOnce tsLang c9input ⟨[(5, [Node.internal 212 1 11 19 [Node.leaf 8 11 12 16, Node.leaf 1 16 17 18, Node.leaf 6 18 18 19]]), (3, [Node.leaf 2 9 10 11]), (20, [Node.leaf 1 7 8 9]), (64, [Node.leaf 4 0 0 7]), (1, [])], 19, [], [], false⟩ = Sum.inl ⟨[(23, [Node.leaf 3 19 20 21]), (5, [Node.internal 212 1 11 19 [Node.leaf 8 11 12 16, Node.leaf 1 16 17 18, Node.leaf 6 18 18 19]]), (3, [Node.leaf 2 9 10 11]), (20, [Node.leaf 1 7 8 9]), (64, [Node.leaf 4 0 0 7]), (1, [])], 21, [], [], false⟩ := rfl

theorem c9s8 : stepOnce tsLang c9input ⟨[(23, [Node.leaf 3 19 20 21]), (5, [Node.internal 212 1 11 19 [Node.leaf 8 11 12 16, Node.leaf 1 16 17 18, Node.leaf 6 18 18 19]]), (3, [Node.leaf 2 9 10 11]), (20, [Node.leaf 1 7 8 9]), (64, [Node.leaf 4 0 0 7]), (1, [])], 21, [], [], false⟩ = Sum.inl ⟨[(36, [Node.internal 208 0 9 21 [Node.leaf 2 9 10 11, Node.internal 212 1 11 19 [Node.leaf 8 11 12 16, Node.leaf 1 16 17 18, Node.leaf 6 18 18 19], Node.leaf 3 19 20 21]]), (20, [Node.leaf 1 7 8 9]), (64, [Node.leaf 4 0 0 7]), (1, [])], 21, [], [], false⟩ := rfl

theorem c9s9 : stepOnce tsLang c9input ⟨[(36, [Node.internal 208 0 9 21 [Node.leaf 2 9 10 11, Node.internal 212 1 11 19 [Node.leaf 8 11 12 16, Node.leaf 1 16 17 18, Node.leaf 6 18 18 19], Node.leaf 3 19 20 21]]), (20, [Node.leaf 1 7 8 9]), (64, [Node.leaf 4 0 0 7]), (1, [])], 21, [], [], false⟩ = Sum.inl ⟨[(4, [Node.internal 209 1 0 21 [Node.leaf 4 0 0 7, Node.leaf 1 7 8 9, Node.internal 208 0 9 21 [Node.leaf 2 9 10 11, Node.internal 212 1 11 19 [Node.leaf 8 11 12 16, Node.leaf 1 16 17 18, Node.leaf 6 18 18 19], Node.leaf 3 19 20 21]]]), (1, [])], 21, [], [], false⟩ := rfl

theorem c9s10 : stepOnce tsLang c9input ⟨[(4, [Node.internal 209 1 0 21 [Node.leaf 4 0 0 7, Node.leaf 1 7 8 9, Node.internal 208 0 9 21 [Node.leaf 2 9 10 11, Node.internal 212 1 11 19 [Node.leaf 8 11 12 16, Node.leaf 1 16 17 18, Node.leaf 6 18 18 19], Node.leaf 3 19 20 21]]]), (1, [])], 21, [], [], false⟩ = Sum.inl ⟨[(62, [Node.internal 206 0 0 21 [Node.internal 209 1 0 21 [Node.leaf 4 0 0 7, Node.leaf 1 7 8 9, Node.internal 208 0 9 21 [Node.leaf 2 9 10 11, Node.internal 212 1 11 19 [Node.leaf 8 11 12 16, Node.leaf 1 16 17 18, Node.leaf 6 18 18 19], Node.leaf 3 19 20 21]]]]), (1, [])], 21, [], [], false⟩ := rfl

theorem c9s11 : stepOnce tsLang c9input ⟨[(62, [Node.internal 206 0 0 21 [Node.internal 209 1 0 21 [Node.leaf 4 0 0 7, Node.leaf 1 7 8 9, Node.internal 208 0 9 21 [Node.leaf 2 9 10 11, Node.internal 212 1 11 19 [Node.leaf 8 11 12 16, Node.leaf 1 16 17 18, Node.leaf 6 18 18 19], Node.leaf 3 19 20 21]]]]), (1, [])], 21, [], [], false⟩ = Sum.inr (Node.internal 206 0 0 21 [Node.internal 209 1 0 21 [Node.leaf 4 0 0 7, Node.leaf 1 7 8 9, Node.internal 208 0 9 21 [Node.leaf 2 9 10 11, Node.internal 212 1 11 19 [Node.leaf 8 11 12 16, Node.leaf 1 16 17 18, Node.leaf 6 18 18 19], Node.leaf 3 19 20 21]], Node.leaf 0 21 21 21]) := rfl

/-- The concrete C8 parse, fully evaluated. -/
theorem zedParse_c8_eq : zedParse c8input =
    Node.internal 24 0 0 23 [Node.internal 35 0 0 23 [Node.internal 35 0 0 15 [Node.internal 28 1 0 7 [Node.leaf 5 0 0 4, Node.leaf 1 4 5 6, Node.leaf 7 6 6 7], Node.internal 28 1 7 15 [Node.leaf 5 7 8 12, Node.leaf 1 12 13 14, Node.leaf 7 14 14 15]], Node.internal 28 1 15 23 [Node.leaf 5 15 16 20, Node.leaf 1 20 21 22, Node.leaf 7 22 22 23]], Node.leaf 0 23 23 23] := by
  rw [show zedParse c8input = runP zedLang c8input 248 [(1, [])] 0 [] [] false from rfl,
    runP_succ_inl c8s0,
    runP_succ_inl c8s1,
    runP_succ_inl c8s2,
    runP_succ_inl c8s3,
    runP_succ_inl c8s4,
    runP_succ_inl c8s5,
    runP_succ_inl c8s6,
    runP_succ_inl c8s7,
    runP_succ_inl c8s8,
    runP_succ_inl c8s9,
    runP_succ_inl c8s10,
    runP_succ_inl c8s11,
    runP_succ_inl c8s12,
    runP_succ_inl c8s13,
    runP_succ_inr c8s14]

/-- The concrete C9 parse, fully evaluated. -/
theorem tsParse_c9_eq : tsParse c9input =
    Node.internal 206 0 0 21 [Node.internal 209 1 0 21 [Node.leaf 4 0 0 7, Node.leaf 1 7 8 9, Node.internal 208 0 9 21 [Node.leaf 2 9 10 11, Node.internal 212 1 11 19 [Node.leaf 8 11 12 16, Node.leaf 1 16 17 18, Node.leaf 6 18 18 19], Node.leaf 3 19 20 21]], Node.leaf 0 21 21 21] := by
  rw [show tsParse c9input = runP tsLang c9input 232 [(1, [])] 0 [] [] false from rfl,
    runP_succ_inl c9s0,
    runP_succ_inl c9s1,
    runP_succ_inl c9s2,
    runP_succ_inl c9s3,
    runP_succ_inl c9s4,
    runP_succ_inl c9s5,
    runP_succ_inl c9s6,
    runP_succ_inl c9s7,
    runP_succ_inl c9s8,
    runP_succ_inl c9s9,
    runP_succ_inl c9s10,
    runP_succ_inr c9s11]

/-! ### C8: repeat-wrapper flattening -/

/-- A left-nested chain of auxiliary repeat wrappers, as a zero-or-more
repetition rule builds it: each step wraps the accumulated chain and the next
element under one wrapper node. -/
def repChain (auxSym : Nat) : Node → List Node → Node
  | acc, [] => acc
  | acc, s :: rest => repChain auxSym (mkInternal auxSym 0 0 [acc, s]) rest

theorem visOne_repChain (vis : Nat → Bool) (auxSym : Nat) (hvis : vis auxSym = false)
    (hne : (auxSym == errorSym) = false) :
    ∀ (ss : List Node) (acc : Node), (∀ s ∈ ss, visOne vis s = [s]) →
      visOne vis (repChain auxSym acc ss) = visOne vis acc ++ ss := by
  intro ss
  induction ss with
  | nil =>
    intro acc h
    simp [repChain]
  | cons s rest IH =>
    intro acc h
    rw [show repChain auxSym acc (s :: rest)
        = repChain auxSym (mkInternal auxSym 0 0 [acc, s]) rest from rfl]
    rw [IH _ (fun x hx => h x (List.mem_cons_of_mem s hx))]
    rw [show visOne vis (mkInternal auxSym 0 0 [acc, s]) = visFlat vis [acc, s] from by
      simp [mkInternal, visOne, hvis, hne]]
    simp [visFlat, h s (List.mem_cons_self s rest), List.append_assoc]

/-- C8.  A zero-or-more repetition parses as a left-nested chain of auxiliary
repeat wrappers, and since the wrapper symbol is invisible (and not the error
symbol) the visible-child view flattens any such chain to its elements in
insertion order — no wrapper is ever exposed.  Concretely, parsing
`part a; part b; part c;` under the zed grammar's repetition rule exposes
exactly three part-definition children (symbol 28) in source order (their
extents start at 0, 7, 15 and their name fields read `a`, `b`, `c`), and the
auxiliary repeat symbol 35 is invisible. -/
theorem zed_repeat_flattening :
    (∀ (vis : Nat → Bool) (auxSym : Nat), vis auxSym = false →
       (auxSym == errorSym) = false →
       ∀ (ss : List Node) (acc : Node), (∀ s ∈ ss, visOne vis s = [s]) →
         visOne vis (repChain auxSym acc ss) = visOne vis acc ++ ss) ∧
    zedVis 35 = false ∧
    (visKids zedVis (zedParse c8input)).map nodeSym = [28, 28, 28] ∧
    (visKids zedVis (zedParse c8input)).map nodeLo = [0, 7, 15] ∧
    (visKids zedVis (zedParse c8input)).map
      (fun pd => (fieldChild Zed.fieldTbl zedExtras pd 1).map (tokText c8input)) =
      [some (String.toList "a"), some (String.toList "b"), some (String.toList "c")] :=
  ⟨visOne_repChain, by decide, by rw [zedParse_c8_eq]; decide,
   by rw [zedParse_c8_eq]; decide, by rw [zedParse_c8_eq]; decide⟩

/-- Witness for C8: flattening a concrete two-step wrapper chain over three
visible part-definition leaves exposes the three leaves as siblings. -/
theorem zed_repeat_flattening_witness :
    visOne zedVis (repChain 35 (Node.leaf 28 0 0 1)
      [Node.leaf 28 1 1 2, Node.leaf 28 2 2 3]) =
    [Node.leaf 28 0 0 1, Node.leaf 28 1 1 2, Node.leaf 28 2 2 3] := by
  rw [zed_repeat_flattening.1 zedVis 35 (by decide) (by decide)
    [Node.leaf 28 1 1 2, Node.leaf 28 2 2 3] (Node.leaf 28 0 0 1) ?h]
  · rfl
  · intro s hs
    fin_cases hs <;> rfl

/-! ### C9: the example scenario `package p { part x; }` -/

/-- C9.  Parsing `package p \x7b part x; \x7d` with the sysml-ts grammar
yields a source-file root (symbol 206) with exactly one visible child, a
package declaration (209); its field `name` (field id 1) resolves to the
identifier leaf (symbol 1) reading `p`; its block (208) contains exactly one
part usage (212), whose field `name` resolves to the identifier leaf reading
`x`; and concatenating the padded leaf spans of the tree reconstructs the
literal input. -/
theorem ts_example_scenario :
    nodeSym (tsParse c9input) = 206 ∧
    (visKids tsVis (tsParse c9input)).map nodeSym = [209] ∧
    (c9pd.bind (fun pd => (fieldChild Ts.fieldTbl tsExtras pd 1).map
       (fun nm => (nodeSym nm, tokText c9input nm)))) = some (1, String.toList "p") ∧
    (c9blk.map (fun b => ((visKids tsVis b).filter (fun k => nodeSym k == 212)).map nodeSym)) =
      some [212] ∧
    (c9pu.bind (fun pu => (fieldChild Ts.fieldTbl tsExtras pu 1).map
       (fun nm => (nodeSym nm, tokText c9input nm)))) = some (1, String.toList "x") ∧
    spansText c9input (leafExts (tsParse c9input)) = c9input :=
  ⟨by rw [tsParse_c9_eq]; decide, by rw [tsParse_c9_eq]; decide,
   by simp only [c9pd]; rw [tsParse_c9_eq]; decide,
   by simp only [c9blk, c9pd]; rw [tsParse_c9_eq]; decide,
   by simp only [c9pu, c9blk, c9pd]; rw [tsParse_c9_eq]; decide,
   by rw [tsParse_c9_eq]; decide⟩
